import Mathlib

/-!
# The persistent header codec of `ft/ft-serialize.c`

A shallow embedding of the header codec (size prediction, encoder, version
dispatched decoder), the descriptor codec, the slot reader, the double-header
arbiter and the checkpoint writer, followed by theorems about them.

Conventions of the embedding

* a byte is a `Nat`; every encoder produces values below 256;
* C integers are `Nat` (unsigned views, reduced `% 2^w` where they are
  stored) or `Int` (`DISKOFF`, return codes);
* a function that can stop the process on a failed `assert`, `lazy_assert`
  or `invariant` returns an `Option`; `none` is the abort;
* the file descriptor and the external collaborators are an explicit
  `World` value; global `errno` is part of a function's result.
-/

namespace FtSerialize

/-! ## Bytes and integers -/

/-- One octet of a buffer. -/
abbrev Byte := Nat

/-- The `n` low-order octets of `x`, most significant first. -/
def be_bytes : Nat → Nat → List Byte
  | 0, _ => []
  | n + 1, x => (x / 256 ^ n % 256) :: be_bytes n x

/-- The `n` low-order octets of `x`, least significant first. -/
def le_bytes : Nat → Nat → List Byte
  | 0, _ => []
  | n + 1, x => (x % 256) :: le_bytes n (x / 256)

/-- The integer a run of octets holds, most significant first. -/
def be_value (bs : List Byte) : Nat :=
  bs.foldl (fun acc b => acc * 256 + b) 0

/-- The integer a run of octets holds, least significant first. -/
def le_value : List Byte → Nat
  | [] => 0
  | b :: bs => b + 256 * le_value bs

/-- Two's complement view of a signed 64-bit value (`int64_t` to its bit pattern). -/
def of_int64 (x : Int) : Nat := (x % 2 ^ 64).toNat

/-- Signed reading of a 64-bit pattern (`int64_t`). -/
def to_int64 (x : Nat) : Int :=
  if x % 2 ^ 64 < 2 ^ 63 then ((x % 2 ^ 64 : Nat) : Int) else ((x % 2 ^ 64 : Nat) : Int) - 2 ^ 64

/-! ## Constants and parameters that live outside `ft-serialize.c` -/

/-- Modelled from the spec: the layout version enumerators of `ft_layout_version.h`
(missing from src); the spec's version table numbers them 12 to 20. -/
def FT_LAYOUT_VERSION_12 : Nat := 12
/-- Modelled from the spec: layout version 13. -/
def FT_LAYOUT_VERSION_13 : Nat := 13
/-- Modelled from the spec: layout version 14. -/
def FT_LAYOUT_VERSION_14 : Nat := 14
/-- Modelled from the spec: layout version 15. -/
def FT_LAYOUT_VERSION_15 : Nat := 15
/-- Modelled from the spec: layout version 16. -/
def FT_LAYOUT_VERSION_16 : Nat := 16
/-- Modelled from the spec: layout version 17. -/
def FT_LAYOUT_VERSION_17 : Nat := 17
/-- Modelled from the spec: layout version 18. -/
def FT_LAYOUT_VERSION_18 : Nat := 18
/-- Modelled from the spec: layout version 19. -/
def FT_LAYOUT_VERSION_19 : Nat := 19
/-- Modelled from the spec: layout version 20. -/
def FT_LAYOUT_VERSION_20 : Nat := 20
/-- Modelled from the spec: section 6, `FT_LAYOUT_VERSION = 20`. -/
def FT_LAYOUT_VERSION : Nat := FT_LAYOUT_VERSION_20
/-- Modelled from the spec: section 6, `FT_LAYOUT_MIN_SUPPORTED_VERSION = 12`. -/
def FT_LAYOUT_MIN_SUPPORTED_VERSION : Nat := FT_LAYOUT_VERSION_12

/-- The eight octets of the literal `"tokudata"`. -/
def tokudata : List Byte := [116, 111, 107, 117, 100, 97, 116, 97]

/-- Everything `ft-serialize.c` takes from headers that are not part of src:
the host's byte order, the checksum X, and named constants whose values the
spec does not give.  They are parameters of the whole development. -/
structure Platform where
  /-- whether the host stores integers least significant octet first -/
  little_endian : Bool
  /-- the checksum X (`x1764_memory`) of a run of octets -/
  x1764 : List Byte → Nat
  /-- the host constant `toku_byte_order_host` (a 64-bit integer) -/
  toku_byte_order_host : Nat
  /-- the build identifier `BUILD_ID` compiled into the binary -/
  BUILD_ID : Nat
  /-- the reservation of one header slot and the offset of slot 1 -/
  BLOCK_ALLOCATOR_HEADER_RESERVE : Nat
  /-- the deprecated flag bit `TOKU_DB_VALCMP_BUILTIN_13` -/
  TOKU_DB_VALCMP_BUILTIN_13 : Nat
  /-- the default `FT_DEFAULT_BASEMENT_NODE_SIZE` -/
  FT_DEFAULT_BASEMENT_NODE_SIZE : Nat
  /-- the message sequence number `MIN_MSN.msn` -/
  MIN_MSN : Nat
  /-- the message sequence number `ZERO_MSN.msn` -/
  ZERO_MSN : Nat
  /-- the enumerator `TOKU_ZLIB_METHOD` -/
  TOKU_ZLIB_METHOD : Nat
  /-- the enumerator `TOKU_QUICKLZ_METHOD` -/
  TOKU_QUICKLZ_METHOD : Nat
  /-- the sentinel `TOKUDB_DICTIONARY_TOO_OLD` -/
  TOKUDB_DICTIONARY_TOO_OLD : Int
  /-- the sentinel `TOKUDB_DICTIONARY_TOO_NEW` -/
  TOKUDB_DICTIONARY_TOO_NEW : Int
  /-- the sentinel `TOKUDB_DICTIONARY_NO_HEADER` -/
  TOKUDB_DICTIONARY_NO_HEADER : Int
  /-- the OS error number `EINVAL` -/
  EINVAL : Int

/-- Octets of the low `8*n` bits of `x` in host order (spec section 6: after the
prefix all multi-byte fields are in host order). -/
def host_bytes (p : Platform) (n : Nat) (x : Nat) : List Byte :=
  if p.little_endian then le_bytes n x else be_bytes n x

/-- The integer a run of octets holds in host order (`toku_dtoh32` of a raw load). -/
def host_value (p : Platform) (bs : List Byte) : Nat :=
  if p.little_endian then le_value bs else be_value bs

/-- Modelled from the spec: `x1764_memory(buf, len)`, the 32-bit X checksum of
a run of octets (x1764.c is missing from src). -/
def x1764_memory (p : Platform) (bs : List Byte) : Nat := p.x1764 bs % 2 ^ 32

/-! ## Write cursor (`struct wbuf`) -/

/-- Modelled from the spec: the write cursor of section 4.1 (wbuf.h is missing
from src).  `buf` holds the octets written so far, so `ndone` is its length;
`size` is the fixed final size; `checksum` is the running X state, kept as the
octets folded into it so far. -/
structure wbuf where
  buf : List Byte
  size : Nat
  checksum : List Byte
deriving DecidableEq, Repr

/-- The write offset `w->ndone`. -/
def wbuf.ndone (w : wbuf) : Nat := w.buf.length

/-- Modelled from the spec: `wbuf_init(w, buf, size)`, an empty cursor over a
buffer of `size` octets with a fresh checksum state. -/
def wbuf_init (size : Nat) : wbuf := { buf := [], size := size, checksum := [] }

/-- Modelled from the spec: `x1764_finish`, the digest of the running state. -/
def x1764_finish (p : Platform) (checksum : List Byte) : Nat := x1764_memory p checksum

/-- Modelled from the spec: `wbuf_literal_bytes`, a run of octets with no
length prefix and no byte-order translation.  Overrunning the buffer aborts
(section 4.1).  The octets are folded into the running checksum: section 6
("the final 4 bytes of the slot are the X checksum of all preceding bytes")
and section 8.4 ("checksum is computed over probe bytes") require it, and the
slot reader of this file checks X over every octet before the stored digest. -/
def wbuf_literal_bytes (w : wbuf) (bytes : List Byte) : Option wbuf :=
  if w.ndone + bytes.length ≤ w.size then
    some { w with buf := w.buf ++ bytes, checksum := w.checksum ++ bytes }
  else none

/-- Modelled from the spec: `wbuf_network_int`, a 32-bit integer in network order. -/
def wbuf_network_int (w : wbuf) (i : Nat) : Option wbuf :=
  wbuf_literal_bytes w (be_bytes 4 i)

/-- Modelled from the spec: `wbuf_int`, a 32-bit integer in host order. -/
def wbuf_int (p : Platform) (w : wbuf) (i : Nat) : Option wbuf :=
  wbuf_literal_bytes w (host_bytes p 4 i)

/-- Modelled from the spec: `wbuf_ulonglong`, a 64-bit integer in host order. -/
def wbuf_ulonglong (p : Platform) (w : wbuf) (i : Nat) : Option wbuf :=
  wbuf_literal_bytes w (host_bytes p 8 i)

/-- Modelled from the spec: `wbuf_char`, one octet. -/
def wbuf_char (w : wbuf) (c : Nat) : Option wbuf :=
  wbuf_literal_bytes w [c % 256]

/-- Modelled from the spec: `wbuf_LSN`, the 64 bits of a log sequence number. -/
def wbuf_LSN (p : Platform) (w : wbuf) (lsn : Nat) : Option wbuf := wbuf_ulonglong p w lsn

/-- Modelled from the spec: `wbuf_MSN`, the 64 bits of a message sequence number. -/
def wbuf_MSN (p : Platform) (w : wbuf) (msn : Nat) : Option wbuf := wbuf_ulonglong p w msn

/-- Modelled from the spec: `wbuf_TXNID`, the 64 bits of a transaction id. -/
def wbuf_TXNID (p : Platform) (w : wbuf) (x : Nat) : Option wbuf := wbuf_ulonglong p w x

/-- Modelled from the spec: `wbuf_BLOCKNUM`, the 64 bits of a logical block id. -/
def wbuf_BLOCKNUM (p : Platform) (w : wbuf) (b : Nat) : Option wbuf := wbuf_ulonglong p w b

/-- Modelled from the spec: `wbuf_DISKOFF`, a signed 64-bit disk offset. -/
def wbuf_DISKOFF (p : Platform) (w : wbuf) (off : Int) : Option wbuf :=
  wbuf_ulonglong p w (of_int64 off)

/-- Modelled from the spec: `wbuf_bytes`, a run of octets prefixed by its
32-bit host-order length. -/
def wbuf_bytes (p : Platform) (w : wbuf) (bytes : List Byte) (nbytes : Nat) : Option wbuf := do
  let w ← wbuf_int p w nbytes
  wbuf_literal_bytes w (bytes.take nbytes)

/-! ## Read cursor (`struct rbuf`) -/

/-- Modelled from the spec: the read cursor of section 4.1 (rbuf.h is missing
from src): a borrowed buffer, its size and the read offset. -/
structure rbuf where
  buf : List Byte
  size : Nat
  ndone : Nat
deriving DecidableEq, Repr

/-- Modelled from the spec: `rbuf_init(r, buf, size)`. -/
def rbuf_init (buf : List Byte) (size : Nat) : rbuf := { buf := buf, size := size, ndone := 0 }

/-- Modelled from the spec: `rbuf_literal_bytes`, the next `n` octets as they
are.  A read that would advance past the end of the buffer fails (section
4.1); in C that is a failed assertion. -/
def rbuf_literal_bytes (r : rbuf) (n : Nat) : Option (List Byte × rbuf) :=
  if r.ndone + n ≤ r.size then
    some ((r.buf.drop r.ndone).take n, { r with ndone := r.ndone + n })
  else none

/-- Modelled from the spec: `rbuf_network_int`, a 32-bit integer in network order. -/
def rbuf_network_int (r : rbuf) : Option (Nat × rbuf) :=
  (rbuf_literal_bytes r 4).map fun x => (be_value x.1, x.2)

/-- Modelled from the spec: `rbuf_int`, a 32-bit integer in host order. -/
def rbuf_int (p : Platform) (r : rbuf) : Option (Nat × rbuf) :=
  (rbuf_literal_bytes r 4).map fun x => (host_value p x.1, x.2)

/-- Modelled from the spec: `rbuf_ulonglong`, a 64-bit integer in host order. -/
def rbuf_ulonglong (p : Platform) (r : rbuf) : Option (Nat × rbuf) :=
  (rbuf_literal_bytes r 8).map fun x => (host_value p x.1, x.2)

/-- Modelled from the spec: `rbuf_char`, one octet. -/
def rbuf_char (r : rbuf) : Option (Nat × rbuf) :=
  (rbuf_literal_bytes r 1).map fun x => (be_value x.1, x.2)

/-- Modelled from the spec: `rbuf_lsn`. -/
def rbuf_lsn (p : Platform) (r : rbuf) : Option (Nat × rbuf) := rbuf_ulonglong p r

/-- Modelled from the spec: `rbuf_msn`. -/
def rbuf_msn (p : Platform) (r : rbuf) : Option (Nat × rbuf) := rbuf_ulonglong p r

/-- Modelled from the spec: `rbuf_TXNID`. -/
def rbuf_TXNID (p : Platform) (r : rbuf) : Option (Nat × rbuf) := rbuf_ulonglong p r

/-- Modelled from the spec: `rbuf_blocknum`. -/
def rbuf_blocknum (p : Platform) (r : rbuf) : Option (Nat × rbuf) := rbuf_ulonglong p r

/-- Modelled from the spec: `rbuf_diskoff`, a signed 64-bit disk offset. -/
def rbuf_diskoff (p : Platform) (r : rbuf) : Option (Int × rbuf) :=
  (rbuf_ulonglong p r).map fun x => (to_int64 x.1, x.2)

/-- Modelled from the spec: `rbuf_bytes`, a run of octets prefixed by its
32-bit host-order length; yields the octets and the length. -/
def rbuf_bytes (p : Platform) (r : rbuf) : Option ((List Byte × Nat) × rbuf) := do
  let (len, r) ← rbuf_int p r
  let (data, r) ← rbuf_literal_bytes r len
  some ((data, len), r)

/-! ## Size prediction -/

/-- The function `serialize_ft_min_size`: the switch falls through from the
given version down to version 12, on a `u_int32_t` accumulator; the default
case and the final bound are assertions. -/
def serialize_ft_min_size (p : Platform) (version : Nat) : Option Nat :=
  if version < FT_LAYOUT_VERSION_12 ∨ FT_LAYOUT_VERSION_20 < version then none
  else
    let size : Nat := 0
    let size := if FT_LAYOUT_VERSION_19 ≤ version then (size + 1 + 8) % 2 ^ 32 else size
    let size := if FT_LAYOUT_VERSION_18 ≤ version then
        (size + 8 + 8 + 4 + 8 + (2 ^ 32 - 8) + (2 ^ 32 - 8)) % 2 ^ 32 else size
    let size := if FT_LAYOUT_VERSION_17 ≤ version then (size + 16) % 2 ^ 32 else size
    let size := if FT_LAYOUT_VERSION_15 ≤ version then (size + 4 + 8 + 8) % 2 ^ 32 else size
    let size := if FT_LAYOUT_VERSION_14 ≤ version then (size + 8) % 2 ^ 32 else size
    let size := if FT_LAYOUT_VERSION_13 ≤ version then (size + (4 + 4 + 8 + 8)) % 2 ^ 32 else size
    let size := (size + (8 + 4 + 4 + 4 + 8 + 8 + 8 + 4 + 8 + 8 + 4 + 8 + 8 + 4)) % 2 ^ 32
    if size ≤ p.BLOCK_ALLOCATOR_HEADER_RESERVE then some size else none

/-- The function `toku_serialize_ft_size`, for a header whose `layout_version` is given. -/
def toku_serialize_ft_size (p : Platform) (layout_version : Nat) : Option Nat := do
  let size ← serialize_ft_min_size p layout_version
  if size ≤ p.BLOCK_ALLOCATOR_HEADER_RESERVE then some size else none

/-! ## The in-memory header -/

/-- The result kind `enum deserialize_error_code`. -/
inductive deserialize_error_code
  | DS_OK
  | DS_ERRNO
  | DS_XSUM_FAIL
deriving DecidableEq, Repr

/-- The variant tag `h->type`. -/
inductive ft_type
  | FT_CURRENT
  | FT_CHECKPOINT_INPROGRESS
deriving DecidableEq, Repr

/-- The pair `STAT64INFO_S`. -/
structure STAT64INFO_S where
  numrows : Nat
  numbytes : Nat
deriving DecidableEq, Repr

/-- A `DBT`: a borrowed or owned byte run and its length (`data = NULL` is the empty run). -/
structure DBT where
  data : List Byte
  size : Nat
deriving DecidableEq, Repr

/-- A descriptor, `DESCRIPTOR_S`. -/
structure DESCRIPTOR_S where
  dbt : DBT
deriving DecidableEq, Repr

/-- Modelled from the spec: the block-translation table is an external
collaborator (block_table.c is missing from src); the header codec forwards
the translation address and size to its loader and asks it only for the
descriptor's location (`toku_get_descriptor_offset_size`). -/
structure BLOCK_TABLE where
  translation_address_on_disk : Int
  translation_size_on_disk : Int
  descriptor_offset : Int
  descriptor_size : Int
deriving DecidableEq, Repr

/-- Modelled from the spec: the header `struct ft` (ft-internal.h is missing
from src), with the fields of the data model of section 3 and the ones
`ft-serialize.c` touches.  Pointers are `Option`s of a handle; the in-memory
containers (`live_ft_handles`, `txns`) and the tree lock hold no persisted
data and are left out. -/
structure FT where
  type : ft_type
  checkpoint_header : Option Nat
  dirty : Nat
  panic : Int
  panic_string : Option Nat
  cf : Option Nat
  layout_version_read_from_disk : Nat
  layout_version : Nat
  layout_version_original : Nat
  build_id : Nat
  build_id_original : Nat
  checkpoint_count : Nat
  checkpoint_lsn : Nat
  nodesize : Nat
  basementnodesize : Nat
  blocktable : Option BLOCK_TABLE
  root_blocknum : Nat
  flags : Nat
  time_of_creation : Nat
  time_of_last_modification : Nat
  time_of_last_verification : Nat
  root_xid_that_created : Nat
  on_disk_stats : STAT64INFO_S
  in_memory_stats : STAT64INFO_S
  checkpoint_staging_stats : STAT64INFO_S
  time_of_last_optimize_begin : Nat
  time_of_last_optimize_end : Nat
  count_of_optimize_in_progress : Nat
  count_of_optimize_in_progress_read_from_disk : Nat
  msn_at_start_of_last_completed_optimize : Nat
  compression_method : Nat
  highest_unused_msn_for_upgrade : Nat
  descriptor : DESCRIPTOR_S
  cmp_descriptor : DESCRIPTOR_S
deriving DecidableEq, Repr

/-- The header `CALLOC(h)` yields: every field zero. -/
def FT.calloc : FT :=
  { type := ft_type.FT_CURRENT, checkpoint_header := none, dirty := 0, panic := 0,
    panic_string := none, cf := none, layout_version_read_from_disk := 0, layout_version := 0,
    layout_version_original := 0, build_id := 0, build_id_original := 0, checkpoint_count := 0,
    checkpoint_lsn := 0, nodesize := 0, basementnodesize := 0, blocktable := none,
    root_blocknum := 0, flags := 0, time_of_creation := 0, time_of_last_modification := 0,
    time_of_last_verification := 0, root_xid_that_created := 0,
    on_disk_stats := { numrows := 0, numbytes := 0 },
    in_memory_stats := { numrows := 0, numbytes := 0 },
    checkpoint_staging_stats := { numrows := 0, numbytes := 0 },
    time_of_last_optimize_begin := 0, time_of_last_optimize_end := 0,
    count_of_optimize_in_progress := 0, count_of_optimize_in_progress_read_from_disk := 0,
    msn_at_start_of_last_completed_optimize := 0, compression_method := 0,
    highest_unused_msn_for_upgrade := 0,
    descriptor := { dbt := { data := [], size := 0 } },
    cmp_descriptor := { dbt := { data := [], size := 0 } } }

/-! ## The file and the external collaborators -/

/-- What `toku_os_pread` hands back: a negative return with `errno`, or the octets read. -/
inductive PreadResult
  | failed (errno : Int)
  | read (bytes : List Byte)
deriving DecidableEq, Repr

/-- The number `toku_os_pread` returns. -/
def PreadResult.n : PreadResult → Int
  | .failed _ => -1
  | .read bytes => bytes.length

/-- The environment one call runs in: the contents of the file descriptor as
seen by `toku_os_pread(fd, buf, count, offset)`, the allocator, and the
results of the collaborators the spec puts out of scope (translation loader
and builder, stats upgrade, descriptor rewrite, fsync plumbing). -/
structure World where
  /-- the outcome of `toku_os_pread(fd, buf, count, offset)` -/
  pread : Nat → Int → PreadResult
  /-- whether `CALLOC(h)` returns NULL -/
  calloc_fails : Bool
  /-- the return code of `toku_omt_create` -/
  toku_omt_create : Int
  /-- the loader `toku_blocktable_create_from_buffer(&bt, address, size, tbuf)` -/
  toku_blocktable_create_from_buffer : Int → Int → List Byte → deserialize_error_code × BLOCK_TABLE
  /-- the stats the upgrade path `toku_upgrade_subtree_estimates_to_stat64info(fd, h)` synthesizes -/
  toku_upgrade_subtree_estimates_to_stat64info : FT → deserialize_error_code × STAT64INFO_S
  /-- the return code of `toku_update_descriptor(h, d, fd)` -/
  toku_update_descriptor : FT → DESCRIPTOR_S → Int
  /-- the builder `toku_serialize_translation_to_wbuf_unlocked`: buffer, address, size -/
  toku_serialize_translation_to_wbuf_unlocked : Option BLOCK_TABLE → wbuf × Int × Int
  /-- the return code of `toku_cachefile_fsync(h->cf)` -/
  toku_cachefile_fsync : Int
  /-- the return code of `toku_file_fsync(fd)` -/
  toku_file_fsync : Int

/-- A failed `lazy_assert`, `assert` or `invariant` stops the process. -/
def lazy_assert (c : Prop) [Decidable c] : Option Unit := if c then some () else none

/-! ## Encoder -/

/-- The function `toku_serialize_ft_to_wbuf`; each `match` is one write, whose
failure is the abort of an overrun. -/
def toku_serialize_ft_to_wbuf (p : Platform) (w : wbuf) (h : FT)
    (translation_location_on_disk : Int) (translation_size_on_disk : Int) : Option wbuf :=
  let size := w.size
  match wbuf_literal_bytes w tokudata with
  | none => none
  | some w =>
  match wbuf_network_int w h.layout_version with
  | none => none
  | some w =>
  match wbuf_network_int w p.BUILD_ID with
  | none => none
  | some w =>
  match wbuf_network_int w size with
  | none => none
  | some w =>
  match wbuf_literal_bytes w (host_bytes p 8 p.toku_byte_order_host) with
  | none => none
  | some w =>
  match wbuf_ulonglong p w h.checkpoint_count with
  | none => none
  | some w =>
  match wbuf_LSN p w h.checkpoint_lsn with
  | none => none
  | some w =>
  match wbuf_int p w h.nodesize with
  | none => none
  | some w =>
  match wbuf_DISKOFF p w translation_location_on_disk with
  | none => none
  | some w =>
  match wbuf_DISKOFF p w translation_size_on_disk with
  | none => none
  | some w =>
  match wbuf_BLOCKNUM p w h.root_blocknum with
  | none => none
  | some w =>
  match wbuf_int p w h.flags with
  | none => none
  | some w =>
  match wbuf_int p w h.layout_version_original with
  | none => none
  | some w =>
  match wbuf_int p w h.build_id_original with
  | none => none
  | some w =>
  match wbuf_ulonglong p w h.time_of_creation with
  | none => none
  | some w =>
  match wbuf_ulonglong p w h.time_of_last_modification with
  | none => none
  | some w =>
  match wbuf_TXNID p w h.root_xid_that_created with
  | none => none
  | some w =>
  match wbuf_int p w h.basementnodesize with
  | none => none
  | some w =>
  match wbuf_ulonglong p w h.time_of_last_verification with
  | none => none
  | some w =>
  match wbuf_ulonglong p w h.checkpoint_staging_stats.numrows with
  | none => none
  | some w =>
  match wbuf_ulonglong p w h.checkpoint_staging_stats.numbytes with
  | none => none
  | some w =>
  match wbuf_ulonglong p w h.time_of_last_optimize_begin with
  | none => none
  | some w =>
  match wbuf_ulonglong p w h.time_of_last_optimize_end with
  | none => none
  | some w =>
  match wbuf_int p w h.count_of_optimize_in_progress with
  | none => none
  | some w =>
  match wbuf_MSN p w h.msn_at_start_of_last_completed_optimize with
  | none => none
  | some w =>
  match wbuf_char w h.compression_method with
  | none => none
  | some w =>
  match wbuf_MSN p w h.highest_unused_msn_for_upgrade with
  | none => none
  | some w =>
  let checksum := x1764_finish p w.checksum
  match wbuf_int p w checksum with
  | none => none
  | some w =>
  if w.ndone = w.size then some w else none

/-! ## Descriptor codec -/

/-- The function `toku_serialize_descriptor_size` (a `u_int32_t`). -/
def toku_serialize_descriptor_size (desc : DESCRIPTOR_S) : Nat :=
  let size : Nat := 4
  (size + desc.dbt.size) % 2 ^ 32

/-- The function `deserialize_descriptor_size` (a `u_int32_t`). -/
def deserialize_descriptor_size (desc : DESCRIPTOR_S) (layout_version : Nat) : Nat :=
  let size : Nat := 4
  let size := if layout_version = FT_LAYOUT_VERSION_13 then size + 4 else size
  (size + desc.dbt.size) % 2 ^ 32

/-- The function `toku_serialize_descriptor_contents_to_wbuf`. -/
def toku_serialize_descriptor_contents_to_wbuf (p : Platform) (wb : wbuf) (desc : DESCRIPTOR_S) :
    Option wbuf :=
  wbuf_bytes p wb desc.dbt.data desc.dbt.size

/-- One call of `toku_full_pwrite_extend(fd, buf, count, offset)`. -/
structure Pwrite where
  buf : List Byte
  count : Nat
  offset : Int
deriving DecidableEq, Repr

/-- The function `toku_serialize_descriptor_contents_to_fd`: the return code
and the one write it issues. -/
def toku_serialize_descriptor_contents_to_fd (p : Platform) (desc : DESCRIPTOR_S) (offset : Int) :
    Option (Int × Pwrite) :=
  let r : Int := 0
  let size : Nat := (toku_serialize_descriptor_size desc + 4) % 2 ^ 32
  let w := wbuf_init size
  match toku_serialize_descriptor_contents_to_wbuf p w desc with
  | none => none
  | some w =>
  let checksum := x1764_finish p w.checksum
  match wbuf_int p w checksum with
  | none => none
  | some w =>
  if w.ndone = w.size then some (r, { buf := w.buf, count := size, offset := offset }) else none

/-- The function `deserialize_descriptor_from_rbuf`: the descriptor read and
the cursor after it. -/
def deserialize_descriptor_from_rbuf (p : Platform) (rb : rbuf) (layout_version : Nat) :
    Option (DESCRIPTOR_S × rbuf) :=
  match (if layout_version ≤ FT_LAYOUT_VERSION_13 then (rbuf_int p rb).map (fun x => x.2)
         else some rb) with
  | none => none
  | some rb =>
  match rbuf_bytes p rb with
  | none => none
  | some ((data, size), rb) =>
  let data_copy := if size > 0 then data else []
  some ({ dbt := { data := data_copy, size := size } }, rb)

/-- The function `deserialize_descriptor_from`: the result kind and the
descriptor left in `*desc`. -/
def deserialize_descriptor_from (p : Platform) (wd : World) (bt : BLOCK_TABLE)
    (layout_version : Nat) : Option (deserialize_error_code × DESCRIPTOR_S) :=
  let offset := bt.descriptor_offset
  let size := bt.descriptor_size
  let desc : DESCRIPTOR_S := { dbt := { data := [], size := 0 } }
  if size > 0 then
    if ¬ (size ≥ 4) then none else
    match wd.pread size.toNat offset with
    | .failed _ => none
    | .read dbuf =>
    if ¬ ((dbuf.length : Int) = size) then none else
    let x1764 := x1764_memory p (dbuf.take (size.toNat - 4))
    let stored_x1764 := host_value p ((dbuf.drop (size.toNat - 4)).take 4)
    if x1764 ≠ stored_x1764 then some (deserialize_error_code.DS_XSUM_FAIL, desc) else
    let rb : rbuf := { buf := dbuf, size := size.toNat, ndone := 0 }
    match deserialize_descriptor_from_rbuf p rb layout_version with
    | none => none
    | some (desc, _) =>
    if (((deserialize_descriptor_size desc layout_version + 4) % 2 ^ 32 : Nat) : Int) = size then
      some (deserialize_error_code.DS_OK, desc)
    else none
  else some (deserialize_error_code.DS_OK, desc)

/-! ## Decoder -/

/-- What a deserializer hands back: the result kind, the header stored in
`*ft` (`none` is NULL) and the value this code assigned to `errno`, if any. -/
structure DeserializeResult where
  e : deserialize_error_code
  ft : Option FT
  errno : Option Int
deriving DecidableEq, Repr

/-- The label `exit` of `deserialize_ft_versioned` reached with `e != DS_OK`:
the header is freed and `*ft` is NULL. -/
def deserialize_ft_versioned_exit (e : deserialize_error_code) (errno : Option Int) :
    DeserializeResult :=
  { e := e, ft := none, errno := errno }

/-- Lines 246 to 293 of `deserialize_ft_versioned`: the fields whose presence
depends on the version read from disk.  `Sum.inl` is a jump to `exit`. -/
def deserialize_ft_versioned_fields (p : Platform) (wd : World) (h : FT) (rb : rbuf) :
    Option (DeserializeResult ⊕ (FT × rbuf)) :=
  match (if h.layout_version_read_from_disk ≥ FT_LAYOUT_VERSION_14 then
           (rbuf_TXNID p rb).map (fun x => ({ h with root_xid_that_created := x.1 }, x.2))
         else some ({ h with root_xid_that_created := h.checkpoint_lsn }, rb)) with
  | none => none
  | some (h, rb) =>
  match (if h.layout_version_read_from_disk ≥ FT_LAYOUT_VERSION_15 then
           match rbuf_int p rb with
           | none => none
           | some (basementnodesize, rb) =>
           match rbuf_ulonglong p rb with
           | none => none
           | some (time_of_last_verification, rb) =>
           some ({ h with basementnodesize := basementnodesize,
                          time_of_last_verification := time_of_last_verification }, rb)
         else some ({ h with basementnodesize := p.FT_DEFAULT_BASEMENT_NODE_SIZE,
                             time_of_last_verification := 0 }, rb)) with
  | none => none
  | some (h, rb) =>
  match (if h.layout_version_read_from_disk ≥ FT_LAYOUT_VERSION_18 then
           match rbuf_ulonglong p rb with
           | none => none
           | some (numrows, rb) =>
           match rbuf_ulonglong p rb with
           | none => none
           | some (numbytes, rb) =>
           match rbuf_ulonglong p rb with
           | none => none
           | some (time_of_last_optimize_begin, rb) =>
           match rbuf_ulonglong p rb with
           | none => none
           | some (time_of_last_optimize_end, rb) =>
           match rbuf_int p rb with
           | none => none
           | some (count_of_optimize_in_progress, rb) =>
           match rbuf_msn p rb with
           | none => none
           | some (msn_at_start_of_last_completed_optimize, rb) =>
           some (Sum.inr ({ h with
             on_disk_stats := { numrows := numrows, numbytes := numbytes },
             in_memory_stats := { numrows := numrows, numbytes := numbytes },
             time_of_last_optimize_begin := time_of_last_optimize_begin,
             time_of_last_optimize_end := time_of_last_optimize_end,
             count_of_optimize_in_progress := count_of_optimize_in_progress,
             count_of_optimize_in_progress_read_from_disk := count_of_optimize_in_progress,
             msn_at_start_of_last_completed_optimize :=
               msn_at_start_of_last_completed_optimize }, rb))
         else
           let (e, stats) := wd.toku_upgrade_subtree_estimates_to_stat64info h
           if e ≠ deserialize_error_code.DS_OK then
             some (Sum.inl (deserialize_ft_versioned_exit e none))
           else
             some (Sum.inr ({ h with
               on_disk_stats := stats,
               in_memory_stats := stats,
               time_of_last_optimize_begin := 0,
               time_of_last_optimize_end := 0,
               count_of_optimize_in_progress := 0,
               count_of_optimize_in_progress_read_from_disk := 0,
               msn_at_start_of_last_completed_optimize := p.ZERO_MSN }, rb))) with
  | none => none
  | some (Sum.inl r) => some (Sum.inl r)
  | some (Sum.inr (h, rb)) =>
  if h.layout_version_read_from_disk ≥ FT_LAYOUT_VERSION_19 then
    match rbuf_char rb with
    | none => none
    | some (method, rb) =>
    match rbuf_msn p rb with
    | none => none
    | some (highest_unused_msn_for_upgrade, rb) =>
    some (Sum.inr ({ h with compression_method := method,
                            highest_unused_msn_for_upgrade := highest_unused_msn_for_upgrade }, rb))
  else
    let method := if h.layout_version_read_from_disk < FT_LAYOUT_VERSION_18
      then p.TOKU_ZLIB_METHOD else p.TOKU_QUICKLZ_METHOD
    some (Sum.inr ({ h with compression_method := method,
                            highest_unused_msn_for_upgrade := (p.MIN_MSN + (2 ^ 64 - 1)) % 2 ^ 64 },
                   rb))

/-- Lines 295 to 331 of `deserialize_ft_versioned`: the trailing checksum, the
end-of-buffer check, and the descriptor. -/
def deserialize_ft_versioned_finish (p : Platform) (wd : World) (h : FT) (rb : rbuf)
    (version : Nat) : Option DeserializeResult :=
  match rbuf_int p rb with
  | none => none
  | some (_, rb) =>
  if rb.ndone ≠ rb.size then
    some (deserialize_ft_versioned_exit deserialize_error_code.DS_ERRNO (some p.EINVAL))
  else
  if ¬ (h.layout_version_read_from_disk % 2 ^ 32 = version) then none else
  match h.blocktable with
  | none => none
  | some bt =>
  match deserialize_descriptor_from p wd bt version with
  | none => none
  | some (e, descriptor) =>
  let h := { h with descriptor := descriptor }
  if e ≠ deserialize_error_code.DS_OK then some (deserialize_ft_versioned_exit e none) else
  let h := { h with cmp_descriptor :=
    { dbt := { data := h.descriptor.dbt.data, size := h.descriptor.dbt.size } } }
  if version ≤ FT_LAYOUT_VERSION_13 then
    let r := wd.toku_update_descriptor h h.cmp_descriptor
    if r ≠ 0 then
      some (deserialize_ft_versioned_exit deserialize_error_code.DS_ERRNO (some r))
    else some { e := deserialize_error_code.DS_OK, ft := some h, errno := none }
  else some { e := deserialize_error_code.DS_OK, ft := some h, errno := none }

/-- The function `deserialize_ft_versioned`, in source order; the version
dependent fields and the tail are the two definitions above. -/
def deserialize_ft_versioned (p : Platform) (wd : World) (rb : rbuf) (version : Nat) :
    Option DeserializeResult :=
  if ¬ (version ≥ FT_LAYOUT_MIN_SUPPORTED_VERSION) then none else
  if ¬ (version ≤ FT_LAYOUT_VERSION) then none else
  match rbuf_literal_bytes rb 8 with
  | none => none
  | some (magic, rb) =>
  if magic ≠ tokudata then none else
  if wd.calloc_fails then
    some { e := deserialize_error_code.DS_ERRNO, ft := none, errno := none }
  else
  let h : FT := { FT.calloc with type := ft_type.FT_CURRENT, checkpoint_header := none,
                                 dirty := 0, panic := 0, panic_string := none }
  if wd.toku_omt_create ≠ 0 then none else
  match rbuf_network_int rb with
  | none => none
  | some (layout_version_read_from_disk, rb) =>
  let h := { h with layout_version_read_from_disk := layout_version_read_from_disk }
  if ¬ (h.layout_version_read_from_disk ≥ FT_LAYOUT_MIN_SUPPORTED_VERSION) then none else
  if ¬ (h.layout_version_read_from_disk ≤ FT_LAYOUT_VERSION) then none else
  let h := { h with layout_version := FT_LAYOUT_VERSION }
  match rbuf_network_int rb with
  | none => none
  | some (build_id, rb) =>
  let h := { h with build_id := build_id }
  match rbuf_network_int rb with
  | none => none
  | some (size, rb) =>
  if size ≠ rb.size then none else
  match rbuf_literal_bytes rb 8 with
  | none => none
  | some (tmp_byte_order_check, rb) =>
  if host_value p tmp_byte_order_check ≠ p.toku_byte_order_host % 2 ^ 64 then none else
  match rbuf_ulonglong p rb with
  | none => none
  | some (checkpoint_count, rb) =>
  match rbuf_lsn p rb with
  | none => none
  | some (checkpoint_lsn, rb) =>
  match rbuf_int p rb with
  | none => none
  | some (nodesize, rb) =>
  let h := { h with checkpoint_count := checkpoint_count, checkpoint_lsn := checkpoint_lsn,
                    nodesize := nodesize }
  match rbuf_diskoff p rb with
  | none => none
  | some (translation_address_on_disk, rb) =>
  match rbuf_diskoff p rb with
  | none => none
  | some (translation_size_on_disk, rb) =>
  if ¬ (translation_address_on_disk > 0) then none else
  if ¬ (translation_size_on_disk > 0) then none else
  match wd.pread translation_size_on_disk.toNat translation_address_on_disk with
  | .failed _ => none
  | .read tbuf =>
  if ¬ ((tbuf.length : Int) = translation_size_on_disk) then none else
  let (e, blocktable) := wd.toku_blocktable_create_from_buffer translation_address_on_disk
    translation_size_on_disk tbuf
  let h := { h with blocktable := some blocktable }
  if e ≠ deserialize_error_code.DS_OK then some (deserialize_ft_versioned_exit e none) else
  match rbuf_blocknum p rb with
  | none => none
  | some (root_blocknum, rb) =>
  match rbuf_int p rb with
  | none => none
  | some (flags, rb) =>
  let flags := if h.layout_version_read_from_disk ≤ FT_LAYOUT_VERSION_13
    then flags &&& (2 ^ 32 - 1 - p.TOKU_DB_VALCMP_BUILTIN_13 % 2 ^ 32) else flags
  let h := { h with root_blocknum := root_blocknum, flags := flags }
  match rbuf_int p rb with
  | none => none
  | some (layout_version_original, rb) =>
  match rbuf_int p rb with
  | none => none
  | some (build_id_original, rb) =>
  match rbuf_ulonglong p rb with
  | none => none
  | some (time_of_creation, rb) =>
  match rbuf_ulonglong p rb with
  | none => none
  | some (time_of_last_modification, rb) =>
  let h := { h with layout_version_original := layout_version_original,
                    build_id_original := build_id_original,
                    time_of_creation := time_of_creation,
                    time_of_last_modification := time_of_last_modification,
                    time_of_last_verification := 0 }
  match (if h.layout_version_read_from_disk ≤ FT_LAYOUT_VERSION_18 then
           match rbuf_ulonglong p rb with
           | none => none
           | some (_, rb) =>
           if h.layout_version_read_from_disk ≥ FT_LAYOUT_VERSION_15 then
             (rbuf_ulonglong p rb).map (fun x => x.2)
           else some rb
         else some rb) with
  | none => none
  | some rb =>
  match deserialize_ft_versioned_fields p wd h rb with
  | none => none
  | some (Sum.inl r) => some r
  | some (Sum.inr (h, rb)) => deserialize_ft_versioned_finish p wd h rb version

/-! ## Slot reader -/

/-- The return value and the out-parameters of `deserialize_ft_from_fd_into_rbuf`.
`rb` is `none` when `rb->buf` is NULL on return; an out-parameter the call did
not store to is `none`; `reads` lists the `(count, offset)` of the preads issued. -/
structure SlotRead where
  r : Int
  rb : Option rbuf
  checkpoint_count : Option Nat
  checkpoint_lsn : Option Nat
  version : Option Nat
  e : deserialize_error_code
  reads : List (Nat × Int)
deriving DecidableEq, Repr

/-- The label `exit` of `deserialize_ft_from_fd_into_rbuf`: with `r != 0` the
buffer is released and `rb->buf` becomes NULL. -/
def slot_exit (r : Int) (rb : Option rbuf) (version : Option Nat) (e : deserialize_error_code)
    (reads : List (Nat × Int)) : SlotRead :=
  { r := r, rb := if r ≠ 0 then none else rb, checkpoint_count := none, checkpoint_lsn := none,
    version := version, e := e, reads := reads }

/-- The function `deserialize_ft_from_fd_into_rbuf`; `e` is the value `*e`
holds on entry. -/
def deserialize_ft_from_fd_into_rbuf (p : Platform) (wd : World) (offset_of_header : Int)
    (e : deserialize_error_code) : Option SlotRead :=
  let prefix_size : Nat := 8 + 4 + 4 + 4
  let reads := [(prefix_size, offset_of_header)]
  match wd.pread prefix_size offset_of_header with
  | .failed errno => if errno ≠ 0 then some (slot_exit errno none none e reads) else none
  | .read pfx =>
  if pfx.length ≠ prefix_size then
    if pfx.length = 0 then some (slot_exit p.TOKUDB_DICTIONARY_NO_HEADER none none e reads)
    else some (slot_exit p.EINVAL none none e reads)
  else
  let rb := rbuf_init pfx prefix_size
  match rbuf_literal_bytes rb 8 with
  | none => none
  | some (magic, rb) =>
  if magic ≠ tokudata then
    if host_value p magic = 0 then
      some (slot_exit p.TOKUDB_DICTIONARY_NO_HEADER (some rb) none e reads)
    else some (slot_exit p.EINVAL (some rb) none e reads)
  else
  match rbuf_network_int rb with
  | none => none
  | some (version, rb) =>
  if version < FT_LAYOUT_MIN_SUPPORTED_VERSION then
    some (slot_exit p.TOKUDB_DICTIONARY_TOO_OLD (some rb) (some version) e reads)
  else if version > FT_LAYOUT_VERSION then
    some (slot_exit p.TOKUDB_DICTIONARY_TOO_NEW (some rb) (some version) e reads)
  else
  match rbuf_network_int rb with
  | none => none
  | some (_, rb) =>
  let max_header_size := p.BLOCK_ALLOCATOR_HEADER_RESERVE
  match serialize_ft_min_size p version with
  | none => none
  | some min_header_size =>
  match rbuf_network_int rb with
  | none => none
  | some (size, rb) =>
  if size > max_header_size ∨ size < min_header_size then
    some (slot_exit p.TOKUDB_DICTIONARY_NO_HEADER (some rb) (some version) e reads)
  else
  if rb.ndone ≠ prefix_size then none else
  let reads := reads ++ [(size, offset_of_header)]
  match wd.pread size offset_of_header with
  | .failed errno =>
    if errno ≠ 0 then
      some (slot_exit errno (some { rb with size := size, buf := [] }) (some version) e reads)
    else none
  | .read buf =>
  let rb := { rb with size := size, buf := buf }
  if buf.length ≠ rb.size then some (slot_exit p.EINVAL (some rb) (some version) e reads) else
  let calculated_x1764 := x1764_memory p (rb.buf.take (rb.size - 4))
  let stored_x1764 := host_value p ((rb.buf.drop (rb.size - 4)).take 4)
  if calculated_x1764 ≠ stored_x1764 then
    some (slot_exit p.TOKUDB_DICTIONARY_NO_HEADER (some rb) (some version)
      deserialize_error_code.DS_XSUM_FAIL reads)
  else
  match rbuf_literal_bytes rb 8 with
  | none => none
  | some (tmp_byte_order_check, rb) =>
  if host_value p tmp_byte_order_check ≠ p.toku_byte_order_host % 2 ^ 64 then
    some (slot_exit p.TOKUDB_DICTIONARY_NO_HEADER (some rb) (some version) e reads)
  else
  match rbuf_ulonglong p rb with
  | none => none
  | some (checkpoint_count, rb) =>
  match rbuf_lsn p rb with
  | none => none
  | some (checkpoint_lsn, rb) =>
  let rb := { rb with ndone := 0 }
  some { r := 0, rb := some rb, checkpoint_count := some checkpoint_count,
         checkpoint_lsn := some checkpoint_lsn, version := some version, e := e, reads := reads }

/-! ## Double-header arbiter -/

/-- The test `r == 0 && checkpoint_lsn.lsn <= max_acceptable_lsn.lsn`; reading
an LSN the slot reader never stored is undefined and modelled as the abort. -/
def slot_acceptable (s : SlotRead) (max_acceptable_lsn : Nat) : Option Bool :=
  if s.r = 0 then s.checkpoint_lsn.map (fun lsn => decide (lsn ≤ max_acceptable_lsn))
  else some false

/-- The test `r == 0 && checkpoint_lsn.lsn > max_acceptable_lsn.lsn`. -/
def slot_too_late (s : SlotRead) (max_acceptable_lsn : Nat) : Option Bool :=
  if s.r = 0 then s.checkpoint_lsn.map (fun lsn => decide (lsn > max_acceptable_lsn))
  else some false

/-- The body of `toku_deserialize_ft_from` up to the call of
`deserialize_ft_versioned`: `Sum.inl` is the result returned through `exit`
without decoding, `Sum.inr` the buffer and version passed to the decoder. -/
def toku_deserialize_ft_from_arbiter (p : Platform) (wd : World) (max_acceptable_lsn : Nat) :
    Option (DeserializeResult ⊕ (rbuf × Nat)) :=
  let header_0_off : Int := 0
  match deserialize_ft_from_fd_into_rbuf p wd header_0_off deserialize_error_code.DS_OK with
  | none => none
  | some s0 =>
  match slot_acceptable s0 max_acceptable_lsn with
  | none => none
  | some h0_acceptable =>
  let header_1_off : Int := p.BLOCK_ALLOCATOR_HEADER_RESERVE
  match deserialize_ft_from_fd_into_rbuf p wd header_1_off deserialize_error_code.DS_OK with
  | none => none
  | some s1 =>
  match slot_acceptable s1 max_acceptable_lsn with
  | none => none
  | some h1_acceptable =>
  let r0 := s0.r
  let r1 := s1.r
  if r0 = p.TOKUDB_DICTIONARY_TOO_NEW ∨ r1 = p.TOKUDB_DICTIONARY_TOO_NEW ∨
      ¬ (h0_acceptable ∨ h1_acceptable) then
    let r : Int :=
      if r0 = p.TOKUDB_DICTIONARY_TOO_NEW ∨ r1 = p.TOKUDB_DICTIONARY_TOO_NEW then
        p.TOKUDB_DICTIONARY_TOO_NEW
      else if r0 = p.TOKUDB_DICTIONARY_TOO_OLD ∨ r1 = p.TOKUDB_DICTIONARY_TOO_OLD then
        p.TOKUDB_DICTIONARY_TOO_OLD
      else if r0 = p.TOKUDB_DICTIONARY_NO_HEADER ∨ r1 = p.TOKUDB_DICTIONARY_NO_HEADER then
        p.TOKUDB_DICTIONARY_NO_HEADER
      else if r0 ≠ 0 then r0 else r1
    match slot_too_late s0 max_acceptable_lsn, slot_too_late s1 max_acceptable_lsn with
    | some late0, some late1 =>
      if late0 ∧ late1 then none else
      if ¬ (r ≠ 0) then none else
      if s0.e = deserialize_error_code.DS_XSUM_FAIL ∧ s1.e = deserialize_error_code.DS_XSUM_FAIL then
        some (Sum.inl { e := deserialize_error_code.DS_XSUM_FAIL, ft := none, errno := none })
      else
        some (Sum.inl { e := deserialize_error_code.DS_ERRNO, ft := none, errno := some r })
    | _, _ => none
  else
  if h0_acceptable ∧ h1_acceptable then
    match s0.checkpoint_count, s1.checkpoint_count, s0.version, s1.version, s0.rb, s1.rb with
    | some checkpoint_count_0, some checkpoint_count_1, some version_0, some version_1,
      some rb_0, some rb_1 =>
      if checkpoint_count_0 > checkpoint_count_1 then
        if ¬ (checkpoint_count_0 = (checkpoint_count_1 + 1) % 2 ^ 64) then none else
        if ¬ (version_0 ≥ version_1) then none else
        some (Sum.inr (rb_0, version_0))
      else
        if ¬ (checkpoint_count_1 = (checkpoint_count_0 + 1) % 2 ^ 64) then none else
        if ¬ (version_1 ≥ version_0) then none else
        some (Sum.inr (rb_1, version_1))
    | _, _, _, _, _, _ => none
  else if h0_acceptable then
    match s0.version, s0.rb with
    | some version_0, some rb_0 => some (Sum.inr (rb_0, version_0))
    | _, _ => none
  else if h1_acceptable then
    match s1.version, s1.rb with
    | some version_1, some rb_1 => some (Sum.inr (rb_1, version_1))
    | _, _ => none
  else none

/-- The function `toku_deserialize_ft_from`. -/
def toku_deserialize_ft_from (p : Platform) (wd : World) (max_acceptable_lsn : Nat) :
    Option DeserializeResult :=
  match toku_deserialize_ft_from_arbiter p wd max_acceptable_lsn with
  | none => none
  | some (Sum.inl result) => some result
  | some (Sum.inr (rb, version)) => deserialize_ft_versioned p wd rb version

/-! ## Checkpoint writer -/

/-- A durable effect of `toku_serialize_ft_to`, in program order. -/
inductive IOEvent
  | pwrite (w : Pwrite)
  | cachefile_fsync
  | file_fsync
deriving DecidableEq, Repr

/-- The function `toku_serialize_ft_to`: the return code and the effects on
the file, in the order they are issued. -/
def toku_serialize_ft_to (p : Platform) (wd : World) (h : FT) : Option (Int × List IOEvent) :=
  if h.panic ≠ 0 then some (h.panic, []) else
  if h.type ≠ ft_type.FT_CHECKPOINT_INPROGRESS then none else
  let (w_translation, address_translation, size_translation) :=
    wd.toku_serialize_translation_to_wbuf_unlocked h.blocktable
  if ¬ (size_translation = (w_translation.size : Int)) then none else
  match toku_serialize_ft_size p h.layout_version with
  | none => none
  | some size_main =>
  match toku_serialize_ft_to_wbuf p (wbuf_init size_main) h address_translation
      size_translation with
  | none => none
  | some w_main =>
  if w_main.ndone ≠ size_main then none else
  let events := [IOEvent.pwrite { buf := w_translation.buf, count := size_translation.toNat,
                                  offset := address_translation }]
  let (rr, events) := match h.cf with
    | some _ => (wd.toku_cachefile_fsync, events ++ [IOEvent.cachefile_fsync])
    | none => (wd.toku_file_fsync, events ++ [IOEvent.file_fsync])
  if rr = 0 then
    let main_offset : Int :=
      if h.checkpoint_count &&& 1 ≠ 0 then 0 else p.BLOCK_ALLOCATOR_HEADER_RESERVE
    some (rr, events ++ [IOEvent.pwrite { buf := w_main.buf, count := w_main.ndone,
                                          offset := main_offset }])
  else some (rr, events)

/-! ## Auxiliary definitions used by the statements -/

/-- A sequence of literal writes; `toku_serialize_ft_to_wbuf` is one such
sequence followed by the digest (see `toku_serialize_ft_to_wbuf_eq`). -/
def wbuf_write_all (w : wbuf) : List (List Byte) → Option wbuf
  | [] => some w
  | bytes :: rest =>
    match wbuf_literal_bytes w bytes with
    | none => none
    | some w => wbuf_write_all w rest

/-- The octet runs `toku_serialize_ft_to_wbuf` writes before the digest, in
order, for a buffer of `size` octets. -/
def ft_fields (p : Platform) (h : FT) (translation_location_on_disk translation_size_on_disk : Int)
    (size : Nat) : List (List Byte) :=
  [ tokudata,
    be_bytes 4 h.layout_version,
    be_bytes 4 p.BUILD_ID,
    be_bytes 4 size,
    host_bytes p 8 p.toku_byte_order_host,
    host_bytes p 8 h.checkpoint_count,
    host_bytes p 8 h.checkpoint_lsn,
    host_bytes p 4 h.nodesize,
    host_bytes p 8 (of_int64 translation_location_on_disk),
    host_bytes p 8 (of_int64 translation_size_on_disk),
    host_bytes p 8 h.root_blocknum,
    host_bytes p 4 h.flags,
    host_bytes p 4 h.layout_version_original,
    host_bytes p 4 h.build_id_original,
    host_bytes p 8 h.time_of_creation,
    host_bytes p 8 h.time_of_last_modification,
    host_bytes p 8 h.root_xid_that_created,
    host_bytes p 4 h.basementnodesize,
    host_bytes p 8 h.time_of_last_verification,
    host_bytes p 8 h.checkpoint_staging_stats.numrows,
    host_bytes p 8 h.checkpoint_staging_stats.numbytes,
    host_bytes p 8 h.time_of_last_optimize_begin,
    host_bytes p 8 h.time_of_last_optimize_end,
    host_bytes p 4 h.count_of_optimize_in_progress,
    host_bytes p 8 h.msn_at_start_of_last_completed_optimize,
    [h.compression_method % 256],
    host_bytes p 8 h.highest_unused_msn_for_upgrade ]

/-- The octets of an encoded header before its digest. -/
def ft_body (p : Platform) (h : FT) (translation_location_on_disk translation_size_on_disk : Int)
    (size : Nat) : List Byte :=
  (ft_fields p h translation_location_on_disk translation_size_on_disk size).flatten

/-- The octets of an encoded header: the body followed by its X digest in host order. -/
def ft_encoded (p : Platform) (h : FT) (translation_location_on_disk translation_size_on_disk : Int)
    (size : Nat) : List Byte :=
  ft_body p h translation_location_on_disk translation_size_on_disk size ++
    host_bytes p 4 (x1764_memory p
      (ft_body p h translation_location_on_disk translation_size_on_disk size))

/-- A read cursor over the whole buffer `B` whose unread octets are `l`. -/
def rbuf_ok (B : List Byte) (rb : rbuf) (l : List Byte) : Prop :=
  rb.buf = B ∧ rb.size = B.length ∧ rb.ndone ≤ B.length ∧ B.drop rb.ndone = l

/-- The C types of the persisted fields: every field of a header fits its
width, and the descriptor's length is the length of its data. -/
def FT.in_range (h : FT) : Prop :=
  h.layout_version_original < 2 ^ 32 ∧ h.build_id_original < 2 ^ 32 ∧
  h.checkpoint_count < 2 ^ 64 ∧ h.checkpoint_lsn < 2 ^ 64 ∧
  h.nodesize < 2 ^ 32 ∧ h.basementnodesize < 2 ^ 32 ∧
  h.root_blocknum < 2 ^ 64 ∧ h.flags < 2 ^ 32 ∧
  h.time_of_creation < 2 ^ 64 ∧ h.time_of_last_modification < 2 ^ 64 ∧
  h.time_of_last_verification < 2 ^ 64 ∧ h.root_xid_that_created < 2 ^ 64 ∧
  h.checkpoint_staging_stats.numrows < 2 ^ 64 ∧ h.checkpoint_staging_stats.numbytes < 2 ^ 64 ∧
  h.time_of_last_optimize_begin < 2 ^ 64 ∧ h.time_of_last_optimize_end < 2 ^ 64 ∧
  h.count_of_optimize_in_progress < 2 ^ 32 ∧
  h.msn_at_start_of_last_completed_optimize < 2 ^ 64 ∧
  h.compression_method < 256 ∧ h.highest_unused_msn_for_upgrade < 2 ^ 64 ∧
  h.descriptor.dbt.size = h.descriptor.dbt.data.length ∧ h.descriptor.dbt.size + 8 < 2 ^ 32

/-- The header the decoder builds from the encoding of `h`: the persisted
fields of `h`, with the build id of the writing binary, the statistics staged
for the checkpoint, and the transient fields of a freshly loaded header. -/
def ft_reloaded (p : Platform) (h : FT) (bt : BLOCK_TABLE) : FT :=
  { h with
    type := ft_type.FT_CURRENT,
    checkpoint_header := none,
    dirty := 0,
    panic := 0,
    panic_string := none,
    cf := none,
    layout_version_read_from_disk := FT_LAYOUT_VERSION,
    layout_version := FT_LAYOUT_VERSION,
    build_id := p.BUILD_ID % 2 ^ 32,
    blocktable := some bt,
    on_disk_stats := h.checkpoint_staging_stats,
    in_memory_stats := h.checkpoint_staging_stats,
    checkpoint_staging_stats := { numrows := 0, numbytes := 0 },
    count_of_optimize_in_progress_read_from_disk := h.count_of_optimize_in_progress,
    cmp_descriptor := h.descriptor }

/-- The octets `toku_serialize_descriptor_contents_to_fd` writes for a
descriptor: length, payload, digest of both. -/
def descriptor_encoded (p : Platform) (desc : DESCRIPTOR_S) : List Byte :=
  (host_bytes p 4 desc.dbt.size ++ desc.dbt.data) ++
    host_bytes p 4 (x1764_memory p (host_bytes p 4 desc.dbt.size ++ desc.dbt.data))

/-! ## Sample inputs for the concrete statements -/

/-- A sample host: little-endian, a slot reservation of 256 octets, and a
simple multiplicative checksum standing for X.  The spec fixes none of these
values; the general theorems hold for every `Platform`. -/
def sample_platform : Platform :=
  { little_endian := true,
    x1764 := fun bs => bs.foldl (fun c b => (c * 17 + b) % 2 ^ 32) 0,
    toku_byte_order_host := 0x0102030405060708,
    BUILD_ID := 7,
    BLOCK_ALLOCATOR_HEADER_RESERVE := 256,
    TOKU_DB_VALCMP_BUILTIN_13 := 4,
    FT_DEFAULT_BASEMENT_NODE_SIZE := 131072,
    MIN_MSN := 1,
    ZERO_MSN := 0,
    TOKU_ZLIB_METHOD := 8,
    TOKU_QUICKLZ_METHOD := 9,
    TOKUDB_DICTIONARY_TOO_OLD := -100004,
    TOKUDB_DICTIONARY_TOO_NEW := -100005,
    TOKUDB_DICTIONARY_NO_HEADER := -100006,
    EINVAL := 22 }

/-- A sample header of a checkpoint in progress at the current layout version
(the scenario S1 of the spec: `checkpoint_count = 1`, `checkpoint_lsn = 100`),
loaded from a file written by build 3, with a three-octet descriptor. -/
def sample_ft : FT :=
  { FT.calloc with
    type := ft_type.FT_CHECKPOINT_INPROGRESS,
    layout_version_read_from_disk := 20,
    layout_version := 20,
    layout_version_original := 20,
    build_id := 3,
    build_id_original := 3,
    checkpoint_count := 1,
    checkpoint_lsn := 100,
    nodesize := 4096,
    basementnodesize := 1024,
    root_blocknum := 3,
    flags := 5,
    time_of_creation := 1000,
    time_of_last_modification := 2000,
    root_xid_that_created := 42,
    on_disk_stats := { numrows := 10, numbytes := 100 },
    in_memory_stats := { numrows := 11, numbytes := 110 },
    checkpoint_staging_stats := { numrows := 11, numbytes := 110 },
    compression_method := 9,
    highest_unused_msn_for_upgrade := 77,
    descriptor := { dbt := { data := [1, 2, 3], size := 3 } },
    cmp_descriptor := { dbt := { data := [1, 2, 3], size := 3 } } }

/-- A regular file read without I/O errors: `pread` yields the octets the file
holds in the range asked for. -/
def file_pread (file : List Byte) (count : Nat) (offset : Int) : PreadResult :=
  if offset < 0 then PreadResult.failed 22
  else PreadResult.read ((file.drop offset.toNat).take count)

/-- A slot padded with zeros to the sample reservation of 256 octets. -/
def sample_slot (octets : List Byte) : List Byte :=
  octets ++ List.replicate (256 - octets.length) 0

/-- A sample file: two header slots, a 16-octet translation table at offset
512, and the descriptor of `sample_ft` at offset 528. -/
def sample_file (slot_0 slot_1 : List Byte) : List Byte :=
  sample_slot slot_0 ++ sample_slot slot_1 ++ List.replicate 16 0 ++
    descriptor_encoded sample_platform sample_ft.descriptor

/-- The block-translation table the sample loader builds: the descriptor is
the 11 octets at offset 528. -/
def sample_blocktable (address size : Int) : BLOCK_TABLE :=
  { translation_address_on_disk := address, translation_size_on_disk := size,
    descriptor_offset := 528, descriptor_size := 11 }

/-- A sample environment over a file: no allocation failure, a loader that
accepts every table, successful collaborators. -/
def sample_world (file : List Byte) : World :=
  { pread := file_pread file,
    calloc_fails := false,
    toku_omt_create := 0,
    toku_blocktable_create_from_buffer := fun address size _ =>
      (deserialize_error_code.DS_OK, sample_blocktable address size),
    toku_upgrade_subtree_estimates_to_stat64info := fun _ =>
      (deserialize_error_code.DS_OK, { numrows := 0, numbytes := 0 }),
    toku_update_descriptor := fun _ _ => 0,
    toku_serialize_translation_to_wbuf_unlocked := fun _ =>
      ({ buf := List.replicate 16 0, size := 16, checksum := [] }, 512, 16),
    toku_cachefile_fsync := 0,
    toku_file_fsync := 0 }

/-- The sample header with another checkpoint count, LSN and layout version. -/
def sample_ft_at (checkpoint_count checkpoint_lsn layout_version : Nat) : FT :=
  { sample_ft with checkpoint_count := checkpoint_count, checkpoint_lsn := checkpoint_lsn,
                   layout_version := layout_version }

/-- The encoding of `sample_ft_at` as a slot's octets. -/
def sample_header (checkpoint_count checkpoint_lsn layout_version : Nat) : List Byte :=
  ft_encoded sample_platform (sample_ft_at checkpoint_count checkpoint_lsn layout_version) 512 16 177

/-- The octets of a header slot: the fields in order, followed by the X digest
of all of them in host order. -/
def with_digest (p : Platform) (fields : List (List Byte)) : List Byte :=
  fields.flatten ++ host_bytes p 4 (x1764_memory p fields.flatten)

/-- A sample header of layout version 18, laid out by the version table of
`serialize_ft_min_size`: the fields of the current layout without the two
that version 19 added (compression method, highest unused MSN), tagged 18,
with a declared size of 168 octets and a valid digest. -/
def sample_header_18 : List Byte :=
  with_digest sample_platform
    ((ft_fields sample_platform (sample_ft_at 1 100 18) 512 16 168).take 25)

/-- A sample header of layout version 17, laid out by the version table of
`serialize_ft_min_size`: the sixteen leading fields, the two counters
`num_blocks_to_upgrade_13` and `num_blocks_to_upgrade_14`, then the creating
transaction, the basement node size, the time of last verification and the
two statistics that version 17 added; tagged 17, with a declared size of 156
octets and a valid digest. -/
def sample_header_17 : List Byte :=
  with_digest sample_platform
    ((ft_fields sample_platform (sample_ft_at 1 100 17) 512 16 156).take 16 ++
      [host_bytes sample_platform 8 0, host_bytes sample_platform 8 0] ++
      ((ft_fields sample_platform (sample_ft_at 1 100 17) 512 16 156).drop 16).take 5)

/-- The octets the decoder consumes for a header tagged 18: the layout of
`sample_header_18` with the two counters `num_blocks_to_upgrade_13` and
`num_blocks_to_upgrade_14` still in place, 184 octets in all. -/
def sample_header_18_with_counters : List Byte :=
  with_digest sample_platform
    ((ft_fields sample_platform (sample_ft_at 1 100 18) 512 16 184).take 16 ++
      [host_bytes sample_platform 8 0, host_bytes sample_platform 8 0] ++
      ((ft_fields sample_platform (sample_ft_at 1 100 18) 512 16 184).drop 16).take 9)

/-- The error sentinels and `EINVAL` are non-zero return codes, as the slot
reader and the arbiter take for granted when they test `r == 0`. -/
def Platform.codes_nonzero (p : Platform) : Prop :=
  p.TOKUDB_DICTIONARY_TOO_OLD ≠ 0 ∧ p.TOKUDB_DICTIONARY_TOO_NEW ≠ 0 ∧
  p.TOKUDB_DICTIONARY_NO_HEADER ≠ 0 ∧ p.EINVAL ≠ 0

/-- The error code `r` that `toku_deserialize_ft_from` settles on when it
uses neither slot: the chain of `if`/`else if` under "Certain errors are
higher priority than others", applied to the return codes of the two slot
reads. -/
def arbiter_error_code (p : Platform) (r0 r1 : Int) : Int :=
  if r0 = p.TOKUDB_DICTIONARY_TOO_NEW ∨ r1 = p.TOKUDB_DICTIONARY_TOO_NEW then
    p.TOKUDB_DICTIONARY_TOO_NEW
  else if r0 = p.TOKUDB_DICTIONARY_TOO_OLD ∨ r1 = p.TOKUDB_DICTIONARY_TOO_OLD then
    p.TOKUDB_DICTIONARY_TOO_OLD
  else if r0 = p.TOKUDB_DICTIONARY_NO_HEADER ∨ r1 = p.TOKUDB_DICTIONARY_NO_HEADER then
    p.TOKUDB_DICTIONARY_NO_HEADER
  else if r0 ≠ 0 then r0 else r1

/-- A sample slot written on a host of the other byte order: the encoding of
the sample header with the eight octets of the byte-order probe reversed, and
a digest that is valid for these octets. -/
def sample_header_swapped_probe : List Byte :=
  with_digest sample_platform
    ((ft_fields sample_platform (sample_ft_at 1 100 20) 512 16 177).set 4
      (be_bytes 8 sample_platform.toku_byte_order_host))

/-- The file offset an effect writes at, if it is a write. -/
def IOEvent.offset : IOEvent → Option Int
  | .pwrite w => some w.offset
  | .cachefile_fsync => none
  | .file_fsync => none

/-- A sample descriptor as layout versions up to 13 stored it: a 4-octet
version, the 32-bit length 3, the payload `[1, 2, 3]`, and the digest of all
of them; 15 octets. -/
def sample_descriptor_13 : List Byte :=
  with_digest sample_platform
    [host_bytes sample_platform 4 1, host_bytes sample_platform 4 3, [1, 2, 3]]

/-- A block-translation table that records a descriptor of `size` octets at
offset 528. -/
def sample_blocktable_descriptor (size : Int) : BLOCK_TABLE :=
  { translation_address_on_disk := 512, translation_size_on_disk := 16,
    descriptor_offset := 528, descriptor_size := size }

/-- A sample file that holds `octets` at offset 528, after two empty header
slots and an empty translation table. -/
def sample_file_descriptor (octets : List Byte) : List Byte :=
  List.replicate 528 0 ++ octets

/-- The number of octets `deserialize_ft_versioned` reads from a header whose
stored version is `v`, summed over its reads in source order: 100 octets up
to `time_of_last_modification`, the discarded counters (`v ≤ 18`: one, and a
second one from 15 on), `root_xid_that_created` (from 14 on), the basement
node size and the time of last verification (from 15 on), the statistics and
the optimize fields (from 18 on), the compression method and the highest
unused MSN (from 19 on), and the trailing checksum. -/
def ft_octets_read (v : Nat) : Nat :=
  100 +
    (if v ≤ FT_LAYOUT_VERSION_18 then 8 + (if FT_LAYOUT_VERSION_15 ≤ v then 8 else 0) else 0) +
    (if FT_LAYOUT_VERSION_14 ≤ v then 8 else 0) +
    (if FT_LAYOUT_VERSION_15 ≤ v then 12 else 0) +
    (if FT_LAYOUT_VERSION_18 ≤ v then 44 else 0) +
    (if FT_LAYOUT_VERSION_19 ≤ v then 9 else 0) + 4

/-- A sample header of layout version 13 in the order the decoder reads it:
the sixteen leading fields (the flags are 5, with the deprecated bit 4 set),
the counter `num_blocks_to_upgrade_13`, tagged 13, with a declared size of
112 octets and a valid digest. -/
def sample_header_13 : List Byte :=
  with_digest sample_platform
    ((ft_fields sample_platform (sample_ft_at 1 100 13) 512 16 112).take 16 ++
      [host_bytes sample_platform 8 0])

/-- The sample collaborators over a file that holds the version-13 descriptor
`sample_descriptor_13` at offset 528, recorded in the translation table with
its 15 octets. -/
def sample_world_13 : World :=
  { sample_world (sample_file_descriptor sample_descriptor_13) with
    toku_blocktable_create_from_buffer := fun _ _ _ =>
      (deserialize_error_code.DS_OK, sample_blocktable_descriptor 15) }

/-- A descriptor whose payload is `n` zero octets. -/
def descriptor_of_zeros (n : Nat) : DESCRIPTOR_S :=
  { dbt := { data := List.replicate n 0, size := n } }

/-- The sample header as it stands after an upgrade from a version-13 file
(`layout_version_read_from_disk = 13`, `layout_version = 20`), with a
comparator descriptor that is not a copy of its descriptor. -/
def sample_ft_upgraded : FT :=
  { sample_ft with
    layout_version_read_from_disk := 13,
    cmp_descriptor := { dbt := { data := [9], size := 1 } } }

/-! ## Theorems -/

/-! ### Octets and integers -/

@[simp]
theorem be_bytes_length (n x : Nat) : (be_bytes n x).length = n := by
  induction n with
  | zero => rfl
  | succ k ih => simp [be_bytes, ih]

@[simp]
theorem le_bytes_length (n x : Nat) : (le_bytes n x).length = n := by
  induction n generalizing x with
  | zero => rfl
  | succ k ih => simp [le_bytes, ih]

@[simp]
theorem host_bytes_length (p : Platform) (n x : Nat) : (host_bytes p n x).length = n := by
  unfold host_bytes
  split <;> simp

theorem tokudata_length : tokudata.length = 8 := rfl

theorem be_value_be_bytes_4 (x : Nat) : be_value (be_bytes 4 x) = x % 2 ^ 32 := by
  simp only [be_bytes, be_value, List.foldl]
  norm_num
  omega

theorem be_value_be_bytes_8 (x : Nat) : be_value (be_bytes 8 x) = x % 2 ^ 64 := by
  simp only [be_bytes, be_value, List.foldl]
  norm_num
  omega

theorem le_value_le_bytes_4 (x : Nat) : le_value (le_bytes 4 x) = x % 2 ^ 32 := by
  simp only [le_bytes, le_value]
  omega

theorem le_value_le_bytes_8 (x : Nat) : le_value (le_bytes 8 x) = x % 2 ^ 64 := by
  simp only [le_bytes, le_value]
  omega

theorem host_value_host_bytes_4 (p : Platform) (x : Nat) :
    host_value p (host_bytes p 4 x) = x % 2 ^ 32 := by
  unfold host_value host_bytes
  split
  · exact le_value_le_bytes_4 x
  · exact be_value_be_bytes_4 x

theorem host_value_host_bytes_8 (p : Platform) (x : Nat) :
    host_value p (host_bytes p 8 x) = x % 2 ^ 64 := by
  unfold host_value host_bytes
  split
  · exact le_value_le_bytes_8 x
  · exact be_value_be_bytes_8 x

theorem be_value_singleton (c : Nat) : be_value [c] = c := by
  simp [be_value]

theorem to_int64_of_int64 (a : Int) (h0 : 0 ≤ a) (h1 : a < 2 ^ 63) :
    to_int64 (of_int64 a % 2 ^ 64) = a := by
  unfold to_int64 of_int64
  have e : (a % 2 ^ 64).toNat % 2 ^ 64 % 2 ^ 64 = a.toNat := by omega
  rw [e]
  split <;> omega

/-! ### The encoder in closed form -/

theorem wbuf_write_all_eq (chunks : List (List Byte)) (w : wbuf) (hw : w.buf.length ≤ w.size) :
    wbuf_write_all w chunks =
      if w.buf.length + chunks.flatten.length ≤ w.size then
        some { w with buf := w.buf ++ chunks.flatten, checksum := w.checksum ++ chunks.flatten }
      else none := by
  induction chunks generalizing w with
  | nil => simp [wbuf_write_all, hw]
  | cons bytes rest ih =>
    have hf : (bytes :: rest).flatten = bytes ++ rest.flatten := rfl
    rw [hf, List.length_append]
    simp only [wbuf_write_all, wbuf_literal_bytes, wbuf.ndone]
    by_cases h1 : w.buf.length + bytes.length ≤ w.size
    · rw [if_pos h1]
      simp only []
      rw [ih _ (by simpa using h1)]
      simp only [List.length_append, List.append_assoc, Nat.add_assoc]
    · have h3 : ¬ w.buf.length + (bytes.length + rest.flatten.length) ≤ w.size := by omega
      rw [if_neg h1, if_neg h3]

theorem toku_serialize_ft_to_wbuf_eq (p : Platform) (w : wbuf) (h : FT) (a s : Int) :
    toku_serialize_ft_to_wbuf p w h a s =
      match wbuf_write_all w (ft_fields p h a s w.size) with
      | none => none
      | some w =>
        match wbuf_int p w (x1764_finish p w.checksum) with
        | none => none
        | some w => if w.ndone = w.size then some w else none := by
  simp only [toku_serialize_ft_to_wbuf, ft_fields, wbuf_write_all, wbuf_network_int, wbuf_int,
    wbuf_ulonglong, wbuf_LSN, wbuf_MSN, wbuf_TXNID, wbuf_BLOCKNUM, wbuf_DISKOFF, wbuf_char]
  repeat (first | rfl | split)

theorem ft_body_length (p : Platform) (h : FT) (a s : Int) (size : Nat) :
    (ft_body p h a s size).length = 173 := by
  simp [ft_body, ft_fields, List.flatten, tokudata_length]

theorem ft_encoded_length (p : Platform) (h : FT) (a s : Int) (size : Nat) :
    (ft_encoded p h a s size).length = 177 := by
  simp [ft_encoded, ft_body_length]

/-- The encoder on a fresh write cursor of `n` octets: it completes exactly
when `n = 177`, and then the buffer is the body followed by its digest. -/
theorem toku_serialize_ft_to_wbuf_init (p : Platform) (h : FT) (a s : Int) (n : Nat) :
    toku_serialize_ft_to_wbuf p (wbuf_init n) h a s =
      if n = 177 then
        some { buf := ft_encoded p h a s n, size := n, checksum := ft_encoded p h a s n }
      else none := by
  rw [toku_serialize_ft_to_wbuf_eq, wbuf_write_all_eq _ _ (by simp [wbuf_init])]
  have hl : (ft_fields p h a s n).flatten.length = 173 := ft_body_length p h a s n
  have e1 : (wbuf_init n).buf = [] := rfl
  have e2 : (wbuf_init n).size = n := rfl
  have e3 : (wbuf_init n).checksum = [] := rfl
  rw [e1, e2, e3, hl]
  by_cases h1 : 173 ≤ n
  · rw [if_pos (by simpa using h1)]
    simp only [wbuf_int, wbuf_literal_bytes, wbuf.ndone, x1764_finish, List.nil_append,
      host_bytes_length, hl]
    by_cases h2 : 173 + 4 ≤ n
    · rw [if_pos h2]
      simp only [List.length_append, hl, host_bytes_length]
      by_cases h3 : n = 177
      · rw [if_pos h3.symm, if_pos h3]
        rfl
      · rw [if_neg (fun e => h3 e.symm), if_neg h3]
    · rw [if_neg h2, if_neg (by omega)]
  · rw [if_neg (by simpa using h1), if_neg (by omega)]

/-! ### Reading back what was written -/

theorem rbuf_ok_init (B : List Byte) : rbuf_ok B (rbuf_init B B.length) B := by
  simp [rbuf_ok, rbuf_init]

theorem rbuf_ok_size {B : List Byte} {rb : rbuf} {l : List Byte} (R : rbuf_ok B rb l) :
    rb.size = B.length := R.2.1

theorem rbuf_ok_nil {B : List Byte} {rb : rbuf} (R : rbuf_ok B rb []) : rb.ndone = rb.size := by
  obtain ⟨_, h2, h3, h4⟩ := R
  have := congrArg List.length h4
  simp at this
  omega

theorem rbuf_literal_bytes_ok {B : List Byte} {rb : rbuf} {bs rest : List Byte} (n : Nat)
    (hn : bs.length = n) (R : rbuf_ok B rb (bs ++ rest)) :
    ∃ rb', rbuf_literal_bytes rb n = some (bs, rb') ∧ rbuf_ok B rb' rest := by
  obtain ⟨h1, h2, h3, h4⟩ := R
  have hl := congrArg List.length h4
  simp only [List.length_drop, List.length_append] at hl
  refine ⟨{ rb with ndone := rb.ndone + n }, ?_, ?_⟩
  · unfold rbuf_literal_bytes
    rw [if_pos (by omega), h1, h4, List.take_left' hn]
  · refine ⟨h1, h2, by simp only; omega, ?_⟩
    simp only
    rw [← List.drop_drop, h4, List.drop_left' hn]

theorem rbuf_network_int_ok {B : List Byte} {rb : rbuf} {rest : List Byte} (x : Nat)
    (R : rbuf_ok B rb (be_bytes 4 x ++ rest)) :
    ∃ rb', rbuf_network_int rb = some (x % 2 ^ 32, rb') ∧ rbuf_ok B rb' rest := by
  obtain ⟨rb', e, R'⟩ := rbuf_literal_bytes_ok 4 (by simp) R
  exact ⟨rb', by simp [rbuf_network_int, e, be_value_be_bytes_4], R'⟩

theorem rbuf_int_ok (p : Platform) {B : List Byte} {rb : rbuf} {rest : List Byte} (x : Nat)
    (R : rbuf_ok B rb (host_bytes p 4 x ++ rest)) :
    ∃ rb', rbuf_int p rb = some (x % 2 ^ 32, rb') ∧ rbuf_ok B rb' rest := by
  obtain ⟨rb', e, R'⟩ := rbuf_literal_bytes_ok 4 (by simp) R
  exact ⟨rb', by simp [rbuf_int, e, host_value_host_bytes_4], R'⟩

theorem rbuf_ulonglong_ok (p : Platform) {B : List Byte} {rb : rbuf} {rest : List Byte} (x : Nat)
    (R : rbuf_ok B rb (host_bytes p 8 x ++ rest)) :
    ∃ rb', rbuf_ulonglong p rb = some (x % 2 ^ 64, rb') ∧ rbuf_ok B rb' rest := by
  obtain ⟨rb', e, R'⟩ := rbuf_literal_bytes_ok 8 (by simp) R
  exact ⟨rb', by simp [rbuf_ulonglong, e, host_value_host_bytes_8], R'⟩

theorem rbuf_char_ok {B : List Byte} {rb : rbuf} {rest : List Byte} (c : Nat)
    (R : rbuf_ok B rb ([c] ++ rest)) :
    ∃ rb', rbuf_char rb = some (c, rb') ∧ rbuf_ok B rb' rest := by
  obtain ⟨rb', e, R'⟩ := rbuf_literal_bytes_ok 1 (by simp) R
  exact ⟨rb', by simp [rbuf_char, e, be_value_singleton], R'⟩

theorem rbuf_diskoff_ok (p : Platform) {B : List Byte} {rb : rbuf} {rest : List Byte} (a : Int)
    (h0 : 0 ≤ a) (h1 : a < 2 ^ 63) (R : rbuf_ok B rb (host_bytes p 8 (of_int64 a) ++ rest)) :
    ∃ rb', rbuf_diskoff p rb = some (a, rb') ∧ rbuf_ok B rb' rest := by
  obtain ⟨rb', e, R'⟩ := rbuf_ulonglong_ok p _ R
  refine ⟨rb', ?_, R'⟩
  unfold rbuf_diskoff
  rw [e, Option.map_some', to_int64_of_int64 a h0 h1]

/-! ### Descriptor: what is written is read back -/

theorem descriptor_encoded_length (p : Platform) (desc : DESCRIPTOR_S) :
    (descriptor_encoded p desc).length = desc.dbt.data.length + 8 := by
  simp [descriptor_encoded]
  omega

theorem toku_serialize_descriptor_contents_to_fd_eq (p : Platform) (desc : DESCRIPTOR_S)
    (offset : Int) (h1 : desc.dbt.size = desc.dbt.data.length) (h2 : desc.dbt.size + 8 < 2 ^ 32) :
    toku_serialize_descriptor_contents_to_fd p desc offset =
      some (0, { buf := descriptor_encoded p desc, count := desc.dbt.size + 8,
                 offset := offset }) := by
  have e1 : (toku_serialize_descriptor_size desc + 4) % 2 ^ 32 = desc.dbt.size + 8 := by
    simp only [toku_serialize_descriptor_size]
    omega
  have e2 : List.take desc.dbt.size desc.dbt.data = desc.dbt.data := by
    rw [h1]; exact List.take_length _
  have c1 : 0 + 4 ≤ desc.dbt.size + 8 := by omega
  have c2 : 0 + 4 + desc.dbt.data.length ≤ desc.dbt.size + 8 := by omega
  have c3 : 0 + 4 + desc.dbt.data.length + 4 ≤ desc.dbt.size + 8 := by omega
  have c4 : 0 + 4 + desc.dbt.data.length + 4 = desc.dbt.size + 8 := by omega
  simp only [toku_serialize_descriptor_contents_to_fd, e1,
    toku_serialize_descriptor_contents_to_wbuf, wbuf_bytes, wbuf_int, wbuf_literal_bytes,
    wbuf.ndone, wbuf_init, x1764_finish, Option.bind_eq_bind, List.length_nil,
    host_bytes_length, c1, if_true, Option.some_bind, List.nil_append, List.length_append,
    e2, c2, c3, c4, descriptor_encoded]
  rw [if_pos (le_refl _)]
  simp only []
  rw [if_pos (by simp only [List.length_append, host_bytes_length]; omega)]

theorem deserialize_descriptor_from_encoded (p : Platform) (wd : World) (bt : BLOCK_TABLE)
    (desc : DESCRIPTOR_S) (v : Nat) (hv : FT_LAYOUT_VERSION_13 < v)
    (h1 : desc.dbt.size = desc.dbt.data.length) (h2 : desc.dbt.size + 8 < 2 ^ 32)
    (hsize : bt.descriptor_size = ((desc.dbt.size + 8 : Nat) : Int))
    (hread : wd.pread (desc.dbt.size + 8) bt.descriptor_offset =
      PreadResult.read (descriptor_encoded p desc)) :
    deserialize_descriptor_from p wd bt v = some (deserialize_error_code.DS_OK, desc) := by
  have hn : bt.descriptor_size.toNat = desc.dbt.size + 8 := by omega
  have hl := descriptor_encoded_length p desc
  have R0 := rbuf_ok_init (descriptor_encoded p desc)
  rw [hl, ← h1] at R0
  have hE : descriptor_encoded p desc = host_bytes p 4 desc.dbt.size ++ (desc.dbt.data ++
      host_bytes p 4 (x1764_memory p (host_bytes p 4 desc.dbt.size ++ desc.dbt.data))) := by
    simp [descriptor_encoded]
  generalize hB : descriptor_encoded p desc = B at R0 hread hl
  have R0' : rbuf_ok B (rbuf_init B (desc.dbt.size + 8)) (host_bytes p 4 desc.dbt.size ++
      (desc.dbt.data ++ host_bytes p 4 (x1764_memory p
        (host_bytes p 4 desc.dbt.size ++ desc.dbt.data)))) := by
    rw [← hE, hB]; exact R0
  obtain ⟨rb1, e1, R1⟩ := rbuf_int_ok p _ R0'
  obtain ⟨rb2, e2, R2⟩ := rbuf_literal_bytes_ok desc.dbt.size h1.symm R1
  have hm : desc.dbt.size % 2 ^ 32 = desc.dbt.size := Nat.mod_eq_of_lt (by omega)
  rw [hm] at e1
  have hx : x1764_memory p (List.take (desc.dbt.size + 8 - 4) B) =
      host_value p (List.take 4 (List.drop (desc.dbt.size + 8 - 4) B)) := by
    have hlen : (host_bytes p 4 desc.dbt.size ++ desc.dbt.data).length =
        desc.dbt.size + 8 - 4 := by
      simp; omega
    rw [← hB, descriptor_encoded, List.take_left' hlen, List.drop_left' hlen,
      List.take_of_length_le (by simp), host_value_host_bytes_4]
    unfold x1764_memory
    omega
  have hdesc : desc = { dbt := { data := if desc.dbt.size > 0 then desc.dbt.data else [],
                                 size := desc.dbt.size } } := by
    rcases desc with ⟨⟨data, size⟩⟩
    simp only at h1 ⊢
    by_cases hz : size > 0
    · simp [hz]
    · have : data = [] := List.eq_nil_of_length_eq_zero (by omega)
      simp [hz, this]
  have hds : ((deserialize_descriptor_size desc v + 4) % 2 ^ 32 : Nat) = desc.dbt.size + 8 := by
    have : ¬ v = FT_LAYOUT_VERSION_13 := by omega
    simp only [deserialize_descriptor_size, this, if_false]
    omega
  have hnv : ¬ v ≤ FT_LAYOUT_VERSION_13 := by omega
  have hpos : bt.descriptor_size > 0 := by omega
  have hge : bt.descriptor_size ≥ 4 := by omega
  have hlen2 : ((B.length : Nat) : Int) = bt.descriptor_size := by omega
  simp only [deserialize_descriptor_from, hpos, hge, hn, hread, hlen2, hx, rbuf_init,
    deserialize_descriptor_from_rbuf, hnv, rbuf_bytes, if_true, if_false, not_true,
    ne_eq, not_false_eq_true, Option.bind_eq_bind] at e1 e2 ⊢
  rw [e1]
  simp only [Option.some_bind, e2]
  rw [← hdesc]
  rw [if_pos (by rw [hds, hsize])]

/-! ### Header: what is written is read back -/

theorem ft_encoded_expand (p : Platform) (h : FT) (a s : Int) (size : Nat) :
    ft_encoded p h a s size =
      tokudata ++ (
      be_bytes 4 h.layout_version ++ (
      be_bytes 4 p.BUILD_ID ++ (
      be_bytes 4 size ++ (
      host_bytes p 8 p.toku_byte_order_host ++ (
      host_bytes p 8 h.checkpoint_count ++ (
      host_bytes p 8 h.checkpoint_lsn ++ (
      host_bytes p 4 h.nodesize ++ (
      host_bytes p 8 (of_int64 a) ++ (
      host_bytes p 8 (of_int64 s) ++ (
      host_bytes p 8 h.root_blocknum ++ (
      host_bytes p 4 h.flags ++ (
      host_bytes p 4 h.layout_version_original ++ (
      host_bytes p 4 h.build_id_original ++ (
      host_bytes p 8 h.time_of_creation ++ (
      host_bytes p 8 h.time_of_last_modification ++ (
      host_bytes p 8 h.root_xid_that_created ++ (
      host_bytes p 4 h.basementnodesize ++ (
      host_bytes p 8 h.time_of_last_verification ++ (
      host_bytes p 8 h.checkpoint_staging_stats.numrows ++ (
      host_bytes p 8 h.checkpoint_staging_stats.numbytes ++ (
      host_bytes p 8 h.time_of_last_optimize_begin ++ (
      host_bytes p 8 h.time_of_last_optimize_end ++ (
      host_bytes p 4 h.count_of_optimize_in_progress ++ (
      host_bytes p 8 h.msn_at_start_of_last_completed_optimize ++ (
      [h.compression_method % 256] ++ (
      host_bytes p 8 h.highest_unused_msn_for_upgrade ++ (
      host_bytes p 4 (x1764_memory p (ft_body p h a s size)) ++ ([])))))))))))))))))))))))))))) := by
  simp [ft_encoded, ft_body, ft_fields, List.flatten]

theorem rbuf_ok_of_eq {B l : List Byte} (n : Nat) (hn : B.length = n) (h : B = l) :
    rbuf_ok B (rbuf_init B n) l := by
  subst hn
  rw [← h]
  exact rbuf_ok_init B

theorem deserialize_ft_versioned_encoded (p : Platform) (wd : World) (h : FT) (a s : Int)
    (tbuf : List Byte) (bt : BLOCK_TABLE)
    (hr : h.in_range) (hv : h.layout_version = FT_LAYOUT_VERSION)
    (ha0 : 0 < a) (ha1 : a < 2 ^ 63) (hs0 : 0 < s) (hs1 : s < 2 ^ 63)
    (hcalloc : wd.calloc_fails = false) (homt : wd.toku_omt_create = 0)
    (htr : wd.pread s.toNat a = PreadResult.read tbuf) (htl : (tbuf.length : Int) = s)
    (hbt : wd.toku_blocktable_create_from_buffer a s tbuf = (deserialize_error_code.DS_OK, bt))
    (hdsize : bt.descriptor_size = ((h.descriptor.dbt.size + 8 : Nat) : Int))
    (hdread : wd.pread (h.descriptor.dbt.size + 8) bt.descriptor_offset =
      PreadResult.read (descriptor_encoded p h.descriptor)) :
    deserialize_ft_versioned p wd (rbuf_init (ft_encoded p h a s 177) 177) FT_LAYOUT_VERSION =
      some { e := deserialize_error_code.DS_OK, ft := some (ft_reloaded p h bt),
             errno := none } := by
  obtain ⟨r1, r2, r3, r4, r5, r6, r7, r8, r9, r10, r11, r12, r13, r14, r15, r16, r17, r18, r19,
    r20, r21, r22⟩ := hr
  have hdesc := deserialize_descriptor_from_encoded p wd bt h.descriptor FT_LAYOUT_VERSION
    (by decide) r21 r22 hdsize hdread
  have R0 := rbuf_ok_of_eq 177 (ft_encoded_length p h a s 177) (ft_encoded_expand p h a s 177)
  rw [hv] at R0
  generalize ft_encoded p h a s 177 = B at R0 ⊢
  have hBl : B.length = 177 := (rbuf_ok_size R0).symm
  obtain ⟨rb1, e0, R1⟩ := rbuf_literal_bytes_ok 8 (by simp [tokudata_length]) R0
  obtain ⟨rb2, e1, R2⟩ := rbuf_network_int_ok _ R1
  obtain ⟨rb3, e2, R3⟩ := rbuf_network_int_ok _ R2
  obtain ⟨rb4, e3, R4⟩ := rbuf_network_int_ok _ R3
  obtain ⟨rb5, e4, R5⟩ := rbuf_literal_bytes_ok 8 (by simp [tokudata_length]) R4
  obtain ⟨rb6, e5, R6⟩ := rbuf_ulonglong_ok p _ R5
  obtain ⟨rb7, e6, R7⟩ := rbuf_ulonglong_ok p _ R6
  obtain ⟨rb8, e7, R8⟩ := rbuf_int_ok p _ R7
  obtain ⟨rb9, e8, R9⟩ := rbuf_diskoff_ok p a (by omega) ha1 R8
  obtain ⟨rb10, e9, R10⟩ := rbuf_diskoff_ok p s (by omega) hs1 R9
  obtain ⟨rb11, e10, R11⟩ := rbuf_ulonglong_ok p _ R10
  obtain ⟨rb12, e11, R12⟩ := rbuf_int_ok p _ R11
  obtain ⟨rb13, e12, R13⟩ := rbuf_int_ok p _ R12
  obtain ⟨rb14, e13, R14⟩ := rbuf_int_ok p _ R13
  obtain ⟨rb15, e14, R15⟩ := rbuf_ulonglong_ok p _ R14
  obtain ⟨rb16, e15, R16⟩ := rbuf_ulonglong_ok p _ R15
  obtain ⟨rb17, e16, R17⟩ := rbuf_ulonglong_ok p _ R16
  obtain ⟨rb18, e17, R18⟩ := rbuf_int_ok p _ R17
  obtain ⟨rb19, e18, R19⟩ := rbuf_ulonglong_ok p _ R18
  obtain ⟨rb20, e19, R20⟩ := rbuf_ulonglong_ok p _ R19
  obtain ⟨rb21, e20, R21⟩ := rbuf_ulonglong_ok p _ R20
  obtain ⟨rb22, e21, R22⟩ := rbuf_ulonglong_ok p _ R21
  obtain ⟨rb23, e22, R23⟩ := rbuf_ulonglong_ok p _ R22
  obtain ⟨rb24, e23, R24⟩ := rbuf_int_ok p _ R23
  obtain ⟨rb25, e24, R25⟩ := rbuf_ulonglong_ok p _ R24
  obtain ⟨rb26, e25, R26⟩ := rbuf_char_ok _ R25
  obtain ⟨rb27, e26, R27⟩ := rbuf_ulonglong_ok p _ R26
  obtain ⟨rb28, e27, R28⟩ := rbuf_int_ok p _ R27
  have hend := rbuf_ok_nil R28
  have hsz : rb4.size = 177 := by rw [rbuf_ok_size R4, hBl]
  have m1 : FT_LAYOUT_VERSION % 2 ^ 32 = 20 := by decide
  have m3 : 177 % 2 ^ 32 = 177 := by decide
  rw [m1] at e1
  rw [m3] at e3
  rw [Nat.mod_eq_of_lt r3] at e5
  rw [Nat.mod_eq_of_lt r4] at e6
  rw [Nat.mod_eq_of_lt r5] at e7
  rw [Nat.mod_eq_of_lt r7] at e10
  rw [Nat.mod_eq_of_lt r8] at e11
  rw [Nat.mod_eq_of_lt r1] at e12
  rw [Nat.mod_eq_of_lt r2] at e13
  rw [Nat.mod_eq_of_lt r9] at e14
  rw [Nat.mod_eq_of_lt r10] at e15
  rw [Nat.mod_eq_of_lt r12] at e16
  rw [Nat.mod_eq_of_lt r6] at e17
  rw [Nat.mod_eq_of_lt r11] at e18
  rw [Nat.mod_eq_of_lt r13] at e19
  rw [Nat.mod_eq_of_lt r14] at e20
  rw [Nat.mod_eq_of_lt r15] at e21
  rw [Nat.mod_eq_of_lt r16] at e22
  rw [Nat.mod_eq_of_lt r17] at e23
  rw [Nat.mod_eq_of_lt r18] at e24
  rw [Nat.mod_eq_of_lt r19] at e25
  rw [Nat.mod_eq_of_lt r20] at e26
  have c1 : FT_LAYOUT_VERSION ≥ FT_LAYOUT_MIN_SUPPORTED_VERSION := by decide
  have c2 : (20 : Nat) ≥ FT_LAYOUT_MIN_SUPPORTED_VERSION := by decide
  have c3 : (20 : Nat) ≤ FT_LAYOUT_VERSION := by decide
  have c4 : ¬ ((20 : Nat) ≤ FT_LAYOUT_VERSION_13) := by decide
  have c5 : ¬ ((20 : Nat) ≤ FT_LAYOUT_VERSION_18) := by decide
  have c6 : (20 : Nat) ≥ FT_LAYOUT_VERSION_14 := by decide
  have c7 : (20 : Nat) ≥ FT_LAYOUT_VERSION_15 := by decide
  have c8 : (20 : Nat) ≥ FT_LAYOUT_VERSION_18 := by decide
  have c9 : (20 : Nat) ≥ FT_LAYOUT_VERSION_19 := by decide
  have c10 : (20 : Nat) % 2 ^ 32 = FT_LAYOUT_VERSION := by decide
  have c11 : ¬ (FT_LAYOUT_VERSION ≤ FT_LAYOUT_VERSION_13) := by decide
  have c12 : host_value p (host_bytes p 8 p.toku_byte_order_host) =
      p.toku_byte_order_host % 2 ^ 64 := host_value_host_bytes_8 p _
  simp only [deserialize_ft_versioned, deserialize_ft_versioned_fields,
    deserialize_ft_versioned_finish, rbuf_lsn, rbuf_msn, rbuf_TXNID, rbuf_blocknum,
    e0, e1, e2, e3, e4, e5, e6, e7, e8, e9, e10, e11, e12, e13, e14, e15, e16, e17, e18, e19, e20, e21, e22, e23, e24, e25, e26, e27, hcalloc, homt, htr, htl, hbt, hdesc, hend, hsz, c1, c2, c3, c4, c5, c6, c7, c8, c9,
    c10, c11, c12, le_refl, ha0, hs0, ne_eq, not_true_eq_false, not_false_eq_true, if_true,
    if_false, Bool.false_eq_true, Option.map_some', gt_iff_lt, ge_iff_le]
  rfl

/-! ### Size prediction -/

theorem serialize_ft_min_size_values (p : Platform)
    (hres : 177 ≤ p.BLOCK_ALLOCATOR_HEADER_RESERVE) :
    serialize_ft_min_size p 12 = some 88 ∧
    serialize_ft_min_size p 13 = some 112 ∧
    serialize_ft_min_size p 14 = some 120 ∧
    serialize_ft_min_size p 15 = some 140 ∧
    serialize_ft_min_size p 16 = some 140 ∧
    serialize_ft_min_size p 17 = some 156 ∧
    serialize_ft_min_size p 18 = some 168 ∧
    serialize_ft_min_size p 19 = some 177 ∧
    serialize_ft_min_size p 20 = some 177 ∧
    ∀ version, (version < 12 ∨ 20 < version) → serialize_ft_min_size p version = none := by
  have h88 : 88 ≤ p.BLOCK_ALLOCATOR_HEADER_RESERVE := by omega
  have h112 : 112 ≤ p.BLOCK_ALLOCATOR_HEADER_RESERVE := by omega
  have h120 : 120 ≤ p.BLOCK_ALLOCATOR_HEADER_RESERVE := by omega
  have h140 : 140 ≤ p.BLOCK_ALLOCATOR_HEADER_RESERVE := by omega
  have h156 : 156 ≤ p.BLOCK_ALLOCATOR_HEADER_RESERVE := by omega
  have h168 : 168 ≤ p.BLOCK_ALLOCATOR_HEADER_RESERVE := by omega
  refine ⟨?_, ?_, ?_, ?_, ?_, ?_, ?_, ?_, ?_, ?_⟩
  · simp [serialize_ft_min_size, FT_LAYOUT_VERSION_12, FT_LAYOUT_VERSION_13,
      FT_LAYOUT_VERSION_14, FT_LAYOUT_VERSION_15, FT_LAYOUT_VERSION_17, FT_LAYOUT_VERSION_18,
      FT_LAYOUT_VERSION_19, FT_LAYOUT_VERSION_20, h88]
  · simp [serialize_ft_min_size, FT_LAYOUT_VERSION_12, FT_LAYOUT_VERSION_13,
      FT_LAYOUT_VERSION_14, FT_LAYOUT_VERSION_15, FT_LAYOUT_VERSION_17, FT_LAYOUT_VERSION_18,
      FT_LAYOUT_VERSION_19, FT_LAYOUT_VERSION_20, h112]
  · simp [serialize_ft_min_size, FT_LAYOUT_VERSION_12, FT_LAYOUT_VERSION_13,
      FT_LAYOUT_VERSION_14, FT_LAYOUT_VERSION_15, FT_LAYOUT_VERSION_17, FT_LAYOUT_VERSION_18,
      FT_LAYOUT_VERSION_19, FT_LAYOUT_VERSION_20, h120]
  · simp [serialize_ft_min_size, FT_LAYOUT_VERSION_12, FT_LAYOUT_VERSION_13,
      FT_LAYOUT_VERSION_14, FT_LAYOUT_VERSION_15, FT_LAYOUT_VERSION_17, FT_LAYOUT_VERSION_18,
      FT_LAYOUT_VERSION_19, FT_LAYOUT_VERSION_20, h140]
  · simp [serialize_ft_min_size, FT_LAYOUT_VERSION_12, FT_LAYOUT_VERSION_13,
      FT_LAYOUT_VERSION_14, FT_LAYOUT_VERSION_15, FT_LAYOUT_VERSION_17, FT_LAYOUT_VERSION_18,
      FT_LAYOUT_VERSION_19, FT_LAYOUT_VERSION_20, h140]
  · simp [serialize_ft_min_size, FT_LAYOUT_VERSION_12, FT_LAYOUT_VERSION_13,
      FT_LAYOUT_VERSION_14, FT_LAYOUT_VERSION_15, FT_LAYOUT_VERSION_17, FT_LAYOUT_VERSION_18,
      FT_LAYOUT_VERSION_19, FT_LAYOUT_VERSION_20, h156]
  · simp [serialize_ft_min_size, FT_LAYOUT_VERSION_12, FT_LAYOUT_VERSION_13,
      FT_LAYOUT_VERSION_14, FT_LAYOUT_VERSION_15, FT_LAYOUT_VERSION_17, FT_LAYOUT_VERSION_18,
      FT_LAYOUT_VERSION_19, FT_LAYOUT_VERSION_20, h168]
  · simp [serialize_ft_min_size, FT_LAYOUT_VERSION_12, FT_LAYOUT_VERSION_13,
      FT_LAYOUT_VERSION_14, FT_LAYOUT_VERSION_15, FT_LAYOUT_VERSION_17, FT_LAYOUT_VERSION_18,
      FT_LAYOUT_VERSION_19, FT_LAYOUT_VERSION_20, hres]
  · simp [serialize_ft_min_size, FT_LAYOUT_VERSION_12, FT_LAYOUT_VERSION_13,
      FT_LAYOUT_VERSION_14, FT_LAYOUT_VERSION_15, FT_LAYOUT_VERSION_17, FT_LAYOUT_VERSION_18,
      FT_LAYOUT_VERSION_19, FT_LAYOUT_VERSION_20, hres]
  · intro version hv
    simp [serialize_ft_min_size, FT_LAYOUT_VERSION_12, FT_LAYOUT_VERSION_20, hv]

/-- C3: `serialize_ft_min_size` returns 88 for version 12, 112 for 13, 120 for
14, 140 for 15 and 16, 156 for 17, 168 for 18 and 177 for 19 and 20 (the
reservation being large enough for the largest header, as the spec requires of
`HEADER_RESERVE`), and for every version outside 12..20 it aborts. -/
theorem serialize_ft_min_size_table (p : Platform)
    (hres : 177 ≤ p.BLOCK_ALLOCATOR_HEADER_RESERVE) :
    serialize_ft_min_size p 12 = some 88 ∧
    serialize_ft_min_size p 13 = some 112 ∧
    serialize_ft_min_size p 14 = some 120 ∧
    serialize_ft_min_size p 15 = some 140 ∧
    serialize_ft_min_size p 16 = some 140 ∧
    serialize_ft_min_size p 17 = some 156 ∧
    serialize_ft_min_size p 18 = some 168 ∧
    serialize_ft_min_size p 19 = some 177 ∧
    serialize_ft_min_size p 20 = some 177 ∧
    ∀ version, (version < 12 ∨ 20 < version) → serialize_ft_min_size p version = none :=
  serialize_ft_min_size_values p hres

/-- The size table of C3 at the sample host, whose reservation is 256 octets. -/
theorem serialize_ft_min_size_table_witness :
    177 ≤ sample_platform.BLOCK_ALLOCATOR_HEADER_RESERVE ∧
    serialize_ft_min_size sample_platform 12 = some 88 ∧
    serialize_ft_min_size sample_platform 17 = some 156 ∧
    serialize_ft_min_size sample_platform 20 = some 177 ∧
    serialize_ft_min_size sample_platform 21 = none :=
  ⟨by decide,
   (serialize_ft_min_size_table sample_platform (by decide)).1,
   (serialize_ft_min_size_table sample_platform (by decide)).2.2.2.2.2.1,
   (serialize_ft_min_size_table sample_platform (by decide)).2.2.2.2.2.2.2.2.1,
   (serialize_ft_min_size_table sample_platform (by decide)).2.2.2.2.2.2.2.2.2 21 (by decide)⟩

/-! ### Layout of an encoded header -/

theorem take_drop_chunk (pre c post : List Byte) (k n : Nat) (hk : pre.length = k)
    (hn : c.length = n) : ((pre ++ (c ++ post)).drop k).take n = c := by
  rw [List.drop_left' hk, List.take_left' hn]

theorem ft_encoded_split (p : Platform) (h : FT) (a s : Int) (n : Nat) :
    ∃ rest, ft_encoded p h a s n =
      tokudata ++ (be_bytes 4 h.layout_version ++ (be_bytes 4 p.BUILD_ID ++ (be_bytes 4 n ++
        (host_bytes p 8 p.toku_byte_order_host ++ (host_bytes p 8 h.checkpoint_count ++
          (host_bytes p 8 h.checkpoint_lsn ++ rest)))))) :=
  ⟨_, ft_encoded_expand p h a s n⟩

/-- Where the octets of an encoded header lie: magic, version, build id and
size in the prefix, the byte-order probe after it, and the digest of
everything before it in the last four octets. -/
theorem ft_encoded_layout (p : Platform) (h : FT) (a s : Int) (n : Nat) :
    (ft_encoded p h a s n).take 8 = tokudata ∧
    ((ft_encoded p h a s n).drop 8).take 4 = be_bytes 4 h.layout_version ∧
    ((ft_encoded p h a s n).drop 12).take 4 = be_bytes 4 p.BUILD_ID ∧
    ((ft_encoded p h a s n).drop 16).take 4 = be_bytes 4 n ∧
    ((ft_encoded p h a s n).drop 20).take 8 = host_bytes p 8 p.toku_byte_order_host ∧
    (ft_encoded p h a s n).take 20 =
      tokudata ++ (be_bytes 4 h.layout_version ++ (be_bytes 4 p.BUILD_ID ++
        (be_bytes 4 n ++ []))) ∧
    (ft_encoded p h a s n).drop (177 - 4) =
      host_bytes p 4 (x1764_memory p ((ft_encoded p h a s n).take (177 - 4))) := by
  obtain ⟨rest, hE⟩ := ft_encoded_split p h a s n
  refine ⟨?_, ?_, ?_, ?_, ?_, ?_, ?_⟩
  · rw [hE, List.take_left' tokudata_length]
  · rw [hE]
    exact take_drop_chunk _ _ _ 8 4 tokudata_length (by simp)
  · rw [hE, ← List.append_assoc]
    exact take_drop_chunk _ _ _ 12 4 (by simp [tokudata_length]) (by simp)
  · rw [hE, ← List.append_assoc, ← List.append_assoc]
    exact take_drop_chunk _ _ _ 16 4 (by simp [tokudata_length]) (by simp)
  · rw [hE, ← List.append_assoc, ← List.append_assoc, ← List.append_assoc]
    exact take_drop_chunk _ _ _ 20 8 (by simp [tokudata_length]) (by simp)
  · rw [hE, ← List.append_assoc, ← List.append_assoc, ← List.append_assoc,
      List.take_left' (by simp [tokudata_length])]
    simp
  · have hb := ft_body_length p h a s n
    have e1 : 177 - 4 = 173 := rfl
    rw [e1, ft_encoded, List.drop_left' hb, List.take_left' hb]

theorem toku_serialize_ft_to_wbuf_some {p : Platform} {h : FT} {a s : Int} {n : Nat} {w : wbuf}
    (hw : toku_serialize_ft_to_wbuf p (wbuf_init n) h a s = some w) :
    n = 177 ∧ w.buf = ft_encoded p h a s 177 ∧ w.size = 177 ∧
      w.checksum = ft_encoded p h a s 177 := by
  rw [toku_serialize_ft_to_wbuf_init] at hw
  by_cases hn : n = 177
  · subst hn
    rw [if_pos rfl] at hw
    cases hw
    exact ⟨rfl, rfl, rfl, rfl⟩
  · rw [if_neg hn] at hw
    cases hw

theorem serialize_ft_min_size_le (p : Platform) (hres : 177 ≤ p.BLOCK_ALLOCATOR_HEADER_RESERVE)
    (v : Nat) (h1 : FT_LAYOUT_MIN_SUPPORTED_VERSION ≤ v) (h2 : v ≤ FT_LAYOUT_VERSION) :
    ∃ m, serialize_ft_min_size p v = some m ∧ m ≤ 177 := by
  have t := serialize_ft_min_size_values p hres
  have h1' : 12 ≤ v := h1
  have h2' : v ≤ 20 := h2
  interval_cases v
  · exact ⟨_, t.1, by omega⟩
  · exact ⟨_, t.2.1, by omega⟩
  · exact ⟨_, t.2.2.1, by omega⟩
  · exact ⟨_, t.2.2.2.1, by omega⟩
  · exact ⟨_, t.2.2.2.2.1, by omega⟩
  · exact ⟨_, t.2.2.2.2.2.1, by omega⟩
  · exact ⟨_, t.2.2.2.2.2.2.1, by omega⟩
  · exact ⟨_, t.2.2.2.2.2.2.2.1, by omega⟩
  · exact ⟨_, t.2.2.2.2.2.2.2.2.1, by omega⟩

/-! ### The slot reader on an encoded header -/

theorem slot_read_encoded (p : Platform) (wd : World) (h : FT) (a s : Int) (off : Int)
    (e : deserialize_error_code)
    (hres : 177 ≤ p.BLOCK_ALLOCATOR_HEADER_RESERVE)
    (hv1 : FT_LAYOUT_MIN_SUPPORTED_VERSION ≤ h.layout_version % 2 ^ 32)
    (hv2 : h.layout_version % 2 ^ 32 ≤ FT_LAYOUT_VERSION)
    (hp1 : wd.pread 20 off = PreadResult.read ((ft_encoded p h a s 177).take 20))
    (hp2 : wd.pread 177 off = PreadResult.read (ft_encoded p h a s 177)) :
    deserialize_ft_from_fd_into_rbuf p wd off e =
      some { r := 0, rb := some (rbuf_init (ft_encoded p h a s 177) 177),
             checkpoint_count := some (h.checkpoint_count % 2 ^ 64),
             checkpoint_lsn := some (h.checkpoint_lsn % 2 ^ 64),
             version := some (h.layout_version % 2 ^ 32), e := e,
             reads := [(20, off), (177, off)] } := by
  obtain ⟨l1, l2, l3, l4, l5, l6, l7⟩ := ft_encoded_layout p h a s 177
  obtain ⟨rest, hE⟩ := ft_encoded_split p h a s 177
  have hlen := ft_encoded_length p h a s 177
  obtain ⟨m, hm, hm177⟩ := serialize_ft_min_size_le p hres _ hv1 hv2
  generalize ft_encoded p h a s 177 = E at *
  generalize hpfx : List.take 20 E = pfx at *
  have hpl : pfx.length = 20 := by rw [← hpfx]; simp; omega
  have Q0 := rbuf_ok_of_eq 20 hpl l6
  obtain ⟨q1, f0, Q1⟩ := rbuf_literal_bytes_ok 8 tokudata_length Q0
  obtain ⟨q2, f1, Q2⟩ := rbuf_network_int_ok _ Q1
  obtain ⟨q3, f2, Q3⟩ := rbuf_network_int_ok _ Q2
  obtain ⟨q4, f3, Q4⟩ := rbuf_network_int_ok _ Q3
  have hq4 : q4.ndone = 20 := by rw [rbuf_ok_nil Q4, rbuf_ok_size Q4, hpl]
  have hd20 : List.drop 20 E = host_bytes p 8 p.toku_byte_order_host ++
      (host_bytes p 8 h.checkpoint_count ++ (host_bytes p 8 h.checkpoint_lsn ++ rest)) := by
    rw [hE, ← List.append_assoc, ← List.append_assoc, ← List.append_assoc,
      List.drop_left' (by simp [tokudata_length])]
  have Q4' : rbuf_ok E { q4 with size := 177, buf := E }
      (host_bytes p 8 p.toku_byte_order_host ++
        (host_bytes p 8 h.checkpoint_count ++ (host_bytes p 8 h.checkpoint_lsn ++ rest))) := by
    refine ⟨rfl, hlen.symm, ?_, ?_⟩
    · simp only [hq4, hlen]; omega
    · simp only [hq4]; exact hd20
  obtain ⟨q5, f4, Q5⟩ := rbuf_literal_bytes_ok 8 (by simp) Q4'
  obtain ⟨q6, f5, Q6⟩ := rbuf_ulonglong_ok p _ Q5
  obtain ⟨q7, f6, Q7⟩ := rbuf_ulonglong_ok p _ Q6
  have hq7 : ({ q7 with ndone := 0 } : rbuf) = rbuf_init E 177 := by
    have b := Q7.1
    have c := rbuf_ok_size Q7
    rw [hlen] at c
    cases q7
    simp only at b c
    subst b c
    rfl
  have hx : x1764_memory p (List.take (177 - 4) E) =
      host_value p (List.take 4 (List.drop (177 - 4) E)) := by
    have t4 : List.take 4 (host_bytes p 4 (x1764_memory p (List.take (177 - 4) E))) =
        host_bytes p 4 (x1764_memory p (List.take (177 - 4) E)) :=
      List.take_of_length_le (by simp)
    rw [l7, t4, host_value_host_bytes_4]
    unfold x1764_memory
    omega
  have m3 : 177 % 2 ^ 32 = 177 := by decide
  rw [m3] at f3
  have c1 : ¬ h.layout_version % 2 ^ 32 < FT_LAYOUT_MIN_SUPPORTED_VERSION := by omega
  have c2 : ¬ h.layout_version % 2 ^ 32 > FT_LAYOUT_VERSION := by omega
  have c3 : ¬ (177 > p.BLOCK_ALLOCATOR_HEADER_RESERVE ∨ 177 < m) := by omega
  have c4 : host_value p (host_bytes p 8 p.toku_byte_order_host) =
      p.toku_byte_order_host % 2 ^ 64 := host_value_host_bytes_8 p _
  have e20 : 8 + 4 + 4 + 4 = 20 := rfl
  rw [hq4] at f4
  simp only [deserialize_ft_from_fd_into_rbuf, e20, hp1, hp2, hpl, f0, f1, f2, f3, f4, f5, f6,
    hm, hq4, hlen, hx, hq7, c1, c2, c3, c4, rbuf_lsn, ne_eq, not_true_eq_false,
    not_false_eq_true, if_true, if_false, List.singleton_append, List.cons_append,
    List.nil_append]


theorem slot_read_encoded_unsupported (p : Platform) (wd : World) (h : FT) (a s : Int)
    (off : Int) (e : deserialize_error_code)
    (hv : h.layout_version % 2 ^ 32 < FT_LAYOUT_MIN_SUPPORTED_VERSION ∨
      h.layout_version % 2 ^ 32 > FT_LAYOUT_VERSION)
    (hp1 : wd.pread 20 off = PreadResult.read ((ft_encoded p h a s 177).take 20)) :
    ∃ sr, deserialize_ft_from_fd_into_rbuf p wd off e = some sr ∧
      sr.version = some (h.layout_version % 2 ^ 32) ∧
      sr.r = (if h.layout_version % 2 ^ 32 < FT_LAYOUT_MIN_SUPPORTED_VERSION
        then p.TOKUDB_DICTIONARY_TOO_OLD else p.TOKUDB_DICTIONARY_TOO_NEW) := by
  obtain ⟨l1, l2, l3, l4, l5, l6, l7⟩ := ft_encoded_layout p h a s 177
  have hlen := ft_encoded_length p h a s 177
  generalize ft_encoded p h a s 177 = E at *
  generalize hpfx : List.take 20 E = pfx at *
  have hpl : pfx.length = 20 := by rw [← hpfx]; simp; omega
  have Q0 := rbuf_ok_of_eq 20 hpl l6
  obtain ⟨q1, f0, Q1⟩ := rbuf_literal_bytes_ok 8 tokudata_length Q0
  obtain ⟨q2, f1, Q2⟩ := rbuf_network_int_ok _ Q1
  have e20 : 8 + 4 + 4 + 4 = 20 := rfl
  by_cases hold : h.layout_version % 2 ^ 32 < FT_LAYOUT_MIN_SUPPORTED_VERSION
  · refine ⟨slot_exit p.TOKUDB_DICTIONARY_TOO_OLD (some q2) (some (h.layout_version % 2 ^ 32)) e
      [(20, off)], ?_, ?_, ?_⟩
    · simp only [deserialize_ft_from_fd_into_rbuf, e20, hp1, hpl, f0, f1, hold, ne_eq,
        not_true_eq_false, not_false_eq_true, if_true, if_false]
    · rfl
    · simp only [slot_exit, hold, if_true]
  · have hnew : h.layout_version % 2 ^ 32 > FT_LAYOUT_VERSION := by
      rcases hv with h1 | h1
      · exact absurd h1 hold
      · exact h1
    refine ⟨slot_exit p.TOKUDB_DICTIONARY_TOO_NEW (some q2) (some (h.layout_version % 2 ^ 32)) e
      [(20, off)], ?_, ?_, ?_⟩
    · simp only [deserialize_ft_from_fd_into_rbuf, e20, hp1, hpl, f0, f1, hold, hnew, ne_eq,
        not_true_eq_false, not_false_eq_true, if_true, if_false]
    · rfl
    · simp only [slot_exit, hold, if_false]

/-- Where the translation address and size lie in an encoded header. -/
theorem ft_encoded_translation (p : Platform) (h : FT) (a s : Int) (n : Nat)
    (ha0 : 0 ≤ a) (ha1 : a < 2 ^ 63) (hs0 : 0 ≤ s) (hs1 : s < 2 ^ 63) :
    to_int64 (host_value p (((ft_encoded p h a s n).drop 48).take 8)) = a ∧
    to_int64 (host_value p (((ft_encoded p h a s n).drop 56).take 8)) = s := by
  have hE := ft_encoded_expand p h a s n
  constructor
  · rw [hE, ← List.append_assoc, ← List.append_assoc, ← List.append_assoc,
      ← List.append_assoc, ← List.append_assoc, ← List.append_assoc, ← List.append_assoc,
      take_drop_chunk _ _ _ 48 8 (by simp [tokudata_length]) (by simp),
      host_value_host_bytes_8, to_int64_of_int64 a ha0 ha1]
  · rw [hE, ← List.append_assoc, ← List.append_assoc, ← List.append_assoc,
      ← List.append_assoc, ← List.append_assoc, ← List.append_assoc, ← List.append_assoc,
      ← List.append_assoc,
      take_drop_chunk _ _ _ 56 8 (by simp [tokudata_length]) (by simp),
      host_value_host_bytes_8, to_int64_of_int64 s hs0 hs1]

/-! ### Round trip at the current version -/

set_option maxRecDepth 100000

/-- C1, as stated, fails at the sample header: it satisfies the invariants
(layout version 20, translation at 512 of 16 octets), the encoder writes the
177 octets of `sample_header 1 100 20`, and the decoder accepts them, but the
header it builds has `build_id = 7` (the `BUILD_ID` of the writing binary)
where the encoded header has 3, and `on_disk_stats = (11, 110)` (the
statistics staged for the checkpoint) where the encoded header has (10, 100). -/
theorem roundtrip_sample_differs :
    sample_ft.layout_version = FT_LAYOUT_VERSION ∧
    toku_serialize_ft_to_wbuf sample_platform (wbuf_init 177) sample_ft 512 16 =
      some { buf := sample_header 1 100 20, size := 177, checksum := sample_header 1 100 20 } ∧
    (deserialize_ft_versioned sample_platform
        (sample_world (sample_file (sample_header 1 100 20) []))
        (rbuf_init (sample_header 1 100 20) 177) FT_LAYOUT_VERSION).map
      (fun r => (r.e, r.ft.map (fun h => (h.build_id, h.on_disk_stats)))) =
      some (deserialize_error_code.DS_OK, some (7, { numrows := 11, numbytes := 110 })) ∧
    sample_ft.build_id = 3 ∧
    sample_ft.on_disk_stats = { numrows := 10, numbytes := 100 } :=
  ⟨rfl, rfl, rfl, rfl, rfl⟩

/-- C1, amended: for every header `h` at the current layout version whose
fields fit their C types (the descriptor, with its 8 octets of length and
digest, within a 32-bit size), with a positive translation address and size,
the encoder completes on a 177-octet cursor and the decoder, given those
octets (and a file holding the translation table and the descriptor of `h`),
returns `DS_OK` with a header that agrees with `h` on every persisted field
except four: `build_id` is the `BUILD_ID` of the writing binary;
`on_disk_stats` (with `in_memory_stats`) are the `checkpoint_staging_stats`
of `h`; `layout_version_read_from_disk` is `FT_LAYOUT_VERSION`, the version
the encoder wrote, whatever version `h` was loaded from; and `cmp_descriptor`
is a copy of the descriptor of `h`, whatever `h.cmp_descriptor` was.  The
translation address and size are the 64-bit fields at octets 48 to 63 of the
output, and the table the loader builds from them is the one the header
keeps. -/
theorem roundtrip_current_version (p : Platform) (wd : World) (h : FT) (a s : Int)
    (tbuf : List Byte) (bt : BLOCK_TABLE)
    (hr : h.in_range) (hv : h.layout_version = FT_LAYOUT_VERSION)
    (ha0 : 0 < a) (ha1 : a < 2 ^ 63) (hs0 : 0 < s) (hs1 : s < 2 ^ 63)
    (hcalloc : wd.calloc_fails = false) (homt : wd.toku_omt_create = 0)
    (htr : wd.pread s.toNat a = PreadResult.read tbuf) (htl : (tbuf.length : Int) = s)
    (hbt : wd.toku_blocktable_create_from_buffer a s tbuf = (deserialize_error_code.DS_OK, bt))
    (hdsize : bt.descriptor_size = ((h.descriptor.dbt.size + 8 : Nat) : Int))
    (hdread : wd.pread (h.descriptor.dbt.size + 8) bt.descriptor_offset =
      PreadResult.read (descriptor_encoded p h.descriptor)) :
    ∃ w h',
      toku_serialize_ft_to_wbuf p (wbuf_init 177) h a s = some w ∧
      deserialize_ft_versioned p wd (rbuf_init w.buf w.size) FT_LAYOUT_VERSION =
        some { e := deserialize_error_code.DS_OK, ft := some h', errno := none } ∧
      h'.layout_version = h.layout_version ∧
      h'.layout_version_read_from_disk = FT_LAYOUT_VERSION ∧
      h'.layout_version_original = h.layout_version_original ∧
      h'.build_id = p.BUILD_ID % 2 ^ 32 ∧
      h'.build_id_original = h.build_id_original ∧
      h'.checkpoint_count = h.checkpoint_count ∧
      h'.checkpoint_lsn = h.checkpoint_lsn ∧
      h'.nodesize = h.nodesize ∧
      h'.basementnodesize = h.basementnodesize ∧
      h'.blocktable = some bt ∧
      h'.root_blocknum = h.root_blocknum ∧
      h'.flags = h.flags ∧
      h'.time_of_creation = h.time_of_creation ∧
      h'.time_of_last_modification = h.time_of_last_modification ∧
      h'.time_of_last_verification = h.time_of_last_verification ∧
      h'.root_xid_that_created = h.root_xid_that_created ∧
      h'.on_disk_stats = h.checkpoint_staging_stats ∧
      h'.in_memory_stats = h.checkpoint_staging_stats ∧
      h'.time_of_last_optimize_begin = h.time_of_last_optimize_begin ∧
      h'.time_of_last_optimize_end = h.time_of_last_optimize_end ∧
      h'.count_of_optimize_in_progress = h.count_of_optimize_in_progress ∧
      h'.msn_at_start_of_last_completed_optimize = h.msn_at_start_of_last_completed_optimize ∧
      h'.compression_method = h.compression_method ∧
      h'.highest_unused_msn_for_upgrade = h.highest_unused_msn_for_upgrade ∧
      h'.descriptor = h.descriptor ∧
      h'.cmp_descriptor = h.descriptor ∧
      to_int64 (host_value p ((w.buf.drop 48).take 8)) = a ∧
      to_int64 (host_value p ((w.buf.drop 56).take 8)) = s := by
  refine ⟨{ buf := ft_encoded p h a s 177, size := 177, checksum := ft_encoded p h a s 177 },
    ft_reloaded p h bt, ?_, ?_, ?_⟩
  · rw [toku_serialize_ft_to_wbuf_init, if_pos rfl]
  · exact deserialize_ft_versioned_encoded p wd h a s tbuf bt hr hv ha0 ha1 hs0 hs1 hcalloc homt
      htr htl hbt hdsize hdread
  · exact ⟨hv.symm, rfl, rfl, rfl, rfl, rfl, rfl, rfl, rfl, rfl, rfl, rfl, rfl, rfl, rfl, rfl,
      rfl, rfl, rfl, rfl, rfl, rfl, rfl, rfl, rfl, rfl,
      (ft_encoded_translation p h a s 177 (Int.le_of_lt ha0) ha1 (Int.le_of_lt hs0) hs1).1,
      (ft_encoded_translation p h a s 177 (Int.le_of_lt ha0) ha1 (Int.le_of_lt hs0) hs1).2⟩

/-- The amended round trip of C1 at the sample header as it stands after an
upgrade from a version-13 file, read from the sample file: the reloaded
header carries build id 7 where the encoded one has 3, the staged statistics,
the version 20 as read from disk where the encoded one has 13, and a
comparator descriptor equal to the descriptor where the encoded one has
another. -/
theorem roundtrip_current_version_witness :
    sample_ft_upgraded.layout_version = FT_LAYOUT_VERSION ∧
    sample_ft_upgraded.layout_version_read_from_disk = 13 ∧
    sample_ft_upgraded.build_id = 3 ∧
    sample_ft_upgraded.cmp_descriptor = { dbt := { data := [9], size := 1 } } ∧
    ∃ w h',
      toku_serialize_ft_to_wbuf sample_platform (wbuf_init 177) sample_ft_upgraded 512 16 =
        some w ∧
      deserialize_ft_versioned sample_platform
        (sample_world (sample_file (sample_header 1 100 20) []))
        (rbuf_init w.buf w.size) FT_LAYOUT_VERSION =
        some { e := deserialize_error_code.DS_OK, ft := some h', errno := none } ∧
      h'.build_id = 7 ∧ h'.on_disk_stats = { numrows := 11, numbytes := 110 } ∧
      h'.layout_version_read_from_disk = 20 ∧
      h'.cmp_descriptor = { dbt := { data := [1, 2, 3], size := 3 } } ∧
      h'.flags = 5 ∧ h'.descriptor = sample_ft_upgraded.descriptor :=
  ⟨rfl, rfl, rfl, rfl,
   match roundtrip_current_version sample_platform
      (sample_world (sample_file (sample_header 1 100 20) [])) sample_ft_upgraded 512 16
      (List.replicate 16 0) (sample_blocktable 512 16)
      (by unfold FT.in_range; decide) rfl (by decide) (by decide) (by decide) (by decide)
      rfl rfl rfl rfl rfl rfl rfl with
   | ⟨w, h', e1, e2, _, v, _, b, _, _, _, _, _, _, _, f, _, _, _, _, st, _, _, _, _, _, _, _,
      d, c, _, _⟩ => ⟨w, h', e1, e2, b, st, v, c, f, d⟩⟩

/-! ### Size agreement -/

/-- Outside the invariant `layout_version = FT_LAYOUT_VERSION`, which no
header built by this file leaves (the decoder's assignment of
`FT_LAYOUT_VERSION` is the only one of the field), the prediction and the
encoder part: for a `layout_version` of 18 `toku_serialize_ft_size` predicts
168 octets while the encoder writes the 177 octets of the current layout, so
on a 168-octet cursor it overruns. -/
theorem predicted_size_fails_at_18 :
    serialize_ft_min_size sample_platform (sample_ft_at 1 100 18).layout_version = some 168 ∧
    toku_serialize_ft_size sample_platform (sample_ft_at 1 100 18).layout_version = some 168 ∧
    toku_serialize_ft_to_wbuf sample_platform (wbuf_init 168) (sample_ft_at 1 100 18) 512 16 =
      none ∧
    (toku_serialize_ft_to_wbuf sample_platform (wbuf_init 177) (sample_ft_at 1 100 18)
      512 16).map wbuf.ndone = some 177 ∧
    toku_serialize_ft_to sample_platform (sample_world []) (sample_ft_at 1 100 18) = none :=
  ⟨rfl, rfl, rfl, rfl, rfl⟩

/-- C2: for every header `h` that satisfies the invariant `layout_version =
FT_LAYOUT_VERSION` (statement and proof also cover a `layout_version` of 19,
whose size is the same), on a host whose slot reservation holds 177 octets,
the value `toku_serialize_ft_size` returns is `serialize_ft_min_size
(h.layout_version)`, namely 177, the encoder run on a cursor of that size
completes having written exactly that many octets (`ndone = size`), and
octets 16..19 of its output hold that value in network order. -/
theorem size_agreement (p : Platform) (h : FT) (a s : Int)
    (hres : 177 ≤ p.BLOCK_ALLOCATOR_HEADER_RESERVE)
    (hv : h.layout_version = FT_LAYOUT_VERSION_19 ∨ h.layout_version = FT_LAYOUT_VERSION_20) :
    ∃ n w,
      serialize_ft_min_size p h.layout_version = some n ∧
      toku_serialize_ft_size p h.layout_version = some n ∧
      n ≤ p.BLOCK_ALLOCATOR_HEADER_RESERVE ∧
      toku_serialize_ft_to_wbuf p (wbuf_init n) h a s = some w ∧
      w.buf.length = n ∧ w.ndone = w.size ∧
      (w.buf.drop 16).take 4 = be_bytes 4 n ∧
      be_value ((w.buf.drop 16).take 4) = n := by
  have t := serialize_ft_min_size_values p hres
  have hm : serialize_ft_min_size p h.layout_version = some 177 := by
    rcases hv with hv | hv
    · rw [hv]; exact t.2.2.2.2.2.2.2.1
    · rw [hv]; exact t.2.2.2.2.2.2.2.2.1
  have hlen := ft_encoded_length p h a s 177
  have hlay := (ft_encoded_layout p h a s 177).2.2.2.1
  refine ⟨177, { buf := ft_encoded p h a s 177, size := 177,
                 checksum := ft_encoded p h a s 177 }, hm, ?_, hres, ?_, hlen, hlen, hlay, ?_⟩
  · simp only [toku_serialize_ft_size, hm, Option.bind_eq_bind, Option.some_bind, hres, if_true]
  · rw [toku_serialize_ft_to_wbuf_init, if_pos rfl]
  · rw [hlay]
    exact be_value_be_bytes_4 177

/-- The size agreement of C2 at the sample header (layout version 20,
reservation 256): 177 octets predicted, 177 written. -/
theorem size_agreement_witness :
    177 ≤ sample_platform.BLOCK_ALLOCATOR_HEADER_RESERVE ∧
    sample_ft.layout_version = FT_LAYOUT_VERSION_20 ∧
    ∃ n w,
      serialize_ft_min_size sample_platform sample_ft.layout_version = some n ∧
      toku_serialize_ft_size sample_platform sample_ft.layout_version = some n ∧
      n ≤ sample_platform.BLOCK_ALLOCATOR_HEADER_RESERVE ∧
      toku_serialize_ft_to_wbuf sample_platform (wbuf_init n) sample_ft 512 16 = some w ∧
      w.buf.length = n ∧ w.ndone = w.size ∧
      (w.buf.drop 16).take 4 = be_bytes 4 n ∧
      be_value ((w.buf.drop 16).take 4) = n :=
  ⟨by decide, rfl, size_agreement sample_platform sample_ft 512 16 (by decide) (Or.inr rfl)⟩

/-! ### The digest of an encoded header -/

/-- C5: for every header `h` at the current layout version the encoder
completes on a 177-octet cursor, and the last 4 octets of its output are the
X digest (in host order) of all the octets before them, the literal magic at
0..7 and the literal byte-order probe at 20..27 included; so the comparison the
slot reader makes (X over the first `size - 4` octets against the stored last
4) succeeds, and a slot holding the output is read with return code 0 and
without the checksum-failure mark. -/
theorem encoded_digest_checks (p : Platform) (wd : World) (h : FT) (a s : Int) (off : Int)
    (e : deserialize_error_code)
    (hv : h.layout_version = FT_LAYOUT_VERSION)
    (hres : 177 ≤ p.BLOCK_ALLOCATOR_HEADER_RESERVE)
    (hp1 : wd.pread 20 off = PreadResult.read ((ft_encoded p h a s 177).take 20))
    (hp2 : wd.pread 177 off = PreadResult.read (ft_encoded p h a s 177)) :
    ∃ w sr,
      toku_serialize_ft_to_wbuf p (wbuf_init 177) h a s = some w ∧
      w.buf = ft_encoded p h a s 177 ∧
      w.buf.drop (w.size - 4) = host_bytes p 4 (x1764_memory p (w.buf.take (w.size - 4))) ∧
      (w.buf.take (w.size - 4)).take 8 = tokudata ∧
      ((w.buf.take (w.size - 4)).drop 20).take 8 = host_bytes p 8 p.toku_byte_order_host ∧
      x1764_memory p (w.buf.take (w.size - 4)) =
        host_value p ((w.buf.drop (w.size - 4)).take 4) ∧
      deserialize_ft_from_fd_into_rbuf p wd off e = some sr ∧
      sr.r = 0 ∧ sr.e = e ∧ sr.rb = some (rbuf_init w.buf w.size) := by
  obtain ⟨l1, _, _, _, l5, _, l7⟩ := ft_encoded_layout p h a s 177
  have hlen := ft_encoded_length p h a s 177
  have hv1 : FT_LAYOUT_MIN_SUPPORTED_VERSION ≤ h.layout_version % 2 ^ 32 := by
    rw [hv]; decide
  have hv2 : h.layout_version % 2 ^ 32 ≤ FT_LAYOUT_VERSION := by
    rw [hv]; decide
  have hsr := slot_read_encoded p wd h a s off e hres hv1 hv2 hp1 hp2
  refine ⟨{ buf := ft_encoded p h a s 177, size := 177, checksum := ft_encoded p h a s 177 },
    _, ?_, rfl, l7, ?_, ?_, ?_, hsr, rfl, rfl, rfl⟩
  · rw [toku_serialize_ft_to_wbuf_init, if_pos rfl]
  · show ((ft_encoded p h a s 177).take (177 - 4)).take 8 = tokudata
    rw [List.take_take]
    exact l1
  · show (((ft_encoded p h a s 177).take (177 - 4)).drop 20).take 8 = _
    rw [← l5, List.drop_take, List.take_take]
    rfl
  · show x1764_memory p ((ft_encoded p h a s 177).take (177 - 4)) =
      host_value p (((ft_encoded p h a s 177).drop (177 - 4)).take 4)
    have t4 : (host_bytes p 4 (x1764_memory p ((ft_encoded p h a s 177).take (177 - 4)))).take 4 =
        host_bytes p 4 (x1764_memory p ((ft_encoded p h a s 177).take (177 - 4))) :=
      List.take_of_length_le (by simp)
    rw [l7, t4, host_value_host_bytes_4]
    simp [x1764_memory]

/-- The digest check of C5 on the sample file, whose slot 0 holds the
encoding of the sample header. -/
theorem encoded_digest_checks_witness :
    sample_ft.layout_version = FT_LAYOUT_VERSION ∧
    ∃ w sr,
      toku_serialize_ft_to_wbuf sample_platform (wbuf_init 177) sample_ft 512 16 = some w ∧
      w.buf = ft_encoded sample_platform sample_ft 512 16 177 ∧
      w.buf.drop (w.size - 4) =
        host_bytes sample_platform 4 (x1764_memory sample_platform (w.buf.take (w.size - 4))) ∧
      (w.buf.take (w.size - 4)).take 8 = tokudata ∧
      ((w.buf.take (w.size - 4)).drop 20).take 8 =
        host_bytes sample_platform 8 sample_platform.toku_byte_order_host ∧
      x1764_memory sample_platform (w.buf.take (w.size - 4)) =
        host_value sample_platform ((w.buf.drop (w.size - 4)).take 4) ∧
      deserialize_ft_from_fd_into_rbuf sample_platform
        (sample_world (sample_file (sample_header 1 100 20) [])) 0
        deserialize_error_code.DS_OK = some sr ∧
      sr.r = 0 ∧ sr.e = deserialize_error_code.DS_OK ∧ sr.rb = some (rbuf_init w.buf w.size) :=
  ⟨rfl, encoded_digest_checks sample_platform
    (sample_world (sample_file (sample_header 1 100 20) [])) sample_ft 512 16 0
    deserialize_error_code.DS_OK rfl (by decide) rfl rfl⟩

/-! ### The prefix of an encoded header -/

/-- C6, as stated, fails for a header whose `layout_version` is 19: the
encoder completes and octets 8..11 of its output are `00 00 00 13` (19), the
value the header holds, not `00 00 00 14` (`FT_LAYOUT_VERSION`, 20). -/
theorem version_tag_follows_header :
    (toku_serialize_ft_to_wbuf sample_platform (wbuf_init 177) (sample_ft_at 1 100 19)
      512 16).map (fun w => (w.buf.drop 8).take 4) = some [0, 0, 0, 19] ∧
    be_bytes 4 FT_LAYOUT_VERSION = [0, 0, 0, 20] :=
  ⟨rfl, rfl⟩

/-- C6, amended: for every header `h` the version tag the encoder writes at
octets 8..11 is the low 32 bits of `h.layout_version` in network order; it is
the current layout version `FT_LAYOUT_VERSION` (20) exactly when
`h.layout_version` holds that value, as the data-model invariant requires. -/
theorem version_tag_written (p : Platform) (h : FT) (a s : Int) :
    ∃ w,
      toku_serialize_ft_to_wbuf p (wbuf_init 177) h a s = some w ∧
      (w.buf.drop 8).take 4 = be_bytes 4 h.layout_version ∧
      be_value ((w.buf.drop 8).take 4) = h.layout_version % 2 ^ 32 ∧
      (be_value ((w.buf.drop 8).take 4) = FT_LAYOUT_VERSION ↔
        h.layout_version % 2 ^ 32 = FT_LAYOUT_VERSION) := by
  have hlay := (ft_encoded_layout p h a s 177).2.1
  have hval : be_value ((ft_encoded p h a s 177).drop 8 |>.take 4) = h.layout_version % 2 ^ 32 := by
    rw [hlay]
    exact be_value_be_bytes_4 h.layout_version
  refine ⟨{ buf := ft_encoded p h a s 177, size := 177, checksum := ft_encoded p h a s 177 },
    ?_, hlay, hval, ?_⟩
  · rw [toku_serialize_ft_to_wbuf_init, if_pos rfl]
  · show be_value ((ft_encoded p h a s 177).drop 8 |>.take 4) = FT_LAYOUT_VERSION ↔ _
    rw [hval]

/-- C7: for every header `h` and translation `(a, s)` the output of the
encoder begins with the 8 ASCII octets of "tokudata", followed at octets
8..11 by `h.layout_version` most significant octet first (`00 00 00 14` when
it is 20) and at octets 12..15 by the build id `BUILD_ID` most significant
octet first, on every host (the byte order of the host does not enter); and
the slot reader, reading a slot that holds the output, stores that same
version in `*version`. -/
theorem encoded_prefix_read_back (p : Platform) (wd : World) (h : FT) (a s : Int) (off : Int)
    (e : deserialize_error_code)
    (hlv : h.layout_version < 2 ^ 32)
    (hres : 177 ≤ p.BLOCK_ALLOCATOR_HEADER_RESERVE)
    (hp1 : wd.pread 20 off = PreadResult.read ((ft_encoded p h a s 177).take 20))
    (hp2 : wd.pread 177 off = PreadResult.read (ft_encoded p h a s 177)) :
    ∃ w sr,
      toku_serialize_ft_to_wbuf p (wbuf_init 177) h a s = some w ∧
      w.buf = ft_encoded p h a s 177 ∧
      w.buf.take 8 = [116, 111, 107, 117, 100, 97, 116, 97] ∧
      (w.buf.drop 8).take 4 = be_bytes 4 h.layout_version ∧
      (h.layout_version = 20 → (w.buf.drop 8).take 4 = [0, 0, 0, 20]) ∧
      (w.buf.drop 12).take 4 = be_bytes 4 p.BUILD_ID ∧
      deserialize_ft_from_fd_into_rbuf p wd off e = some sr ∧
      sr.version = some h.layout_version := by
  obtain ⟨l1, l2, l3, _, _, _, _⟩ := ft_encoded_layout p h a s 177
  have hmod : h.layout_version % 2 ^ 32 = h.layout_version := Nat.mod_eq_of_lt hlv
  have henc : toku_serialize_ft_to_wbuf p (wbuf_init 177) h a s =
      some { buf := ft_encoded p h a s 177, size := 177, checksum := ft_encoded p h a s 177 } := by
    rw [toku_serialize_ft_to_wbuf_init, if_pos rfl]
  have h20 : h.layout_version = 20 → ((ft_encoded p h a s 177).drop 8).take 4 = [0, 0, 0, 20] := by
    intro hv
    rw [l2, hv]
    rfl
  by_cases hsup : FT_LAYOUT_MIN_SUPPORTED_VERSION ≤ h.layout_version % 2 ^ 32 ∧
      h.layout_version % 2 ^ 32 ≤ FT_LAYOUT_VERSION
  · have hsr := slot_read_encoded p wd h a s off e hres hsup.1 hsup.2 hp1 hp2
    exact ⟨_, _, henc, rfl, l1, l2, h20, l3, hsr, by rw [hmod]⟩
  · have hv : h.layout_version % 2 ^ 32 < FT_LAYOUT_MIN_SUPPORTED_VERSION ∨
        h.layout_version % 2 ^ 32 > FT_LAYOUT_VERSION := by
      by_cases hlow : h.layout_version % 2 ^ 32 < FT_LAYOUT_MIN_SUPPORTED_VERSION
      · exact Or.inl hlow
      · exact Or.inr (Nat.lt_of_not_le (fun hle => hsup ⟨Nat.le_of_not_lt hlow, hle⟩))
    obtain ⟨sr, hsr, hver, _⟩ := slot_read_encoded_unsupported p wd h a s off e hv hp1
    exact ⟨_, sr, henc, rfl, l1, l2, h20, l3, hsr, by rw [hver, hmod]⟩

/-- The prefix of C7 on the sample file: magic, `00 00 00 14`, build id 7,
and the slot reader finds version 20. -/
theorem encoded_prefix_read_back_witness :
    ∃ w sr,
      toku_serialize_ft_to_wbuf sample_platform (wbuf_init 177) sample_ft 512 16 = some w ∧
      w.buf = ft_encoded sample_platform sample_ft 512 16 177 ∧
      w.buf.take 8 = [116, 111, 107, 117, 100, 97, 116, 97] ∧
      (w.buf.drop 8).take 4 = be_bytes 4 sample_ft.layout_version ∧
      (sample_ft.layout_version = 20 → (w.buf.drop 8).take 4 = [0, 0, 0, 20]) ∧
      (w.buf.drop 12).take 4 = be_bytes 4 sample_platform.BUILD_ID ∧
      deserialize_ft_from_fd_into_rbuf sample_platform
        (sample_world (sample_file (sample_header 1 100 20) [])) 0
        deserialize_error_code.DS_OK = some sr ∧
      sr.version = some sample_ft.layout_version :=
  encoded_prefix_read_back sample_platform
    (sample_world (sample_file (sample_header 1 100 20) [])) sample_ft 512 16 0
    deserialize_error_code.DS_OK (by decide) (by decide) rfl rfl

/-! ### Flags and node size -/

/-- C8: for every flags value and every nodesize (32-bit values) held by a
header at the current layout version, the encoder completes and the decoder,
given its output, returns `DS_OK` with a header whose `flags` and `nodesize`
are the ones the encoded header held. -/
theorem flags_nodesize_read_back (p : Platform) (wd : World) (h : FT) (flags nodesize : Nat)
    (a s : Int) (tbuf : List Byte) (bt : BLOCK_TABLE)
    (hf : flags < 2 ^ 32) (hn : nodesize < 2 ^ 32)
    (hr : h.in_range) (hv : h.layout_version = FT_LAYOUT_VERSION)
    (ha0 : 0 < a) (ha1 : a < 2 ^ 63) (hs0 : 0 < s) (hs1 : s < 2 ^ 63)
    (hcalloc : wd.calloc_fails = false) (homt : wd.toku_omt_create = 0)
    (htr : wd.pread s.toNat a = PreadResult.read tbuf) (htl : (tbuf.length : Int) = s)
    (hbt : wd.toku_blocktable_create_from_buffer a s tbuf = (deserialize_error_code.DS_OK, bt))
    (hdsize : bt.descriptor_size = ((h.descriptor.dbt.size + 8 : Nat) : Int))
    (hdread : wd.pread (h.descriptor.dbt.size + 8) bt.descriptor_offset =
      PreadResult.read (descriptor_encoded p h.descriptor)) :
    ∃ w h',
      toku_serialize_ft_to_wbuf p (wbuf_init 177) { h with flags := flags, nodesize := nodesize }
        a s = some w ∧
      deserialize_ft_versioned p wd (rbuf_init w.buf w.size) FT_LAYOUT_VERSION =
        some { e := deserialize_error_code.DS_OK, ft := some h', errno := none } ∧
      h'.flags = flags ∧ h'.nodesize = nodesize := by
  have hr' : FT.in_range { h with flags := flags, nodesize := nodesize } := by
    unfold FT.in_range at hr ⊢
    obtain ⟨r1, r2, r3, r4, _, r6, r7, _, r9, r10, r11, r12, r13, r14, r15, r16, r17, r18, r19,
      r20, r21, r22⟩ := hr
    exact ⟨r1, r2, r3, r4, hn, r6, r7, hf, r9, r10, r11, r12, r13, r14, r15, r16, r17, r18, r19,
      r20, r21, r22⟩
  refine ⟨{ buf := ft_encoded p { h with flags := flags, nodesize := nodesize } a s 177,
            size := 177,
            checksum := ft_encoded p { h with flags := flags, nodesize := nodesize } a s 177 },
    ft_reloaded p { h with flags := flags, nodesize := nodesize } bt, ?_, ?_, rfl, rfl⟩
  · rw [toku_serialize_ft_to_wbuf_init, if_pos rfl]
  · exact deserialize_ft_versioned_encoded p wd { h with flags := flags, nodesize := nodesize }
      a s tbuf bt hr' hv ha0 ha1 hs0 hs1 hcalloc homt htr htl hbt hdsize hdread

/-- The read-back of C8 at the sample header with every flag bit set and a
node size of one megabyte. -/
theorem flags_nodesize_read_back_witness :
    ∃ w h',
      toku_serialize_ft_to_wbuf sample_platform (wbuf_init 177)
        { sample_ft with flags := 4294967295, nodesize := 1048576 } 512 16 = some w ∧
      deserialize_ft_versioned sample_platform (sample_world (sample_file [] []))
        (rbuf_init w.buf w.size) FT_LAYOUT_VERSION =
        some { e := deserialize_error_code.DS_OK, ft := some h', errno := none } ∧
      h'.flags = 4294967295 ∧ h'.nodesize = 1048576 :=
  flags_nodesize_read_back sample_platform (sample_world (sample_file [] [])) sample_ft
    4294967295 1048576 512 16 (List.replicate 16 0) (sample_blocktable 512 16)
    (by decide) (by decide) (by unfold FT.in_range; decide) rfl (by decide) (by decide)
    (by decide) (by decide) rfl rfl rfl rfl rfl rfl rfl

/-! ### The double-header arbiter -/

/-- C9, as stated, fails when the slot with the greater checkpoint count
holds the smaller version: slot 0 (count 5, LSN 500, version 20) and slot 1
(count 6, LSN 600, version 19) are both acceptable under the bound 1000 and
their counts are n and n+1, yet no buffer reaches the decoder: the invariant
`version_1 >= version_0` stops the process. -/
theorem arbiter_stops_on_version_order :
    (deserialize_ft_from_fd_into_rbuf sample_platform
        (sample_world (sample_file (sample_header 5 500 20) (sample_header 6 600 19))) 0
        deserialize_error_code.DS_OK).map
      (fun sr => (sr.r, sr.checkpoint_count, sr.checkpoint_lsn, sr.version,
        slot_acceptable sr 1000)) = some (0, some 5, some 500, some 20, some true) ∧
    (deserialize_ft_from_fd_into_rbuf sample_platform
        (sample_world (sample_file (sample_header 5 500 20) (sample_header 6 600 19))) 256
        deserialize_error_code.DS_OK).map
      (fun sr => (sr.r, sr.checkpoint_count, sr.checkpoint_lsn, sr.version,
        slot_acceptable sr 1000)) = some (0, some 6, some 600, some 19, some true) ∧
    toku_deserialize_ft_from_arbiter sample_platform
      (sample_world (sample_file (sample_header 5 500 20) (sample_header 6 600 19))) 1000 =
      none ∧
    toku_deserialize_ft_from sample_platform
      (sample_world (sample_file (sample_header 5 500 20) (sample_header 6 600 19))) 1000 =
      none :=
  ⟨rfl, rfl, rfl, rfl⟩

/-- C9, amended: when both slots are acceptable (the slot reader returned 0
for each, so read, checksum and byte-order probe were good, and each
`checkpoint_lsn` is at most `max_acceptable_lsn`), their checkpoint counts are
n and n+1, and the version of the slot with count n+1 is not less than the
version of the other, then the buffer of the slot with count n+1 is the one
passed to `deserialize_ft_versioned`, together with that slot's version,
whichever of slot 0 or slot 1 holds it. -/
theorem arbiter_picks_greater_count (p : Platform) (wd : World) (max_acceptable_lsn : Nat)
    (rb_0 rb_1 : rbuf) (count_0 count_1 lsn_0 lsn_1 version_0 version_1 : Nat)
    (e_0 e_1 : deserialize_error_code) (reads_0 reads_1 : List (Nat × Int))
    (hnew : p.TOKUDB_DICTIONARY_TOO_NEW ≠ 0)
    (h0 : deserialize_ft_from_fd_into_rbuf p wd 0 deserialize_error_code.DS_OK =
      some { r := 0, rb := some rb_0, checkpoint_count := some count_0,
             checkpoint_lsn := some lsn_0, version := some version_0, e := e_0,
             reads := reads_0 })
    (h1 : deserialize_ft_from_fd_into_rbuf p wd (p.BLOCK_ALLOCATOR_HEADER_RESERVE : Int)
        deserialize_error_code.DS_OK =
      some { r := 0, rb := some rb_1, checkpoint_count := some count_1,
             checkpoint_lsn := some lsn_1, version := some version_1, e := e_1,
             reads := reads_1 })
    (hl0 : lsn_0 ≤ max_acceptable_lsn) (hl1 : lsn_1 ≤ max_acceptable_lsn)
    (hc0 : count_0 < 2 ^ 64) (hc1 : count_1 < 2 ^ 64) :
    (count_1 = count_0 + 1 → version_0 ≤ version_1 →
      toku_deserialize_ft_from_arbiter p wd max_acceptable_lsn =
        some (Sum.inr (rb_1, version_1)) ∧
      toku_deserialize_ft_from p wd max_acceptable_lsn =
        deserialize_ft_versioned p wd rb_1 version_1) ∧
    (count_0 = count_1 + 1 → version_1 ≤ version_0 →
      toku_deserialize_ft_from_arbiter p wd max_acceptable_lsn =
        some (Sum.inr (rb_0, version_0)) ∧
      toku_deserialize_ft_from p wd max_acceptable_lsn =
        deserialize_ft_versioned p wd rb_0 version_0) := by
  have hn0 : ¬ ((0 : Int) = p.TOKUDB_DICTIONARY_TOO_NEW) := fun h => hnew h.symm
  refine ⟨fun hc hv => ?_, fun hc hv => ?_⟩
  · subst hc
    have hgt : ¬ (count_0 > count_0 + 1) := by omega
    have hmod : (count_0 + 1) % 2 ^ 64 = count_0 + 1 := Nat.mod_eq_of_lt (by omega)
    have harb : toku_deserialize_ft_from_arbiter p wd max_acceptable_lsn =
        some (Sum.inr (rb_1, version_1)) := by
      simp only [toku_deserialize_ft_from_arbiter, h0, h1, slot_acceptable, Option.map_some',
        hl0, hl1, hn0, hgt, hmod, hv, decide_True, if_true, if_false, or_self, or_true,
        true_or, and_self, not_true_eq_false, not_false_eq_true, ge_iff_le]
    exact ⟨harb, by simp only [toku_deserialize_ft_from, harb]⟩
  · subst hc
    have hgt : count_1 + 1 > count_1 := by omega
    have hmod : (count_1 + 1) % 2 ^ 64 = count_1 + 1 := Nat.mod_eq_of_lt (by omega)
    have harb : toku_deserialize_ft_from_arbiter p wd max_acceptable_lsn =
        some (Sum.inr (rb_0, version_0)) := by
      simp only [toku_deserialize_ft_from_arbiter, h0, h1, slot_acceptable, Option.map_some',
        hl0, hl1, hn0, hgt, hmod, hv, decide_True, if_true, if_false, or_self, or_true,
        true_or, and_self, not_true_eq_false, not_false_eq_true, ge_iff_le]
    exact ⟨harb, by simp only [toku_deserialize_ft_from, harb]⟩

/-- The selection of C9 on the scenario S2 (counts 5 and 6, LSNs 500 and 600,
bound 1000) and on its mirror image: the slot with count 6 reaches the
decoder, be it slot 1 or slot 0. -/
theorem arbiter_picks_greater_count_witness :
    toku_deserialize_ft_from_arbiter sample_platform
      (sample_world (sample_file (sample_header 5 500 20) (sample_header 6 600 20))) 1000 =
      some (Sum.inr (rbuf_init (sample_header 6 600 20) 177, 20)) ∧
    toku_deserialize_ft_from_arbiter sample_platform
      (sample_world (sample_file (sample_header 6 600 20) (sample_header 5 500 20))) 1000 =
      some (Sum.inr (rbuf_init (sample_header 6 600 20) 177, 20)) :=
  ⟨((arbiter_picks_greater_count sample_platform
      (sample_world (sample_file (sample_header 5 500 20) (sample_header 6 600 20))) 1000
      (rbuf_init (sample_header 5 500 20) 177) (rbuf_init (sample_header 6 600 20) 177)
      5 6 500 600 20 20 deserialize_error_code.DS_OK deserialize_error_code.DS_OK
      [(20, 0), (177, 0)] [(20, 256), (177, 256)]
      (by decide) rfl rfl (by decide) (by decide) (by decide) (by decide)).1
      rfl (by decide)).1,
   ((arbiter_picks_greater_count sample_platform
      (sample_world (sample_file (sample_header 6 600 20) (sample_header 5 500 20))) 1000
      (rbuf_init (sample_header 6 600 20) 177) (rbuf_init (sample_header 5 500 20) 177)
      6 5 600 500 20 20 deserialize_error_code.DS_OK deserialize_error_code.DS_OK
      [(20, 0), (177, 0)] [(20, 256), (177, 256)]
      (by decide) rfl rfl (by decide) (by decide) (by decide) (by decide)).2
      rfl (by decide)).1⟩

/-- C10, as stated, fails when the rejected slot holds a version newer than
this code supports: slot 0 (count 5, LSN 500, version 20) is acceptable under
the bound 1000, slot 1 carries version 21 and is rejected with
`TOKUDB_DICTIONARY_TOO_NEW`, so exactly one slot is acceptable; the arbiter
does not choose it but returns `DS_ERRNO` with `errno =
TOKUDB_DICTIONARY_TOO_NEW`, and nothing is decoded. -/
theorem arbiter_refuses_beside_too_new :
    (deserialize_ft_from_fd_into_rbuf sample_platform
        (sample_world (sample_file (sample_header 5 500 20) (sample_header 6 600 21))) 0
        deserialize_error_code.DS_OK).map
      (fun sr => (sr.r, sr.checkpoint_lsn, sr.version, slot_acceptable sr 1000)) =
      some (0, some 500, some 20, some true) ∧
    (deserialize_ft_from_fd_into_rbuf sample_platform
        (sample_world (sample_file (sample_header 5 500 20) (sample_header 6 600 21))) 256
        deserialize_error_code.DS_OK).map
      (fun sr => (sr.r, sr.version, slot_acceptable sr 1000)) =
      some (sample_platform.TOKUDB_DICTIONARY_TOO_NEW, some 21, some false) ∧
    toku_deserialize_ft_from sample_platform
      (sample_world (sample_file (sample_header 5 500 20) (sample_header 6 600 21))) 1000 =
      some { e := deserialize_error_code.DS_ERRNO, ft := none,
             errno := some sample_platform.TOKUDB_DICTIONARY_TOO_NEW } :=
  ⟨rfl, rfl, rfl⟩

/-- C10, amended: whenever exactly one of the two slots is acceptable and the
other slot was not rejected as too new (its return code is not
`TOKUDB_DICTIONARY_TOO_NEW`), the arbiter passes the acceptable slot's buffer
and version to `deserialize_ft_versioned`, whatever else the reason the other
slot was rejected (an LSN above the bound, a checksum failure, no header, a
short read, a version too old) and whatever its checkpoint count. -/
theorem arbiter_picks_only_acceptable (p : Platform) (wd : World) (max_acceptable_lsn : Nat)
    (other : SlotRead) (rb : rbuf) (count lsn version : Nat)
    (e : deserialize_error_code) (reads : List (Nat × Int))
    (hnew : p.TOKUDB_DICTIONARY_TOO_NEW ≠ 0)
    (hl : lsn ≤ max_acceptable_lsn)
    (hother : slot_acceptable other max_acceptable_lsn = some false)
    (hnot_new : other.r ≠ p.TOKUDB_DICTIONARY_TOO_NEW) :
    (deserialize_ft_from_fd_into_rbuf p wd 0 deserialize_error_code.DS_OK =
        some { r := 0, rb := some rb, checkpoint_count := some count,
               checkpoint_lsn := some lsn, version := some version, e := e, reads := reads } →
      deserialize_ft_from_fd_into_rbuf p wd (p.BLOCK_ALLOCATOR_HEADER_RESERVE : Int)
        deserialize_error_code.DS_OK = some other →
      toku_deserialize_ft_from_arbiter p wd max_acceptable_lsn = some (Sum.inr (rb, version)) ∧
      toku_deserialize_ft_from p wd max_acceptable_lsn =
        deserialize_ft_versioned p wd rb version) ∧
    (deserialize_ft_from_fd_into_rbuf p wd 0 deserialize_error_code.DS_OK = some other →
      deserialize_ft_from_fd_into_rbuf p wd (p.BLOCK_ALLOCATOR_HEADER_RESERVE : Int)
        deserialize_error_code.DS_OK =
        some { r := 0, rb := some rb, checkpoint_count := some count,
               checkpoint_lsn := some lsn, version := some version, e := e, reads := reads } →
      toku_deserialize_ft_from_arbiter p wd max_acceptable_lsn = some (Sum.inr (rb, version)) ∧
      toku_deserialize_ft_from p wd max_acceptable_lsn =
        deserialize_ft_versioned p wd rb version) := by
  have hn0 : ¬ ((0 : Int) = p.TOKUDB_DICTIONARY_TOO_NEW) := fun h => hnew h.symm
  refine ⟨fun h0 h1 => ?_, fun h0 h1 => ?_⟩
  · have harb : toku_deserialize_ft_from_arbiter p wd max_acceptable_lsn =
        some (Sum.inr (rb, version)) := by
      simp only [toku_deserialize_ft_from_arbiter, h0, h1, hother]
      simp only [slot_acceptable, Option.map_some', hl, hn0, hnot_new, decide_True, if_true,
        if_false, or_self, or_false, false_or, or_true, true_or, and_false, and_true,
        not_true_eq_false, not_false_eq_true, Bool.false_eq_true]
    exact ⟨harb, by simp only [toku_deserialize_ft_from, harb]⟩
  · have harb : toku_deserialize_ft_from_arbiter p wd max_acceptable_lsn =
        some (Sum.inr (rb, version)) := by
      simp only [toku_deserialize_ft_from_arbiter, h0, h1, hother]
      simp only [slot_acceptable, Option.map_some', hl, hn0, hnot_new, decide_True, if_true,
        if_false, or_self, or_false, false_or, or_true, true_or, and_false, and_true,
        false_and, true_and, not_true_eq_false, not_false_eq_true, Bool.false_eq_true]
    exact ⟨harb, by simp only [toku_deserialize_ft_from, harb]⟩

/-- The selection of C10 on the scenario S3 (the file of S2 opened with the
bound 550: slot 1, LSN 600, is too late, slot 0 is chosen) and on a file
whose slot 0 has one octet of its body overwritten (its checksum fails, slot
1 is chosen). -/
theorem arbiter_picks_only_acceptable_witness :
    toku_deserialize_ft_from_arbiter sample_platform
      (sample_world (sample_file (sample_header 5 500 20) (sample_header 6 600 20))) 550 =
      some (Sum.inr (rbuf_init (sample_header 5 500 20) 177, 20)) ∧
    toku_deserialize_ft_from_arbiter sample_platform
      (sample_world (sample_file ((sample_header 6 600 20).set 100 255)
        (sample_header 5 500 20))) 1000 =
      some (Sum.inr (rbuf_init (sample_header 5 500 20) 177, 20)) :=
  ⟨((arbiter_picks_only_acceptable sample_platform
      (sample_world (sample_file (sample_header 5 500 20) (sample_header 6 600 20))) 550
      { r := 0, rb := some (rbuf_init (sample_header 6 600 20) 177),
        checkpoint_count := some 6, checkpoint_lsn := some 600, version := some 20,
        e := deserialize_error_code.DS_OK, reads := [(20, 256), (177, 256)] }
      (rbuf_init (sample_header 5 500 20) 177) 5 500 20 deserialize_error_code.DS_OK
      [(20, 0), (177, 0)] (by decide) (by decide) rfl (by decide)).1 rfl rfl).1,
   ((arbiter_picks_only_acceptable sample_platform
      (sample_world (sample_file ((sample_header 6 600 20).set 100 255)
        (sample_header 5 500 20))) 1000
      { r := sample_platform.TOKUDB_DICTIONARY_NO_HEADER, rb := none,
        checkpoint_count := none, checkpoint_lsn := none, version := some 20,
        e := deserialize_error_code.DS_XSUM_FAIL, reads := [(20, 0), (177, 0)] }
      (rbuf_init (sample_header 5 500 20) 177) 5 500 20 deserialize_error_code.DS_OK
      [(20, 256), (177, 256)] (by decide) (by decide) rfl (by decide)).2 rfl rfl).1⟩

/-! ### Consumption of the decoder at older versions -/

/-- C4 fails on the code at versions 18 and 17.  `serialize_ft_min_size 18` is
168, and the slot reader accepts the 168-octet header `sample_header_18`
(return code 0, version 18), but `deserialize_ft_versioned` still reads the two
counters `num_blocks_to_upgrade_13` and `num_blocks_to_upgrade_14` at version
18, needs 184 octets (it returns `DS_OK` on the 184-octet layout that keeps
them) and runs past the end of the 168-octet buffer, which stops the process.
`serialize_ft_min_size 17` is 156, but at version 17 the decoder does not read
the statistics, stops after 140 octets, and reports `EINVAL` ("Header size did
not match contents"). -/
theorem decoder_consumption_differs :
    serialize_ft_min_size sample_platform 18 = some 168 ∧
    sample_header_18.length = 168 ∧
    (deserialize_ft_from_fd_into_rbuf sample_platform
        (sample_world (sample_file sample_header_18 [])) 0 deserialize_error_code.DS_OK).map
      (fun sr => (sr.r, sr.version, sr.rb)) =
      some (0, some 18, some (rbuf_init sample_header_18 168)) ∧
    deserialize_ft_versioned sample_platform (sample_world (sample_file sample_header_18 []))
      (rbuf_init sample_header_18 168) 18 = none ∧
    toku_deserialize_ft_from sample_platform (sample_world (sample_file sample_header_18 []))
      1000 = none ∧
    sample_header_18_with_counters.length = 184 ∧
    (deserialize_ft_versioned sample_platform
        (sample_world (sample_file sample_header_18_with_counters []))
        (rbuf_init sample_header_18_with_counters 184) 18).map (fun r => (r.e, r.ft.isSome)) =
      some (deserialize_error_code.DS_OK, true) ∧
    serialize_ft_min_size sample_platform 17 = some 156 ∧
    sample_header_17.length = 156 ∧
    deserialize_ft_versioned sample_platform (sample_world (sample_file sample_header_17 []))
      (rbuf_init sample_header_17 156) 17 =
      some { e := deserialize_error_code.DS_ERRNO, ft := none,
             errno := some sample_platform.EINVAL } :=
  ⟨rfl, rfl, rfl, rfl, rfl, rfl, rfl, rfl, rfl, rfl⟩


/-! ### The slot reader on arbitrary slot contents -/

theorem slot_read_body (p : Platform) (wd : World) (off : Int) (e : deserialize_error_code)
    (pfx B : List Byte) (v m size : Nat)
    (hp1 : wd.pread 20 off = PreadResult.read pfx) (hpl : pfx.length = 20)
    (hmagic : pfx.take 8 = tokudata)
    (hver : be_value ((pfx.drop 8).take 4) = v)
    (hv1 : FT_LAYOUT_MIN_SUPPORTED_VERSION ≤ v) (hv2 : v ≤ FT_LAYOUT_VERSION)
    (hmin : serialize_ft_min_size p v = some m)
    (hsize : be_value ((pfx.drop 16).take 4) = size)
    (hs1 : m ≤ size) (hs2 : size ≤ p.BLOCK_ALLOCATOR_HEADER_RESERVE) (hs3 : 44 ≤ size)
    (hp2 : wd.pread size off = PreadResult.read B) (hB : B.length = size) :
    deserialize_ft_from_fd_into_rbuf p wd off e =
      if x1764_memory p (B.take (size - 4)) ≠ host_value p ((B.drop (size - 4)).take 4) then
        some (slot_exit p.TOKUDB_DICTIONARY_NO_HEADER (some { buf := B, size := size, ndone := 20 })
          (some v) deserialize_error_code.DS_XSUM_FAIL [(20, off), (size, off)])
      else if host_value p ((B.drop 20).take 8) ≠ p.toku_byte_order_host % 2 ^ 64 then
        some (slot_exit p.TOKUDB_DICTIONARY_NO_HEADER (some { buf := B, size := size, ndone := 28 })
          (some v) e [(20, off), (size, off)])
      else
        some { r := 0, rb := some { buf := B, size := size, ndone := 0 },
               checkpoint_count := some (host_value p ((B.drop 28).take 8)),
               checkpoint_lsn := some (host_value p ((B.drop 36).take 8)),
               version := some v, e := e, reads := [(20, off), (size, off)] } := by
  have e20 : 8 + 4 + 4 + 4 = 20 := rfl
  have c1 : ¬ (v < FT_LAYOUT_MIN_SUPPORTED_VERSION) := Nat.not_lt.mpr hv1
  have c2 : ¬ (v > FT_LAYOUT_VERSION) := Nat.not_lt.mpr hv2
  have c3 : ¬ (size > p.BLOCK_ALLOCATOR_HEADER_RESERVE ∨ size < m) := by omega
  have d1 : 20 + 8 ≤ size := by omega
  have d2 : 28 + 8 ≤ size := by omega
  have d3 : 36 + 8 ≤ size := by omega
  simp only [deserialize_ft_from_fd_into_rbuf, e20, hp1, hpl, rbuf_init, rbuf_literal_bytes,
    rbuf_network_int, rbuf_ulonglong, rbuf_lsn, Option.map_some', List.drop_zero,
    Nat.zero_add, Nat.reduceAdd, Nat.reduceLeDiff, hmagic, hver, hsize, hmin, c1, c2, c3, hp2, hB,
    d1, d2, d3, ne_eq, not_true_eq_false, not_false_eq_true, if_true, if_false,
    List.singleton_append, List.cons_append, List.nil_append]

theorem slot_read_empty (p : Platform) (wd : World) (off : Int) (e : deserialize_error_code)
    (hp : wd.pread 20 off = PreadResult.read []) :
    deserialize_ft_from_fd_into_rbuf p wd off e =
      some (slot_exit p.TOKUDB_DICTIONARY_NO_HEADER none none e [(20, off)]) := by
  have e20 : 8 + 4 + 4 + 4 = 20 := rfl
  simp only [deserialize_ft_from_fd_into_rbuf, e20, hp, List.length_nil, ne_eq,
    OfNat.zero_ne_ofNat, not_false_eq_true, if_true]

theorem slot_read_too_new (p : Platform) (wd : World) (off : Int) (e : deserialize_error_code)
    (pfx : List Byte) (v : Nat)
    (hp1 : wd.pread 20 off = PreadResult.read pfx) (hpl : pfx.length = 20)
    (hmagic : pfx.take 8 = tokudata)
    (hver : be_value ((pfx.drop 8).take 4) = v)
    (hv : v > FT_LAYOUT_VERSION) :
    deserialize_ft_from_fd_into_rbuf p wd off e =
      some (slot_exit p.TOKUDB_DICTIONARY_TOO_NEW (some { buf := pfx, size := 20, ndone := 12 })
        (some v) e [(20, off)]) := by
  have e20 : 8 + 4 + 4 + 4 = 20 := rfl
  have c1 : ¬ (v < FT_LAYOUT_MIN_SUPPORTED_VERSION) := by
    have : FT_LAYOUT_MIN_SUPPORTED_VERSION ≤ FT_LAYOUT_VERSION := by decide
    omega
  simp only [deserialize_ft_from_fd_into_rbuf, e20, hp1, hpl, rbuf_init, rbuf_literal_bytes,
    rbuf_network_int, Option.map_some', List.drop_zero,
    Nat.zero_add, Nat.reduceAdd, Nat.reduceLeDiff, hmagic, hver, c1, hv,
    ne_eq, not_true_eq_false, not_false_eq_true, if_true, if_false]

theorem serialize_ft_min_size_ge (p : Platform) (v m : Nat)
    (hm : serialize_ft_min_size p v = some m) : 88 ≤ m := by
  unfold serialize_ft_min_size at hm
  split at hm
  · cases hm
  · rename_i hv
    have h1 : 12 ≤ v := by
      have := hv; simp only [FT_LAYOUT_VERSION_12, FT_LAYOUT_VERSION_20] at this; omega
    have h2 : v ≤ 20 := by
      have := hv; simp only [FT_LAYOUT_VERSION_12, FT_LAYOUT_VERSION_20] at this; omega
    interval_cases v <;>
      simp only [FT_LAYOUT_VERSION_13, FT_LAYOUT_VERSION_14, FT_LAYOUT_VERSION_15,
        FT_LAYOUT_VERSION_17, FT_LAYOUT_VERSION_18, FT_LAYOUT_VERSION_19] at hm <;>
      norm_num at hm <;>
      omega

theorem take_set_of_le {α : Type} (a : α) {n m : Nat} (l : List α) (h : m ≤ n) :
    (l.set n a).take m = l.take m := by
  rw [List.set_take]
  exact List.set_eq_of_length_le (by rw [List.length_take]; omega)

theorem chunk_set_after {α : Type} (a : α) (l : List α) (k n i : Nat) (h : k + n ≤ i) :
    ((l.set i a).drop k).take n = (l.drop k).take n := by
  rw [List.drop_set, if_neg (by omega)]
  exact take_set_of_le a _ (by omega)

theorem chunk_set_before {α : Type} (a : α) (l : List α) (k n i : Nat) (h : i < k) :
    ((l.set i a).drop k).take n = (l.drop k).take n := by
  rw [List.drop_set_of_lt a l h]

/-! ### What the slot reader can return -/

theorem slot_exit_cases (p : Platform) (r : Int) (rb : Option rbuf) (version : Option Nat)
    (e e' : deserialize_error_code) (reads : List (Nat × Int)) (hr : r ≠ 0)
    (he : e' = e ∨ (e' = deserialize_error_code.DS_XSUM_FAIL ∧ r = p.TOKUDB_DICTIONARY_NO_HEADER)) :
    ((slot_exit r rb version e' reads).r = 0 ∧ (slot_exit r rb version e' reads).e = e ∧
      ∃ rb' c l v, (slot_exit r rb version e' reads).rb = some rb' ∧
        (slot_exit r rb version e' reads).checkpoint_count = some c ∧
        (slot_exit r rb version e' reads).checkpoint_lsn = some l ∧
        (slot_exit r rb version e' reads).version = some v) ∨
    ((slot_exit r rb version e' reads).r ≠ 0 ∧
      (slot_exit r rb version e' reads).rb = none ∧
      (slot_exit r rb version e' reads).checkpoint_lsn = none ∧
      (slot_exit r rb version e' reads).checkpoint_count = none ∧
      ((slot_exit r rb version e' reads).e = e ∨
        ((slot_exit r rb version e' reads).e = deserialize_error_code.DS_XSUM_FAIL ∧
          (slot_exit r rb version e' reads).r = p.TOKUDB_DICTIONARY_NO_HEADER))) := by
  refine Or.inr ⟨hr, ?_, rfl, rfl, he⟩
  show (if r ≠ 0 then none else rb) = none
  rw [if_pos hr]

set_option maxHeartbeats 2000000 in
theorem slot_read_cases (p : Platform) (wd : World) (off : Int) (e : deserialize_error_code)
    (s : SlotRead) (hcodes : p.codes_nonzero)
    (h : deserialize_ft_from_fd_into_rbuf p wd off e = some s) :
    (s.r = 0 ∧ s.e = e ∧ ∃ rb c l v, s.rb = some rb ∧ s.checkpoint_count = some c ∧
        s.checkpoint_lsn = some l ∧ s.version = some v) ∨
    (s.r ≠ 0 ∧ s.rb = none ∧ s.checkpoint_lsn = none ∧ s.checkpoint_count = none ∧
      (s.e = e ∨ (s.e = deserialize_error_code.DS_XSUM_FAIL ∧
        s.r = p.TOKUDB_DICTIONARY_NO_HEADER))) := by
  obtain ⟨n1, n2, n3, n4⟩ := hcodes
  unfold deserialize_ft_from_fd_into_rbuf at h
  simp only at h
  repeat' (split at h)
  all_goals first
    | exact Option.noConfusion h
    | (rw [Option.some.injEq] at h; subst h
       first
         | exact slot_exit_cases p _ _ _ e _ _ (by assumption) (Or.inl rfl)
         | exact slot_exit_cases p _ _ _ e _ _ n3 (Or.inr ⟨rfl, rfl⟩)
         | exact Or.inl ⟨rfl, rfl, _, _, _, _, rfl, rfl, rfl, rfl⟩)

theorem slot_tests_of_read (p : Platform) (wd : World) (off : Int) (e : deserialize_error_code)
    (s : SlotRead) (max_acceptable_lsn : Nat) (hcodes : p.codes_nonzero)
    (h : deserialize_ft_from_fd_into_rbuf p wd off e = some s) :
    ∃ a l, slot_acceptable s max_acceptable_lsn = some a ∧
      slot_too_late s max_acceptable_lsn = some l ∧
      (a = true → s.r = 0) ∧ (l = true → s.r = 0) := by
  rcases slot_read_cases p wd off e s hcodes h with
    ⟨hr, _, _, _, lsn, _, _, _, hl, _⟩ | ⟨hr, _, _, _, _⟩
  · refine ⟨decide (lsn ≤ max_acceptable_lsn), decide (lsn > max_acceptable_lsn), ?_, ?_,
      fun _ => hr, fun _ => hr⟩
    · simp only [slot_acceptable, hr, hl, if_true, Option.map_some']
    · simp only [slot_too_late, hr, hl, if_true, Option.map_some']
  · refine ⟨false, false, ?_, ?_, ?_, ?_⟩
    · simp only [slot_acceptable, hr, if_false]
    · simp only [slot_too_late, hr, if_false]
    · intro hh; cases hh
    · intro hh; cases hh

theorem slot_too_late_of_rejected (s : SlotRead) (max_acceptable_lsn : Nat)
    (h : slot_acceptable s max_acceptable_lsn = some false) :
    slot_too_late s max_acceptable_lsn = some (decide (s.r = 0)) := by
  unfold slot_acceptable at h
  unfold slot_too_late
  by_cases hr : s.r = 0
  · rw [if_pos hr] at h
    rw [if_pos hr]
    cases hl : s.checkpoint_lsn with
    | none => rw [hl] at h; cases h
    | some l =>
      rw [hl] at h
      simp only [Option.map_some', Option.some.injEq, decide_eq_false_iff_not] at h
      simp only [Option.map_some', hr, decide_True, Option.some.injEq, decide_eq_true_eq]
      omega
  · rw [if_neg hr]
    simp only [hr, decide_False]

/-! ### The error exit of the arbiter -/

/-- The error exit of `toku_deserialize_ft_from`: when a slot is too new or
neither slot is acceptable, the two invariants hold exactly when the slots are
not both too late and the chosen code is non-zero; the result is then
`DS_XSUM_FAIL` if both slots carry the checksum mark, and `DS_ERRNO` with the
chosen code in `errno` otherwise. -/
theorem arbiter_error_exit (p : Platform) (wd : World) (max_acceptable_lsn : Nat)
    (s0 s1 : SlotRead) (a0 a1 l0 l1 : Bool)
    (h0 : deserialize_ft_from_fd_into_rbuf p wd 0 deserialize_error_code.DS_OK = some s0)
    (h1 : deserialize_ft_from_fd_into_rbuf p wd (p.BLOCK_ALLOCATOR_HEADER_RESERVE : Int)
      deserialize_error_code.DS_OK = some s1)
    (ha0 : slot_acceptable s0 max_acceptable_lsn = some a0)
    (ha1 : slot_acceptable s1 max_acceptable_lsn = some a1)
    (hl0 : slot_too_late s0 max_acceptable_lsn = some l0)
    (hl1 : slot_too_late s1 max_acceptable_lsn = some l1)
    (hbranch : s0.r = p.TOKUDB_DICTIONARY_TOO_NEW ∨ s1.r = p.TOKUDB_DICTIONARY_TOO_NEW ∨
      ¬ (a0 = true ∨ a1 = true))
    (hlate : ¬ (l0 = true ∧ l1 = true))
    (hr : arbiter_error_code p s0.r s1.r ≠ 0) :
    toku_deserialize_ft_from p wd max_acceptable_lsn =
      some (if s0.e = deserialize_error_code.DS_XSUM_FAIL ∧
              s1.e = deserialize_error_code.DS_XSUM_FAIL then
          { e := deserialize_error_code.DS_XSUM_FAIL, ft := none, errno := none }
        else
          { e := deserialize_error_code.DS_ERRNO, ft := none,
            errno := some (arbiter_error_code p s0.r s1.r) }) := by
  have harb : toku_deserialize_ft_from_arbiter p wd max_acceptable_lsn =
      some (Sum.inl (if s0.e = deserialize_error_code.DS_XSUM_FAIL ∧
              s1.e = deserialize_error_code.DS_XSUM_FAIL then
          { e := deserialize_error_code.DS_XSUM_FAIL, ft := none, errno := none }
        else
          { e := deserialize_error_code.DS_ERRNO, ft := none,
            errno := some (arbiter_error_code p s0.r s1.r) })) := by
    unfold arbiter_error_code at hr ⊢
    simp only [toku_deserialize_ft_from_arbiter, h0, h1, ha0, ha1, hl0, hl1]
    rw [if_pos hbranch, if_neg hlate, if_neg (not_not.mpr hr)]
    split <;> rfl
  simp only [toku_deserialize_ft_from, harb]

theorem arbiter_error_code_self (p : Platform) (r : Int) : arbiter_error_code p r r = r := by
  unfold arbiter_error_code
  simp only [or_self]
  split
  · rename_i h; exact h.symm
  · split
    · rename_i h; exact h.symm
    · split
      · rename_i h; exact h.symm
      · split <;> rfl

theorem arbiter_error_code_ne_zero (p : Platform) (r0 r1 : Int) (hcodes : p.codes_nonzero)
    (hnz : ¬ (r0 = 0 ∧ r1 = 0)) : arbiter_error_code p r0 r1 ≠ 0 := by
  obtain ⟨n1, n2, n3, _⟩ := hcodes
  unfold arbiter_error_code
  split
  · exact n2
  · split
    · exact n1
    · split
      · exact n3
      · split
        · rename_i h; exact h
        · rename_i h
          intro h1
          exact hnz ⟨not_not.mp h, h1⟩

theorem slot_tests_of_exit (r : Int) (rb : Option rbuf) (version : Option Nat)
    (e : deserialize_error_code) (reads : List (Nat × Int)) (max_acceptable_lsn : Nat)
    (hr : r ≠ 0) :
    slot_acceptable (slot_exit r rb version e reads) max_acceptable_lsn = some false ∧
    slot_too_late (slot_exit r rb version e reads) max_acceptable_lsn = some false := by
  have h : ¬ ((slot_exit r rb version e reads).r = 0) := hr
  exact ⟨by simp only [slot_acceptable, h, if_false], by simp only [slot_too_late, h, if_false]⟩

/-- Neither slot acceptable and not both readable: the arbiter returns through
its error exit with the prioritized code, which is not 0. -/
theorem arbiter_rejects_both (p : Platform) (wd : World) (max_acceptable_lsn : Nat)
    (s0 s1 : SlotRead) (hcodes : p.codes_nonzero)
    (h0 : deserialize_ft_from_fd_into_rbuf p wd 0 deserialize_error_code.DS_OK = some s0)
    (h1 : deserialize_ft_from_fd_into_rbuf p wd (p.BLOCK_ALLOCATOR_HEADER_RESERVE : Int)
      deserialize_error_code.DS_OK = some s1)
    (hna0 : slot_acceptable s0 max_acceptable_lsn = some false)
    (hna1 : slot_acceptable s1 max_acceptable_lsn = some false)
    (hnz : ¬ (s0.r = 0 ∧ s1.r = 0)) :
    arbiter_error_code p s0.r s1.r ≠ 0 ∧
    toku_deserialize_ft_from p wd max_acceptable_lsn =
      some (if s0.e = deserialize_error_code.DS_XSUM_FAIL ∧
              s1.e = deserialize_error_code.DS_XSUM_FAIL then
          { e := deserialize_error_code.DS_XSUM_FAIL, ft := none, errno := none }
        else
          { e := deserialize_error_code.DS_ERRNO, ft := none,
            errno := some (arbiter_error_code p s0.r s1.r) }) := by
  have hcode := arbiter_error_code_ne_zero p s0.r s1.r hcodes hnz
  refine ⟨hcode, ?_⟩
  refine arbiter_error_exit p wd max_acceptable_lsn s0 s1 false false _ _ h0 h1 hna0 hna1
    (slot_too_late_of_rejected s0 _ hna0) (slot_too_late_of_rejected s1 _ hna1)
    (Or.inr (Or.inr (by simp))) ?_ hcode
  simp only [decide_eq_true_eq]
  exact hnz

/-! ### Both slots above the bound -/

/-- C11, as stated, fails on the file of scenario S2 opened with the bound
100: both slots are read and validated (return code 0, LSNs 500 and 600), both
LSNs are above the bound, and `toku_deserialize_ft_from` returns nothing at
all: the invariant that the two headers are not both later than
`max_acceptable_lsn` stops the process before an error code is chosen. -/
theorem both_too_late_no_error_code :
    (deserialize_ft_from_fd_into_rbuf sample_platform
        (sample_world (sample_file (sample_header 5 500 20) (sample_header 6 600 20))) 0
        deserialize_error_code.DS_OK).map (fun sr => (sr.r, sr.checkpoint_lsn)) =
      some (0, some 500) ∧
    (deserialize_ft_from_fd_into_rbuf sample_platform
        (sample_world (sample_file (sample_header 5 500 20) (sample_header 6 600 20))) 256
        deserialize_error_code.DS_OK).map (fun sr => (sr.r, sr.checkpoint_lsn)) =
      some (0, some 600) ∧
    toku_deserialize_ft_from sample_platform
      (sample_world (sample_file (sample_header 5 500 20) (sample_header 6 600 20))) 100 =
      none :=
  ⟨rfl, rfl, rfl⟩

/-- C11, amended: given two valid slots (both read and validated
successfully) whose checkpoint LSNs are both greater than
`max_acceptable_lsn`, `toku_deserialize_ft_from` selects no slot and returns
no error either: it stops the process on the invariant that the two headers
are not both later than the bound. -/
theorem both_too_late_stops (p : Platform) (wd : World) (max_acceptable_lsn : Nat)
    (rb_0 rb_1 : rbuf) (count_0 count_1 lsn_0 lsn_1 version_0 version_1 : Nat)
    (e_0 e_1 : deserialize_error_code) (reads_0 reads_1 : List (Nat × Int))
    (h0 : deserialize_ft_from_fd_into_rbuf p wd 0 deserialize_error_code.DS_OK =
      some { r := 0, rb := some rb_0, checkpoint_count := some count_0,
             checkpoint_lsn := some lsn_0, version := some version_0, e := e_0,
             reads := reads_0 })
    (h1 : deserialize_ft_from_fd_into_rbuf p wd (p.BLOCK_ALLOCATOR_HEADER_RESERVE : Int)
        deserialize_error_code.DS_OK =
      some { r := 0, rb := some rb_1, checkpoint_count := some count_1,
             checkpoint_lsn := some lsn_1, version := some version_1, e := e_1,
             reads := reads_1 })
    (hl0 : lsn_0 > max_acceptable_lsn) (hl1 : lsn_1 > max_acceptable_lsn) :
    toku_deserialize_ft_from_arbiter p wd max_acceptable_lsn = none ∧
    toku_deserialize_ft_from p wd max_acceptable_lsn = none := by
  have hn0 : ¬ (lsn_0 ≤ max_acceptable_lsn) := by omega
  have hn1 : ¬ (lsn_1 ≤ max_acceptable_lsn) := by omega
  have harb : toku_deserialize_ft_from_arbiter p wd max_acceptable_lsn = none := by
    simp only [toku_deserialize_ft_from_arbiter, h0, h1, slot_acceptable, slot_too_late,
      Option.map_some', hl0, hl1, hn0, hn1, decide_True, decide_False, if_true, if_false,
      or_self, or_true, and_self, not_true_eq_false, not_false_eq_true, Bool.false_eq_true,
      gt_iff_lt]
  exact ⟨harb, by simp only [toku_deserialize_ft_from, harb]⟩

/-- The stop of C11 on the file of scenario S2 opened with the bound 100. -/
theorem both_too_late_stops_witness :
    toku_deserialize_ft_from_arbiter sample_platform
      (sample_world (sample_file (sample_header 5 500 20) (sample_header 6 600 20))) 100 =
      none ∧
    toku_deserialize_ft_from sample_platform
      (sample_world (sample_file (sample_header 5 500 20) (sample_header 6 600 20))) 100 =
      none :=
  both_too_late_stops sample_platform
    (sample_world (sample_file (sample_header 5 500 20) (sample_header 6 600 20))) 100
    (rbuf_init (sample_header 5 500 20) 177) (rbuf_init (sample_header 6 600 20) 177)
    5 6 500 600 20 20 deserialize_error_code.DS_OK deserialize_error_code.DS_OK
    [(20, 0), (177, 0)] [(20, 256), (177, 256)] rfl rfl (by decide) (by decide)

/-! ### The error the arbiter reports -/

/-- C12, as stated, fails in two corners of "neither slot is acceptable".  On
the file of scenario S2 opened with the bound 100 neither slot is acceptable
and no code is reported at all (the process stops on an invariant).  On a file
whose two slots both fail their checksum, both slot reads report
`TOKUDB_DICTIONARY_NO_HEADER`, yet the function returns `DS_XSUM_FAIL` and
stores no code in `errno`. -/
theorem error_code_not_reported :
    (deserialize_ft_from_fd_into_rbuf sample_platform
        (sample_world (sample_file (sample_header 5 500 20) (sample_header 6 600 20))) 0
        deserialize_error_code.DS_OK).map (fun sr => slot_acceptable sr 100) =
      some (some false) ∧
    (deserialize_ft_from_fd_into_rbuf sample_platform
        (sample_world (sample_file (sample_header 5 500 20) (sample_header 6 600 20))) 256
        deserialize_error_code.DS_OK).map (fun sr => slot_acceptable sr 100) =
      some (some false) ∧
    toku_deserialize_ft_from sample_platform
      (sample_world (sample_file (sample_header 5 500 20) (sample_header 6 600 20))) 100 =
      none ∧
    (deserialize_ft_from_fd_into_rbuf sample_platform
        (sample_world (sample_file ((sample_header 5 500 20).set 100 255)
          ((sample_header 6 600 20).set 100 255))) 0
        deserialize_error_code.DS_OK).map (fun sr => (sr.r, slot_acceptable sr 1000)) =
      some (sample_platform.TOKUDB_DICTIONARY_NO_HEADER, some false) ∧
    (deserialize_ft_from_fd_into_rbuf sample_platform
        (sample_world (sample_file ((sample_header 5 500 20).set 100 255)
          ((sample_header 6 600 20).set 100 255))) 256
        deserialize_error_code.DS_OK).map (fun sr => (sr.r, slot_acceptable sr 1000)) =
      some (sample_platform.TOKUDB_DICTIONARY_NO_HEADER, some false) ∧
    toku_deserialize_ft_from sample_platform
      (sample_world (sample_file ((sample_header 5 500 20).set 100 255)
        ((sample_header 6 600 20).set 100 255))) 1000 =
      some { e := deserialize_error_code.DS_XSUM_FAIL, ft := none, errno := none } :=
  ⟨rfl, rfl, rfl, rfl, rfl, rfl⟩

/-- C12, amended: when neither slot is acceptable and the slots are not both
readable with an LSN above the bound (the state on which the function stops),
`toku_deserialize_ft_from` returns with the single error code given by the
priority TooNew > TooOld > NoHeader > first error: `TOKUDB_DICTIONARY_TOO_NEW`
if either slot reported it, otherwise `TOKUDB_DICTIONARY_TOO_OLD` if either
slot reported it, otherwise `TOKUDB_DICTIONARY_NO_HEADER` if either slot
reported it, otherwise slot 0's code if it is non-zero and slot 1's code if
slot 0's is zero; the code is never 0.  The code is reported as `DS_ERRNO`
with `errno` set to it, unless both slots failed their checksum, in which case
`DS_XSUM_FAIL` is returned and `errno` is not set. -/
theorem error_code_priority (p : Platform) (wd : World) (max_acceptable_lsn : Nat)
    (s0 s1 : SlotRead) (hcodes : p.codes_nonzero)
    (h0 : deserialize_ft_from_fd_into_rbuf p wd 0 deserialize_error_code.DS_OK = some s0)
    (h1 : deserialize_ft_from_fd_into_rbuf p wd (p.BLOCK_ALLOCATOR_HEADER_RESERVE : Int)
      deserialize_error_code.DS_OK = some s1)
    (hna0 : slot_acceptable s0 max_acceptable_lsn = some false)
    (hna1 : slot_acceptable s1 max_acceptable_lsn = some false)
    (hnz : ¬ (s0.r = 0 ∧ s1.r = 0)) :
    ∃ code : Int,
      code ≠ 0 ∧
      toku_deserialize_ft_from p wd max_acceptable_lsn =
        some (if s0.e = deserialize_error_code.DS_XSUM_FAIL ∧
                s1.e = deserialize_error_code.DS_XSUM_FAIL then
            { e := deserialize_error_code.DS_XSUM_FAIL, ft := none, errno := none }
          else { e := deserialize_error_code.DS_ERRNO, ft := none, errno := some code }) ∧
      (s0.r = p.TOKUDB_DICTIONARY_TOO_NEW ∨ s1.r = p.TOKUDB_DICTIONARY_TOO_NEW →
        code = p.TOKUDB_DICTIONARY_TOO_NEW) ∧
      (¬ (s0.r = p.TOKUDB_DICTIONARY_TOO_NEW ∨ s1.r = p.TOKUDB_DICTIONARY_TOO_NEW) →
        (s0.r = p.TOKUDB_DICTIONARY_TOO_OLD ∨ s1.r = p.TOKUDB_DICTIONARY_TOO_OLD) →
        code = p.TOKUDB_DICTIONARY_TOO_OLD) ∧
      (¬ (s0.r = p.TOKUDB_DICTIONARY_TOO_NEW ∨ s1.r = p.TOKUDB_DICTIONARY_TOO_NEW) →
        ¬ (s0.r = p.TOKUDB_DICTIONARY_TOO_OLD ∨ s1.r = p.TOKUDB_DICTIONARY_TOO_OLD) →
        (s0.r = p.TOKUDB_DICTIONARY_NO_HEADER ∨ s1.r = p.TOKUDB_DICTIONARY_NO_HEADER) →
        code = p.TOKUDB_DICTIONARY_NO_HEADER) ∧
      (¬ (s0.r = p.TOKUDB_DICTIONARY_TOO_NEW ∨ s1.r = p.TOKUDB_DICTIONARY_TOO_NEW) →
        ¬ (s0.r = p.TOKUDB_DICTIONARY_TOO_OLD ∨ s1.r = p.TOKUDB_DICTIONARY_TOO_OLD) →
        ¬ (s0.r = p.TOKUDB_DICTIONARY_NO_HEADER ∨ s1.r = p.TOKUDB_DICTIONARY_NO_HEADER) →
        (s0.r ≠ 0 → code = s0.r) ∧ (s0.r = 0 → code = s1.r)) := by
  obtain ⟨hcode, hres⟩ := arbiter_rejects_both p wd max_acceptable_lsn s0 s1 hcodes h0 h1
    hna0 hna1 hnz
  refine ⟨arbiter_error_code p s0.r s1.r, hcode, hres, ?_, ?_, ?_, ?_⟩
  · intro h
    simp only [arbiter_error_code, h, if_true]
  · intro hn ho
    simp only [arbiter_error_code, hn, ho, if_true, if_false]
  · intro hn ho hh
    simp only [arbiter_error_code, hn, ho, hh, if_true, if_false]
  · intro hn ho hh
    refine ⟨fun hr => ?_, fun hr => ?_⟩
    · unfold arbiter_error_code
      rw [if_neg hn, if_neg ho, if_neg hh, if_pos hr]
    · unfold arbiter_error_code
      rw [if_neg hn, if_neg ho, if_neg hh, if_neg (not_not.mpr hr)]

/-- The priority of C12 on a sample file: a slot that is too old (version 11)
beside an empty slot gives `TOKUDB_DICTIONARY_TOO_OLD`. -/
theorem error_code_priority_witness :
    ∃ code : Int, code ≠ 0 ∧
      toku_deserialize_ft_from sample_platform
        (sample_world (sample_file [] (sample_header 6 600 11))) 1000 =
        some { e := deserialize_error_code.DS_ERRNO, ft := none, errno := some code } ∧
      code = sample_platform.TOKUDB_DICTIONARY_TOO_OLD :=
  match error_code_priority sample_platform
      (sample_world (sample_file [] (sample_header 6 600 11))) 1000
      (slot_exit sample_platform.TOKUDB_DICTIONARY_NO_HEADER none none
        deserialize_error_code.DS_OK [(20, 0)])
      (slot_exit sample_platform.TOKUDB_DICTIONARY_TOO_OLD none (some 11)
        deserialize_error_code.DS_OK [(20, 256)])
      (by unfold Platform.codes_nonzero; decide) rfl rfl rfl rfl (by decide) with
  | ⟨code, hne, hres, _, hold, _, _⟩ => ⟨code, hne, hres, hold (by decide) (Or.inr rfl)⟩

/-! ### A slot that is too new, an empty file, two checksum failures -/

/-- C13: if the prefix of either slot has the magic and a layout version
greater than `FT_LAYOUT_VERSION`, and the read of the other slot returns
(acceptable or not), `toku_deserialize_ft_from` fails with `DS_ERRNO` and
`errno = TOKUDB_DICTIONARY_TOO_NEW`, and no header is decoded. -/
theorem too_new_slot_fails_open (p : Platform) (wd : World) (max_acceptable_lsn : Nat)
    (pfx : List Byte) (v : Nat) (other : SlotRead)
    (hcodes : p.codes_nonzero)
    (hpl : pfx.length = 20) (hmagic : pfx.take 8 = tokudata)
    (hver : be_value ((pfx.drop 8).take 4) = v) (hv : v > FT_LAYOUT_VERSION) :
    (wd.pread 20 0 = PreadResult.read pfx →
      deserialize_ft_from_fd_into_rbuf p wd (p.BLOCK_ALLOCATOR_HEADER_RESERVE : Int)
        deserialize_error_code.DS_OK = some other →
      toku_deserialize_ft_from p wd max_acceptable_lsn =
        some { e := deserialize_error_code.DS_ERRNO, ft := none,
               errno := some p.TOKUDB_DICTIONARY_TOO_NEW }) ∧
    (wd.pread 20 (p.BLOCK_ALLOCATOR_HEADER_RESERVE : Int) = PreadResult.read pfx →
      deserialize_ft_from_fd_into_rbuf p wd 0 deserialize_error_code.DS_OK = some other →
      toku_deserialize_ft_from p wd max_acceptable_lsn =
        some { e := deserialize_error_code.DS_ERRNO, ft := none,
               errno := some p.TOKUDB_DICTIONARY_TOO_NEW }) := by
  have hnew : p.TOKUDB_DICTIONARY_TOO_NEW ≠ 0 := hcodes.2.1
  refine ⟨fun hp hother => ?_, fun hp hother => ?_⟩
  · have hslot := slot_read_too_new p wd 0 deserialize_error_code.DS_OK pfx v hp hpl hmagic
      hver hv
    obtain ⟨t1, t2⟩ := slot_tests_of_exit p.TOKUDB_DICTIONARY_TOO_NEW
      (some { buf := pfx, size := 20, ndone := 12 }) (some v) deserialize_error_code.DS_OK
      [(20, 0)] max_acceptable_lsn hnew
    obtain ⟨a, l, ha, hl, _, _⟩ := slot_tests_of_read p wd _ _ other max_acceptable_lsn hcodes
      hother
    have hcode : arbiter_error_code p p.TOKUDB_DICTIONARY_TOO_NEW other.r =
        p.TOKUDB_DICTIONARY_TOO_NEW := by
      unfold arbiter_error_code
      rw [if_pos (Or.inl rfl)]
    have hres := arbiter_error_exit p wd max_acceptable_lsn _ other false a false l hslot hother
      t1 ha t2 hl (Or.inl rfl) (fun h => by cases h.1)
      (by show arbiter_error_code p p.TOKUDB_DICTIONARY_TOO_NEW other.r ≠ 0
          rw [hcode]; exact hnew)
    rw [hres, if_neg (fun h => by cases h.1)]
    show some ({ e := deserialize_error_code.DS_ERRNO, ft := none,
                 errno := some (arbiter_error_code p p.TOKUDB_DICTIONARY_TOO_NEW other.r) } :
      DeserializeResult) = _
    rw [hcode]
  · have hslot := slot_read_too_new p wd _ deserialize_error_code.DS_OK pfx v hp hpl hmagic
      hver hv
    obtain ⟨t1, t2⟩ := slot_tests_of_exit p.TOKUDB_DICTIONARY_TOO_NEW
      (some { buf := pfx, size := 20, ndone := 12 }) (some v) deserialize_error_code.DS_OK
      [(20, (p.BLOCK_ALLOCATOR_HEADER_RESERVE : Int))] max_acceptable_lsn hnew
    obtain ⟨a, l, ha, hl, _, _⟩ := slot_tests_of_read p wd _ _ other max_acceptable_lsn hcodes
      hother
    have hcode : arbiter_error_code p other.r p.TOKUDB_DICTIONARY_TOO_NEW =
        p.TOKUDB_DICTIONARY_TOO_NEW := by
      unfold arbiter_error_code
      rw [if_pos (Or.inr rfl)]
    have hres := arbiter_error_exit p wd max_acceptable_lsn other _ a false l false hother hslot
      ha t1 hl t2 (Or.inr (Or.inl rfl)) (fun h => by cases h.2)
      (by show arbiter_error_code p other.r p.TOKUDB_DICTIONARY_TOO_NEW ≠ 0
          rw [hcode]; exact hnew)
    rw [hres, if_neg (fun h => by cases h.2)]
    show some ({ e := deserialize_error_code.DS_ERRNO, ft := none,
                 errno := some (arbiter_error_code p other.r p.TOKUDB_DICTIONARY_TOO_NEW) } :
      DeserializeResult) = _
    rw [hcode]

/-- The failure of C13 on scenario S5 beside an acceptable slot: slot 0 is
valid (count 5, LSN 500), slot 1 carries version 21. -/
theorem too_new_slot_fails_open_witness :
    toku_deserialize_ft_from sample_platform
      (sample_world (sample_file (sample_header 5 500 20) (sample_header 6 600 21))) 1000 =
      some { e := deserialize_error_code.DS_ERRNO, ft := none,
             errno := some sample_platform.TOKUDB_DICTIONARY_TOO_NEW } :=
  (too_new_slot_fails_open sample_platform
    (sample_world (sample_file (sample_header 5 500 20) (sample_header 6 600 21))) 1000
    ((sample_header 6 600 21).take 20) 21
    { r := 0, rb := some (rbuf_init (sample_header 5 500 20) 177),
      checkpoint_count := some 5, checkpoint_lsn := some 500, version := some 20,
      e := deserialize_error_code.DS_OK, reads := [(20, 0), (177, 0)] }
    (by unfold Platform.codes_nonzero; decide) rfl rfl rfl (by decide)).2 rfl rfl

/-- C14: if the prefix read returns 0 bytes for both slots,
`toku_deserialize_ft_from` fails with `DS_ERRNO` and `errno =
TOKUDB_DICTIONARY_NO_HEADER`; each slot read issues the prefix read only and
leaves no slot buffer (`rb->buf` is NULL), and no header is produced. -/
theorem empty_file_no_header (p : Platform) (wd : World) (max_acceptable_lsn : Nat)
    (hno : p.TOKUDB_DICTIONARY_NO_HEADER ≠ 0)
    (hp0 : wd.pread 20 0 = PreadResult.read [])
    (hp1 : wd.pread 20 (p.BLOCK_ALLOCATOR_HEADER_RESERVE : Int) = PreadResult.read []) :
    deserialize_ft_from_fd_into_rbuf p wd 0 deserialize_error_code.DS_OK =
      some { r := p.TOKUDB_DICTIONARY_NO_HEADER, rb := none, checkpoint_count := none,
             checkpoint_lsn := none, version := none, e := deserialize_error_code.DS_OK,
             reads := [(20, 0)] } ∧
    deserialize_ft_from_fd_into_rbuf p wd (p.BLOCK_ALLOCATOR_HEADER_RESERVE : Int)
        deserialize_error_code.DS_OK =
      some { r := p.TOKUDB_DICTIONARY_NO_HEADER, rb := none, checkpoint_count := none,
             checkpoint_lsn := none, version := none, e := deserialize_error_code.DS_OK,
             reads := [(20, (p.BLOCK_ALLOCATOR_HEADER_RESERVE : Int))] } ∧
    toku_deserialize_ft_from p wd max_acceptable_lsn =
      some { e := deserialize_error_code.DS_ERRNO, ft := none,
             errno := some p.TOKUDB_DICTIONARY_NO_HEADER } := by
  have hs0 := slot_read_empty p wd 0 deserialize_error_code.DS_OK hp0
  have hs1 := slot_read_empty p wd _ deserialize_error_code.DS_OK hp1
  have hx : ∀ reads, slot_exit p.TOKUDB_DICTIONARY_NO_HEADER none none
      deserialize_error_code.DS_OK reads =
      { r := p.TOKUDB_DICTIONARY_NO_HEADER, rb := none, checkpoint_count := none,
        checkpoint_lsn := none, version := none, e := deserialize_error_code.DS_OK,
        reads := reads } := by
    intro reads
    simp only [slot_exit, ite_self]
  obtain ⟨t1, t2⟩ := slot_tests_of_exit p.TOKUDB_DICTIONARY_NO_HEADER none none
    deserialize_error_code.DS_OK [(20, 0)] max_acceptable_lsn hno
  obtain ⟨u1, u2⟩ := slot_tests_of_exit p.TOKUDB_DICTIONARY_NO_HEADER none none
    deserialize_error_code.DS_OK [(20, (p.BLOCK_ALLOCATOR_HEADER_RESERVE : Int))]
    max_acceptable_lsn hno
  have hcode := arbiter_error_code_self p p.TOKUDB_DICTIONARY_NO_HEADER
  have hres := arbiter_error_exit p wd max_acceptable_lsn _ _ false false false false hs0 hs1
    t1 u1 t2 u2 (Or.inr (Or.inr (by simp))) (fun h => by cases h.1)
    (by show arbiter_error_code p p.TOKUDB_DICTIONARY_NO_HEADER
          p.TOKUDB_DICTIONARY_NO_HEADER ≠ 0
        rw [hcode]; exact hno)
  refine ⟨by rw [hs0, hx], by rw [hs1, hx], ?_⟩
  rw [hres, if_neg (fun h => by cases h.1)]
  show some ({ e := deserialize_error_code.DS_ERRNO, ft := none,
               errno := some (arbiter_error_code p p.TOKUDB_DICTIONARY_NO_HEADER
                 p.TOKUDB_DICTIONARY_NO_HEADER) } : DeserializeResult) = _
  rw [hcode]

/-- The failure of C14 on scenario S6, the empty file. -/
theorem empty_file_no_header_witness :
    toku_deserialize_ft_from sample_platform (sample_world []) 1000 =
      some { e := deserialize_error_code.DS_ERRNO, ft := none,
             errno := some sample_platform.TOKUDB_DICTIONARY_NO_HEADER } :=
  (empty_file_no_header sample_platform (sample_world []) 1000 (by decide) rfl rfl).2.2

/-- C15, as stated, fails in its second half on the file of scenario S2 opened
with the bound 100: neither slot is acceptable, both were rejected for their
LSN and not for their checksum (neither carries the checksum mark), yet the
function does not return `DS_ERRNO` with a code in `errno`: it returns
nothing, the process stops on an invariant. -/
theorem both_too_late_not_errno :
    (deserialize_ft_from_fd_into_rbuf sample_platform
        (sample_world (sample_file (sample_header 5 500 20) (sample_header 6 600 20))) 0
        deserialize_error_code.DS_OK).map (fun sr => (sr.e, slot_acceptable sr 100)) =
      some (deserialize_error_code.DS_OK, some false) ∧
    (deserialize_ft_from_fd_into_rbuf sample_platform
        (sample_world (sample_file (sample_header 5 500 20) (sample_header 6 600 20))) 256
        deserialize_error_code.DS_OK).map (fun sr => (sr.e, slot_acceptable sr 100)) =
      some (deserialize_error_code.DS_OK, some false) ∧
    (toku_deserialize_ft_from sample_platform
      (sample_world (sample_file (sample_header 5 500 20) (sample_header 6 600 20))) 100).map
      (fun res => res.e) = none :=
  ⟨rfl, rfl, rfl⟩

/-- C15, amended: when both slots are rejected because their stored checksum
does not match the computed one (both slot reads leave the mark
`DS_XSUM_FAIL`), `toku_deserialize_ft_from` returns `DS_XSUM_FAIL`; when
neither slot is acceptable, at least one slot was rejected for another reason,
and the slots are not both readable with an LSN above the bound, it returns
`DS_ERRNO` with `errno` set to the prioritized error code, which is not 0. -/
theorem checksum_failures_surface (p : Platform) (wd : World) (max_acceptable_lsn : Nat)
    (s0 s1 : SlotRead) (hcodes : p.codes_nonzero)
    (h0 : deserialize_ft_from_fd_into_rbuf p wd 0 deserialize_error_code.DS_OK = some s0)
    (h1 : deserialize_ft_from_fd_into_rbuf p wd (p.BLOCK_ALLOCATOR_HEADER_RESERVE : Int)
      deserialize_error_code.DS_OK = some s1) :
    (s0.e = deserialize_error_code.DS_XSUM_FAIL → s1.e = deserialize_error_code.DS_XSUM_FAIL →
      toku_deserialize_ft_from p wd max_acceptable_lsn =
        some { e := deserialize_error_code.DS_XSUM_FAIL, ft := none, errno := none }) ∧
    (slot_acceptable s0 max_acceptable_lsn = some false →
      slot_acceptable s1 max_acceptable_lsn = some false →
      ¬ (s0.e = deserialize_error_code.DS_XSUM_FAIL ∧
          s1.e = deserialize_error_code.DS_XSUM_FAIL) →
      ¬ (s0.r = 0 ∧ s1.r = 0) →
      toku_deserialize_ft_from p wd max_acceptable_lsn =
        some { e := deserialize_error_code.DS_ERRNO, ft := none,
               errno := some (arbiter_error_code p s0.r s1.r) } ∧
      arbiter_error_code p s0.r s1.r ≠ 0) := by
  refine ⟨fun hx0 hx1 => ?_, fun hna0 hna1 hnx hnz => ?_⟩
  · have r0 : s0.r ≠ 0 := by
      rcases slot_read_cases p wd _ _ s0 hcodes h0 with ⟨_, he, _⟩ | ⟨hr, _⟩
      · rw [hx0] at he; cases he
      · exact hr
    have r1 : s1.r ≠ 0 := by
      rcases slot_read_cases p wd _ _ s1 hcodes h1 with ⟨_, he, _⟩ | ⟨hr, _⟩
      · rw [hx1] at he; cases he
      · exact hr
    have hna0 : slot_acceptable s0 max_acceptable_lsn = some false := by
      simp only [slot_acceptable, r0, if_false]
    have hna1 : slot_acceptable s1 max_acceptable_lsn = some false := by
      simp only [slot_acceptable, r1, if_false]
    obtain ⟨_, hres⟩ := arbiter_rejects_both p wd max_acceptable_lsn s0 s1 hcodes h0 h1
      hna0 hna1 (fun h => r0 h.1)
    rw [hres, if_pos ⟨hx0, hx1⟩]
  · obtain ⟨hcode, hres⟩ := arbiter_rejects_both p wd max_acceptable_lsn s0 s1 hcodes h0 h1
      hna0 hna1 hnz
    rw [hres, if_neg hnx]
    exact ⟨rfl, hcode⟩

/-- The two halves of C15 on sample files: both slots with an octet of the
body overwritten give `DS_XSUM_FAIL`; one such slot beside an empty slot gives
`DS_ERRNO` with `TOKUDB_DICTIONARY_NO_HEADER`. -/
theorem checksum_failures_surface_witness :
    toku_deserialize_ft_from sample_platform
      (sample_world (sample_file ((sample_header 5 500 20).set 100 255)
        ((sample_header 6 600 20).set 100 255))) 1000 =
      some { e := deserialize_error_code.DS_XSUM_FAIL, ft := none, errno := none } ∧
    toku_deserialize_ft_from sample_platform
      (sample_world (sample_file ((sample_header 5 500 20).set 100 255) [])) 1000 =
      some { e := deserialize_error_code.DS_ERRNO, ft := none,
             errno := some sample_platform.TOKUDB_DICTIONARY_NO_HEADER } :=
  ⟨(checksum_failures_surface sample_platform
      (sample_world (sample_file ((sample_header 5 500 20).set 100 255)
        ((sample_header 6 600 20).set 100 255))) 1000
      { r := sample_platform.TOKUDB_DICTIONARY_NO_HEADER, rb := none,
        checkpoint_count := none, checkpoint_lsn := none, version := some 20,
        e := deserialize_error_code.DS_XSUM_FAIL, reads := [(20, 0), (177, 0)] }
      { r := sample_platform.TOKUDB_DICTIONARY_NO_HEADER, rb := none,
        checkpoint_count := none, checkpoint_lsn := none, version := some 20,
        e := deserialize_error_code.DS_XSUM_FAIL, reads := [(20, 256), (177, 256)] }
      (by unfold Platform.codes_nonzero; decide) rfl rfl).1 rfl rfl,
   ((checksum_failures_surface sample_platform
      (sample_world (sample_file ((sample_header 5 500 20).set 100 255) [])) 1000
      { r := sample_platform.TOKUDB_DICTIONARY_NO_HEADER, rb := none,
        checkpoint_count := none, checkpoint_lsn := none, version := some 20,
        e := deserialize_error_code.DS_XSUM_FAIL, reads := [(20, 0), (177, 0)] }
      { r := sample_platform.TOKUDB_DICTIONARY_NO_HEADER, rb := none,
        checkpoint_count := none, checkpoint_lsn := none, version := none,
        e := deserialize_error_code.DS_OK, reads := [(20, 256)] }
      (by unfold Platform.codes_nonzero; decide) rfl rfl).2 rfl rfl (by decide)
      (by decide)).1⟩

/-! ### Octets of a stored digest -/

theorem be_bytes_lt (n x : Nat) : ∀ y ∈ be_bytes n x, y < 256 := by
  induction n with
  | zero => intro y hy; cases hy
  | succ k ih =>
    intro y hy
    simp only [be_bytes, List.mem_cons] at hy
    rcases hy with hy | hy
    · rw [hy]; exact Nat.mod_lt _ (by decide)
    · exact ih y hy

theorem le_bytes_lt (n x : Nat) : ∀ y ∈ le_bytes n x, y < 256 := by
  induction n generalizing x with
  | zero => intro y hy; cases hy
  | succ k ih =>
    intro y hy
    simp only [le_bytes, List.mem_cons] at hy
    rcases hy with hy | hy
    · rw [hy]; exact Nat.mod_lt _ (by decide)
    · exact ih _ y hy

theorem host_bytes_lt (p : Platform) (n x : Nat) : ∀ y ∈ host_bytes p n x, y < 256 := by
  unfold host_bytes
  split
  · exact le_bytes_lt n x
  · exact be_bytes_lt n x

theorem host_value_set_ne (p : Platform) (S : List Nat) (j b : Nat) (hS : S.length = 4)
    (hbytes : ∀ y ∈ S, y < 256) (hj : j < 4) (hne : S[j]? ≠ some b) :
    host_value p (S.set j b) ≠ host_value p S := by
  match S, hS with
  | [a0, a1, a2, a3], _ =>
    have h0 : a0 < 256 := hbytes a0 (by simp)
    have h1 : a1 < 256 := hbytes a1 (by simp)
    have h2 : a2 < 256 := hbytes a2 (by simp)
    have h3 : a3 < 256 := hbytes a3 (by simp)
    interval_cases j <;>
      simp only [List.getElem?_cons_zero, List.getElem?_cons_succ, ne_eq,
        Option.some.injEq] at hne <;>
      simp only [host_value, List.set_cons_zero, List.set_cons_succ, le_value, be_value,
        List.foldl] <;>
      split <;> omega

theorem slot_read_slot (p : Platform) (wd : World) (off : Int) (e : deserialize_error_code)
    (B : List Byte) (v m size : Nat)
    (hB : B.length = size) (hs3 : 44 ≤ size)
    (hp1 : wd.pread 20 off = PreadResult.read (B.take 20))
    (hmagic : B.take 8 = tokudata)
    (hver : be_value ((B.drop 8).take 4) = v)
    (hv1 : FT_LAYOUT_MIN_SUPPORTED_VERSION ≤ v) (hv2 : v ≤ FT_LAYOUT_VERSION)
    (hmin : serialize_ft_min_size p v = some m)
    (hsize : be_value ((B.drop 16).take 4) = size)
    (hs1 : m ≤ size) (hs2 : size ≤ p.BLOCK_ALLOCATOR_HEADER_RESERVE)
    (hp2 : wd.pread size off = PreadResult.read B) :
    deserialize_ft_from_fd_into_rbuf p wd off e =
      if x1764_memory p (B.take (size - 4)) ≠ host_value p ((B.drop (size - 4)).take 4) then
        some (slot_exit p.TOKUDB_DICTIONARY_NO_HEADER (some { buf := B, size := size, ndone := 20 })
          (some v) deserialize_error_code.DS_XSUM_FAIL [(20, off), (size, off)])
      else if host_value p ((B.drop 20).take 8) ≠ p.toku_byte_order_host % 2 ^ 64 then
        some (slot_exit p.TOKUDB_DICTIONARY_NO_HEADER (some { buf := B, size := size, ndone := 28 })
          (some v) e [(20, off), (size, off)])
      else
        some { r := 0, rb := some { buf := B, size := size, ndone := 0 },
               checkpoint_count := some (host_value p ((B.drop 28).take 8)),
               checkpoint_lsn := some (host_value p ((B.drop 36).take 8)),
               version := some v, e := e, reads := [(20, off), (size, off)] } := by
  have hpl : (B.take 20).length = 20 := by rw [List.length_take]; omega
  have k1 : (B.take 20).take 8 = B.take 8 := by rw [List.take_take]; rfl
  have k2 : ((B.take 20).drop 8).take 4 = (B.drop 8).take 4 := by
    rw [List.drop_take, List.take_take]; rfl
  have k3 : ((B.take 20).drop 16).take 4 = (B.drop 16).take 4 := by
    rw [List.drop_take, List.take_take]; rfl
  exact slot_read_body p wd off e (B.take 20) B v m size hp1 hpl (k1.trans hmagic)
    (by rw [k2]; exact hver) hv1 hv2 hmin (by rw [k3]; exact hsize) hs1 hs2 hs3 hp2 hB

/-! ### One octet of an encoded header changed -/

/-- C16, as stated, fails for the octets the slot reader looks at before the
checksum.  With octet 0 of the encoding of the sample header changed from 116
to 117 the slot is rejected for its magic with `EINVAL`; with octet 11 (the
version tag) changed from 20 to 21 it is rejected with
`TOKUDB_DICTIONARY_TOO_NEW`; in both cases the checksum is never computed and
the mark `DS_XSUM_FAIL` is not set. -/
theorem changed_prefix_not_checksum_failure :
    (sample_header 1 100 20)[0]? = some 116 ∧
    (deserialize_ft_from_fd_into_rbuf sample_platform
        (sample_world (sample_file ((sample_header 1 100 20).set 0 117) [])) 0
        deserialize_error_code.DS_OK).map (fun sr => (sr.r, sr.e, sr.reads)) =
      some (sample_platform.EINVAL, deserialize_error_code.DS_OK, [(20, 0)]) ∧
    (sample_header 1 100 20)[11]? = some 20 ∧
    (deserialize_ft_from_fd_into_rbuf sample_platform
        (sample_world (sample_file ((sample_header 1 100 20).set 11 21) [])) 0
        deserialize_error_code.DS_OK).map (fun sr => (sr.r, sr.e, sr.reads)) =
      some (sample_platform.TOKUDB_DICTIONARY_TOO_NEW, deserialize_error_code.DS_OK,
        [(20, 0)]) :=
  ⟨rfl, rfl, rfl, rfl⟩

/-- C16, amended: for every header at a supported layout version encoded by
`toku_serialize_ft_to_wbuf` and every octet position `i` outside the magic,
the version tag and the size field (that is, `i` in 12..15 or in 20..176:
build id, body or stored checksum), the buffer with the octet at `i` changed
to a different value is rejected by the slot reader with
`TOKUDB_DICTIONARY_NO_HEADER` and the mark `DS_XSUM_FAIL`, provided that, for
`i` before the stored checksum, the X digest of the first 173 octets changes
with the octet; a change inside the stored checksum is always caught. -/
theorem changed_octet_fails_checksum (p : Platform) (wd : World) (h : FT) (a s : Int)
    (off : Int) (e : deserialize_error_code) (i b : Nat)
    (hres : 177 ≤ p.BLOCK_ALLOCATOR_HEADER_RESERVE)
    (hv1 : FT_LAYOUT_MIN_SUPPORTED_VERSION ≤ h.layout_version % 2 ^ 32)
    (hv2 : h.layout_version % 2 ^ 32 ≤ FT_LAYOUT_VERSION)
    (hi : (12 ≤ i ∧ i < 16) ∨ (20 ≤ i ∧ i < 177))
    (hne : (ft_encoded p h a s 177)[i]? ≠ some b)
    (hdet : i < 173 →
      x1764_memory p (((ft_encoded p h a s 177).set i b).take 173) ≠
        x1764_memory p ((ft_encoded p h a s 177).take 173))
    (hp1 : wd.pread 20 off = PreadResult.read (((ft_encoded p h a s 177).set i b).take 20))
    (hp2 : wd.pread 177 off = PreadResult.read ((ft_encoded p h a s 177).set i b)) :
    ∃ sr, deserialize_ft_from_fd_into_rbuf p wd off e = some sr ∧
      sr.r = p.TOKUDB_DICTIONARY_NO_HEADER ∧ sr.e = deserialize_error_code.DS_XSUM_FAIL ∧
      sr.checkpoint_count = none ∧ sr.checkpoint_lsn = none := by
  obtain ⟨l1, l2, _, l4, _, _, l7⟩ := ft_encoded_layout p h a s 177
  have hlen := ft_encoded_length p h a s 177
  obtain ⟨m, hm, hm177⟩ := serialize_ft_min_size_le p hres _ hv1 hv2
  generalize ft_encoded p h a s 177 = B at *
  have hB' : (B.set i b).length = 177 := by rw [List.length_set]; exact hlen
  have i12 : 12 ≤ i := by omega
  have hmagic : (B.set i b).take 8 = tokudata := by
    rw [take_set_of_le b B (by omega)]; exact l1
  have hver : be_value (((B.set i b).drop 8).take 4) = h.layout_version % 2 ^ 32 := by
    rw [chunk_set_after b B 8 4 i (by omega), l2]
    exact be_value_be_bytes_4 _
  have hsize : be_value (((B.set i b).drop 16).take 4) = 177 := by
    have hc : ((B.set i b).drop 16).take 4 = (B.drop 16).take 4 := by
      rcases hi with hi | hi
      · exact chunk_set_before b B 16 4 i hi.2
      · exact chunk_set_after b B 16 4 i (by omega)
    rw [hc, l4]
    exact be_value_be_bytes_4 177
  have e173 : 177 - 4 = 173 := rfl
  rw [e173] at l7
  have hstored : host_value p (B.drop 173) = x1764_memory p (B.take 173) := by
    rw [l7, host_value_host_bytes_4]
    simp [x1764_memory]
  have hx : x1764_memory p ((B.set i b).take (177 - 4)) ≠
      host_value p (((B.set i b).drop (177 - 4)).take 4) := by
    rw [e173]
    by_cases hlt : i < 173
    · have hd : (B.set i b).drop 173 = B.drop 173 := List.drop_set_of_lt b B hlt
      have ht : (B.drop 173).take 4 = B.drop 173 :=
        List.take_of_length_le (by rw [List.length_drop]; omega)
      rw [hd, ht, hstored]
      exact hdet hlt
    · have ht : (B.set i b).take 173 = B.take 173 := take_set_of_le b B (by omega)
      have hd : (B.set i b).drop 173 = (B.drop 173).set (i - 173) b := by
        rw [List.drop_set, if_neg hlt]
      have hl4 : ((B.drop 173).set (i - 173) b).length ≤ 4 := by
        rw [List.length_set, List.length_drop]; omega
      rw [ht, hd, List.take_of_length_le hl4, ← hstored]
      refine (host_value_set_ne p (B.drop 173) (i - 173) b
        (by rw [List.length_drop]; omega) ?_ (by omega) ?_).symm
      · rw [l7]; exact host_bytes_lt p 4 _
      · rw [List.getElem?_drop]
        have : 173 + (i - 173) = i := by omega
        rw [this]; exact hne
  have hread := slot_read_slot p wd off e (B.set i b) (h.layout_version % 2 ^ 32) m 177 hB'
    (by omega) hp1 hmagic hver hv1 hv2 hm hsize hm177 hres hp2
  rw [if_pos hx] at hread
  exact ⟨_, hread, rfl, rfl, rfl, rfl⟩

/-- The rejection of C16 on the sample header with octet 100 of its body set
to 255 and with octet 175 of its stored checksum set to 255. -/
theorem changed_octet_fails_checksum_witness :
    (∃ sr, deserialize_ft_from_fd_into_rbuf sample_platform
        (sample_world (sample_file ((sample_header 1 100 20).set 100 255) [])) 0
        deserialize_error_code.DS_OK = some sr ∧
      sr.r = sample_platform.TOKUDB_DICTIONARY_NO_HEADER ∧
      sr.e = deserialize_error_code.DS_XSUM_FAIL ∧
      sr.checkpoint_count = none ∧ sr.checkpoint_lsn = none) ∧
    (∃ sr, deserialize_ft_from_fd_into_rbuf sample_platform
        (sample_world (sample_file ((sample_header 1 100 20).set 175 255) [])) 0
        deserialize_error_code.DS_OK = some sr ∧
      sr.r = sample_platform.TOKUDB_DICTIONARY_NO_HEADER ∧
      sr.e = deserialize_error_code.DS_XSUM_FAIL ∧
      sr.checkpoint_count = none ∧ sr.checkpoint_lsn = none) :=
  ⟨changed_octet_fails_checksum sample_platform
      (sample_world (sample_file ((sample_header 1 100 20).set 100 255) []))
      (sample_ft_at 1 100 20) 512 16 0 deserialize_error_code.DS_OK 100 255
      (by decide) (by decide) (by decide) (by decide) (by decide) (fun _ => by decide)
      rfl rfl,
   changed_octet_fails_checksum sample_platform
      (sample_world (sample_file ((sample_header 1 100 20).set 175 255) []))
      (sample_ft_at 1 100 20) 512 16 0 deserialize_error_code.DS_OK 175 255
      (by decide) (by decide) (by decide) (by decide) (by decide)
      (fun hlt => absurd hlt (by decide)) rfl rfl⟩

/-! ### The byte-order probe -/

/-- C17: a slot with a valid prefix whose trailing checksum is valid for its
octets but whose byte-order probe (octets 20..27) differs from
`toku_byte_order_host` is rejected by the slot reader at the probe comparison
(`TOKUDB_DICTIONARY_NO_HEADER`, the code this reader uses for a byte-order
mismatch) and the checksum mark is left as the caller set it, `DS_XSUM_FAIL`
is not stored; a slot whose checksum is not valid is rejected with the mark
`DS_XSUM_FAIL` whatever its probe holds, so the probe is compared only after
the checksum validated. -/
theorem probe_checked_after_checksum (p : Platform) (wd : World) (off : Int)
    (e : deserialize_error_code) (B : List Byte) (v m size : Nat)
    (hB : B.length = size)
    (hp1 : wd.pread 20 off = PreadResult.read (B.take 20))
    (hmagic : B.take 8 = tokudata)
    (hver : be_value ((B.drop 8).take 4) = v)
    (hv1 : FT_LAYOUT_MIN_SUPPORTED_VERSION ≤ v) (hv2 : v ≤ FT_LAYOUT_VERSION)
    (hmin : serialize_ft_min_size p v = some m)
    (hsize : be_value ((B.drop 16).take 4) = size)
    (hs1 : m ≤ size) (hs2 : size ≤ p.BLOCK_ALLOCATOR_HEADER_RESERVE)
    (hp2 : wd.pread size off = PreadResult.read B) :
    (x1764_memory p (B.take (size - 4)) = host_value p ((B.drop (size - 4)).take 4) →
      host_value p ((B.drop 20).take 8) ≠ p.toku_byte_order_host % 2 ^ 64 →
      ∃ sr, deserialize_ft_from_fd_into_rbuf p wd off e = some sr ∧
        sr.r = p.TOKUDB_DICTIONARY_NO_HEADER ∧ sr.e = e ∧
        sr.checkpoint_count = none ∧ sr.checkpoint_lsn = none) ∧
    (x1764_memory p (B.take (size - 4)) ≠ host_value p ((B.drop (size - 4)).take 4) →
      ∃ sr, deserialize_ft_from_fd_into_rbuf p wd off e = some sr ∧
        sr.r = p.TOKUDB_DICTIONARY_NO_HEADER ∧
        sr.e = deserialize_error_code.DS_XSUM_FAIL) := by
  have hge := serialize_ft_min_size_ge p v m hmin
  have hread := slot_read_slot p wd off e B v m size hB (by omega) hp1 hmagic hver hv1 hv2
    hmin hsize hs1 hs2 hp2
  refine ⟨fun hx hprobe => ?_, fun hx => ?_⟩
  · rw [if_neg (not_not.mpr hx), if_pos hprobe] at hread
    exact ⟨_, hread, rfl, rfl, rfl, rfl⟩
  · rw [if_pos hx] at hread
    exact ⟨_, hread, rfl, rfl⟩

/-- The rejection of C17 on a sample slot whose probe octets are reversed and
whose checksum is valid: rejected, and the mark stays `DS_OK`. -/
theorem probe_checked_after_checksum_witness :
    ∃ sr, deserialize_ft_from_fd_into_rbuf sample_platform
        (sample_world (sample_file sample_header_swapped_probe [])) 0
        deserialize_error_code.DS_OK = some sr ∧
      sr.r = sample_platform.TOKUDB_DICTIONARY_NO_HEADER ∧
      sr.e = deserialize_error_code.DS_OK ∧
      sr.checkpoint_count = none ∧ sr.checkpoint_lsn = none :=
  (probe_checked_after_checksum sample_platform
    (sample_world (sample_file sample_header_swapped_probe [])) 0
    deserialize_error_code.DS_OK sample_header_swapped_probe 20 177 177
    rfl rfl rfl rfl (by decide) (by decide) rfl rfl (by decide) (by decide) rfl).1
    rfl (by decide)

/-! ### The checkpoint writer -/

/-- The checkpoint writer in closed form, for a header of a checkpoint in
progress without panic whose layout version is 19 or 20: the translation
table is written, then the file is synced with return code `rr`; the header
is written after that, and only if `rr` is 0. -/
theorem toku_serialize_ft_to_eq (p : Platform) (wd : World) (h : FT) (wt : wbuf) (a s : Int)
    (rr : Int) (fs : IOEvent)
    (hres : 177 ≤ p.BLOCK_ALLOCATOR_HEADER_RESERVE)
    (hpanic : h.panic = 0) (htype : h.type = ft_type.FT_CHECKPOINT_INPROGRESS)
    (hv : h.layout_version = FT_LAYOUT_VERSION_19 ∨ h.layout_version = FT_LAYOUT_VERSION_20)
    (htr : wd.toku_serialize_translation_to_wbuf_unlocked h.blocktable = (wt, a, s))
    (hsz : s = (wt.size : Int))
    (hcf : (h.cf ≠ none ∧ rr = wd.toku_cachefile_fsync ∧ fs = IOEvent.cachefile_fsync) ∨
      (h.cf = none ∧ rr = wd.toku_file_fsync ∧ fs = IOEvent.file_fsync)) :
    toku_serialize_ft_to p wd h =
      some (if rr = 0 then
          (rr, [IOEvent.pwrite { buf := wt.buf, count := s.toNat, offset := a }, fs,
                IOEvent.pwrite { buf := ft_encoded p h a s 177, count := 177,
                                 offset := if h.checkpoint_count % 2 = 1 then 0
                                   else (p.BLOCK_ALLOCATOR_HEADER_RESERVE : Int) }])
        else
          (rr, [IOEvent.pwrite { buf := wt.buf, count := s.toNat, offset := a }, fs])) := by
  subst hsz
  have t := serialize_ft_min_size_values p hres
  have hm : serialize_ft_min_size p h.layout_version = some 177 := by
    rcases hv with hv | hv
    · rw [hv]; exact t.2.2.2.2.2.2.2.1
    · rw [hv]; exact t.2.2.2.2.2.2.2.2.1
  have hsize : toku_serialize_ft_size p h.layout_version = some 177 := by
    simp only [toku_serialize_ft_size, hm, Option.bind_eq_bind, Option.some_bind, hres, if_true]
  have henc : ∀ s' : Int, toku_serialize_ft_to_wbuf p (wbuf_init 177) h a s' =
      some { buf := ft_encoded p h a s' 177, size := 177,
             checksum := ft_encoded p h a s' 177 } := by
    intro s'
    rw [toku_serialize_ft_to_wbuf_init, if_pos rfl]
  have hlen : ∀ s' : Int, (ft_encoded p h a s' 177).length = 177 :=
    fun s' => ft_encoded_length p h a s' 177
  have hpar : (h.checkpoint_count &&& 1 ≠ 0) ↔ h.checkpoint_count % 2 = 1 := by
    rw [Nat.and_one_is_mod]; omega
  have hoff : (if h.checkpoint_count &&& 1 ≠ 0 then (0 : Int)
      else (p.BLOCK_ALLOCATOR_HEADER_RESERVE : Int)) =
      (if h.checkpoint_count % 2 = 1 then 0 else (p.BLOCK_ALLOCATOR_HEADER_RESERVE : Int)) := by
    by_cases hc : h.checkpoint_count % 2 = 1
    · rw [if_pos (hpar.mpr hc), if_pos hc]
    · rw [if_neg (fun x => hc (hpar.mp x)), if_neg hc]
  unfold toku_serialize_ft_to
  simp only [hpanic, htype, htr, hsize, henc, wbuf.ndone, hlen, ne_eq, not_true_eq_false,
    if_false, hoff]
  rcases hcf with ⟨hc, hrr, hfs⟩ | ⟨hc, hrr, hfs⟩
  · cases hcf' : h.cf with
    | none => exact absurd hcf' hc
    | some x =>
      subst hrr hfs
      simp only [List.singleton_append, List.cons_append, List.nil_append]
      split <;> rfl
  · subst hrr hfs
    simp only [hc, List.singleton_append, List.cons_append, List.nil_append]
    split <;> rfl

/-- C18, as stated, fails at both parities: for the sample header with the
odd `checkpoint_count` 1 the three effects are at the offsets 512 (translation
table), none (fsync) and 0, so the header goes to slot 0; with the even
`checkpoint_count` 2 the header goes to offset 256, the slot reservation of
the sample host, which is slot 1. -/
theorem parity_picks_other_slot :
    (toku_serialize_ft_to sample_platform (sample_world []) (sample_ft_at 1 100 20)).map
      (fun res => (res.1, res.2.map IOEvent.offset)) = some (0, [some 512, none, some 0]) ∧
    (toku_serialize_ft_to sample_platform (sample_world []) (sample_ft_at 2 100 20)).map
      (fun res => (res.1, res.2.map IOEvent.offset)) = some (0, [some 512, none, some 256]) ∧
    sample_platform.BLOCK_ALLOCATOR_HEADER_RESERVE = 256 :=
  ⟨rfl, rfl, rfl⟩

/-- C18, amended: the checkpoint writer chooses the header slot by the parity
of `checkpoint_count` as `(checkpoint_count & 1) ? 0 : HEADER_RESERVE`: an odd
`checkpoint_count` writes slot 0 (offset 0) and an even `checkpoint_count`
writes slot 1 (offset `BLOCK_ALLOCATOR_HEADER_RESERVE`).  Stated for a header
of a checkpoint in progress, without panic, at layout version 19 or 20, when
the fsync returns 0. -/
theorem header_slot_by_parity (p : Platform) (wd : World) (h : FT) (wt : wbuf) (a s : Int)
    (fs : IOEvent)
    (hres : 177 ≤ p.BLOCK_ALLOCATOR_HEADER_RESERVE)
    (hpanic : h.panic = 0) (htype : h.type = ft_type.FT_CHECKPOINT_INPROGRESS)
    (hv : h.layout_version = FT_LAYOUT_VERSION_19 ∨ h.layout_version = FT_LAYOUT_VERSION_20)
    (htr : wd.toku_serialize_translation_to_wbuf_unlocked h.blocktable = (wt, a, s))
    (hsz : s = (wt.size : Int))
    (hcf : (h.cf ≠ none ∧ 0 = wd.toku_cachefile_fsync ∧ fs = IOEvent.cachefile_fsync) ∨
      (h.cf = none ∧ 0 = wd.toku_file_fsync ∧ fs = IOEvent.file_fsync)) :
    (h.checkpoint_count % 2 = 1 →
      toku_serialize_ft_to p wd h =
        some (0, [IOEvent.pwrite { buf := wt.buf, count := s.toNat, offset := a }, fs,
                  IOEvent.pwrite { buf := ft_encoded p h a s 177, count := 177,
                                   offset := 0 }])) ∧
    (h.checkpoint_count % 2 = 0 →
      toku_serialize_ft_to p wd h =
        some (0, [IOEvent.pwrite { buf := wt.buf, count := s.toNat, offset := a }, fs,
                  IOEvent.pwrite { buf := ft_encoded p h a s 177, count := 177,
                                   offset := (p.BLOCK_ALLOCATOR_HEADER_RESERVE : Int) }])) := by
  have hw := toku_serialize_ft_to_eq p wd h wt a s 0 fs hres hpanic htype hv htr hsz hcf
  rw [if_pos rfl] at hw
  refine ⟨fun hodd => ?_, fun heven => ?_⟩
  · rw [hw, if_pos hodd]
  · rw [hw, if_neg (by omega)]

/-- The choice of C18 on the sample header: count 1 goes to offset 0, count 2
to offset 256. -/
theorem header_slot_by_parity_witness :
    (toku_serialize_ft_to sample_platform (sample_world []) (sample_ft_at 1 100 20)).map
      (fun res => res.2.map IOEvent.offset) = some [some 512, none, some 0] ∧
    (toku_serialize_ft_to sample_platform (sample_world []) (sample_ft_at 2 100 20)).map
      (fun res => res.2.map IOEvent.offset) = some [some 512, none, some 256] :=
  ⟨congrArg (Option.map (fun res => res.2.map IOEvent.offset))
      ((header_slot_by_parity sample_platform (sample_world []) (sample_ft_at 1 100 20)
        { buf := List.replicate 16 0, size := 16, checksum := [] } 512 16 IOEvent.file_fsync
        (by decide) rfl rfl (Or.inr rfl) rfl rfl (Or.inr ⟨rfl, rfl, rfl⟩)).1 (by decide)),
   congrArg (Option.map (fun res => res.2.map IOEvent.offset))
      ((header_slot_by_parity sample_platform (sample_world []) (sample_ft_at 2 100 20)
        { buf := List.replicate 16 0, size := 16, checksum := [] } 512 16 IOEvent.file_fsync
        (by decide) rfl rfl (Or.inr rfl) rfl rfl (Or.inr ⟨rfl, rfl, rfl⟩)).2 (by decide))⟩

/-- C19: for every `checkpoint_count` n, the header offsets the checkpoint
writer chooses for a header with count n and for a header with count n+1 are
different, one is 0 and the other `BLOCK_ALLOCATOR_HEADER_RESERVE`; so two
successive checkpoints never write the same slot, and no header is written at
any other offset. -/
theorem header_slots_alternate (p : Platform) (wd wd' : World) (h h' : FT) (wt wt' : wbuf)
    (a s a' s' : Int) (fs fs' : IOEvent)
    (hres : 177 ≤ p.BLOCK_ALLOCATOR_HEADER_RESERVE)
    (hnext : h'.checkpoint_count = h.checkpoint_count + 1)
    (hpanic : h.panic = 0) (htype : h.type = ft_type.FT_CHECKPOINT_INPROGRESS)
    (hv : h.layout_version = FT_LAYOUT_VERSION_19 ∨ h.layout_version = FT_LAYOUT_VERSION_20)
    (htr : wd.toku_serialize_translation_to_wbuf_unlocked h.blocktable = (wt, a, s))
    (hsz : s = (wt.size : Int))
    (hcf : (h.cf ≠ none ∧ 0 = wd.toku_cachefile_fsync ∧ fs = IOEvent.cachefile_fsync) ∨
      (h.cf = none ∧ 0 = wd.toku_file_fsync ∧ fs = IOEvent.file_fsync))
    (hpanic' : h'.panic = 0) (htype' : h'.type = ft_type.FT_CHECKPOINT_INPROGRESS)
    (hv' : h'.layout_version = FT_LAYOUT_VERSION_19 ∨
      h'.layout_version = FT_LAYOUT_VERSION_20)
    (htr' : wd'.toku_serialize_translation_to_wbuf_unlocked h'.blocktable = (wt', a', s'))
    (hsz' : s' = (wt'.size : Int))
    (hcf' : (h'.cf ≠ none ∧ 0 = wd'.toku_cachefile_fsync ∧ fs' = IOEvent.cachefile_fsync) ∨
      (h'.cf = none ∧ 0 = wd'.toku_file_fsync ∧ fs' = IOEvent.file_fsync)) :
    ∃ off off' : Int,
      toku_serialize_ft_to p wd h =
        some (0, [IOEvent.pwrite { buf := wt.buf, count := s.toNat, offset := a }, fs,
                  IOEvent.pwrite { buf := ft_encoded p h a s 177, count := 177,
                                   offset := off }]) ∧
      toku_serialize_ft_to p wd' h' =
        some (0, [IOEvent.pwrite { buf := wt'.buf, count := s'.toNat, offset := a' }, fs',
                  IOEvent.pwrite { buf := ft_encoded p h' a' s' 177, count := 177,
                                   offset := off' }]) ∧
      off ≠ off' ∧
      ((off = 0 ∧ off' = (p.BLOCK_ALLOCATOR_HEADER_RESERVE : Int)) ∨
        (off = (p.BLOCK_ALLOCATOR_HEADER_RESERVE : Int) ∧ off' = 0)) := by
  have hw := toku_serialize_ft_to_eq p wd h wt a s 0 fs hres hpanic htype hv htr hsz hcf
  have hw' := toku_serialize_ft_to_eq p wd' h' wt' a' s' 0 fs' hres hpanic' htype' hv' htr'
    hsz' hcf'
  rw [if_pos rfl] at hw hw'
  have hR : (p.BLOCK_ALLOCATOR_HEADER_RESERVE : Int) ≠ 0 := by
    intro h0
    have : p.BLOCK_ALLOCATOR_HEADER_RESERVE = 0 := by exact_mod_cast h0
    omega
  by_cases hodd : h.checkpoint_count % 2 = 1
  · have heven' : ¬ (h'.checkpoint_count % 2 = 1) := by rw [hnext]; omega
    rw [if_pos hodd] at hw
    rw [if_neg heven'] at hw'
    exact ⟨0, _, hw, hw', fun e => hR e.symm, Or.inl ⟨rfl, rfl⟩⟩
  · have hodd' : h'.checkpoint_count % 2 = 1 := by rw [hnext]; omega
    rw [if_neg hodd] at hw
    rw [if_pos hodd'] at hw'
    exact ⟨_, 0, hw, hw', hR, Or.inr ⟨rfl, rfl⟩⟩

/-- The alternation of C19 on the sample header at the counts 5 and 6. -/
theorem header_slots_alternate_witness :
    ∃ off off' : Int,
      toku_serialize_ft_to sample_platform (sample_world []) (sample_ft_at 5 500 20) =
        some (0, [IOEvent.pwrite { buf := List.replicate 16 0, count := 16, offset := 512 },
                  IOEvent.file_fsync,
                  IOEvent.pwrite { buf := sample_header 5 500 20, count := 177,
                                   offset := off }]) ∧
      toku_serialize_ft_to sample_platform (sample_world []) (sample_ft_at 6 600 20) =
        some (0, [IOEvent.pwrite { buf := List.replicate 16 0, count := 16, offset := 512 },
                  IOEvent.file_fsync,
                  IOEvent.pwrite { buf := sample_header 6 600 20, count := 177,
                                   offset := off' }]) ∧
      off ≠ off' ∧
      ((off = 0 ∧ off' = 256) ∨ (off = 256 ∧ off' = 0)) :=
  header_slots_alternate sample_platform (sample_world []) (sample_world [])
    (sample_ft_at 5 500 20) (sample_ft_at 6 600 20)
    { buf := List.replicate 16 0, size := 16, checksum := [] }
    { buf := List.replicate 16 0, size := 16, checksum := [] } 512 16 512 16
    IOEvent.file_fsync IOEvent.file_fsync (by decide) rfl
    rfl rfl (Or.inr rfl) rfl rfl (Or.inr ⟨rfl, rfl, rfl⟩)
    rfl rfl (Or.inr rfl) rfl rfl (Or.inr ⟨rfl, rfl, rfl⟩)

/-- C20: in the checkpoint writer (header of a checkpoint in progress, no
panic, layout version 19 or 20) the effects are, in this order, the write of
the translation table, the fsync (of the cachefile if the header has one, of
the file otherwise), and the write of the header.  If the fsync returns a
non-zero `rr`, the two first effects are all there is, no header octet is
written, and `rr` is returned; if it returns 0, exactly one header write
follows, of the 177 octets of the encoded header at the slot chosen by the
checkpoint count, and 0 is returned. -/
theorem header_written_after_fsync (p : Platform) (wd : World) (h : FT) (wt : wbuf)
    (a s : Int) (rr : Int) (fs : IOEvent)
    (hres : 177 ≤ p.BLOCK_ALLOCATOR_HEADER_RESERVE)
    (hpanic : h.panic = 0) (htype : h.type = ft_type.FT_CHECKPOINT_INPROGRESS)
    (hv : h.layout_version = FT_LAYOUT_VERSION_19 ∨ h.layout_version = FT_LAYOUT_VERSION_20)
    (htr : wd.toku_serialize_translation_to_wbuf_unlocked h.blocktable = (wt, a, s))
    (hsz : s = (wt.size : Int))
    (hcf : (h.cf ≠ none ∧ rr = wd.toku_cachefile_fsync ∧ fs = IOEvent.cachefile_fsync) ∨
      (h.cf = none ∧ rr = wd.toku_file_fsync ∧ fs = IOEvent.file_fsync)) :
    (rr ≠ 0 →
      toku_serialize_ft_to p wd h =
        some (rr, [IOEvent.pwrite { buf := wt.buf, count := s.toNat, offset := a }, fs])) ∧
    (rr = 0 →
      toku_serialize_ft_to_wbuf p (wbuf_init 177) h a s =
        some { buf := ft_encoded p h a s 177, size := 177,
               checksum := ft_encoded p h a s 177 } ∧
      (ft_encoded p h a s 177).length = 177 ∧
      toku_serialize_ft_to p wd h =
        some (0, [IOEvent.pwrite { buf := wt.buf, count := s.toNat, offset := a }, fs,
                  IOEvent.pwrite { buf := ft_encoded p h a s 177, count := 177,
                                   offset := if h.checkpoint_count % 2 = 1 then 0
                                     else (p.BLOCK_ALLOCATOR_HEADER_RESERVE : Int) }])) := by
  have hw := toku_serialize_ft_to_eq p wd h wt a s rr fs hres hpanic htype hv htr hsz hcf
  refine ⟨fun hne => ?_, fun h0 => ?_⟩
  · rw [hw, if_neg hne]
  · subst h0
    rw [if_pos rfl] at hw
    refine ⟨?_, ft_encoded_length p h a s 177, hw⟩
    rw [toku_serialize_ft_to_wbuf_init, if_pos rfl]

/-- The ordering of C20 on the sample header: with a file fsync that fails
with code 5 only the translation table is written and 5 is returned; with one
that succeeds the header follows the fsync. -/
theorem header_written_after_fsync_witness :
    toku_serialize_ft_to sample_platform { sample_world [] with toku_file_fsync := 5 }
        (sample_ft_at 1 100 20) =
      some (5, [IOEvent.pwrite { buf := List.replicate 16 0, count := 16, offset := 512 },
                IOEvent.file_fsync]) ∧
    toku_serialize_ft_to sample_platform (sample_world []) (sample_ft_at 1 100 20) =
      some (0, [IOEvent.pwrite { buf := List.replicate 16 0, count := 16, offset := 512 },
                IOEvent.file_fsync,
                IOEvent.pwrite { buf := sample_header 1 100 20, count := 177, offset := 0 }]) :=
  ⟨(header_written_after_fsync sample_platform { sample_world [] with toku_file_fsync := 5 }
      (sample_ft_at 1 100 20) { buf := List.replicate 16 0, size := 16, checksum := [] }
      512 16 5 IOEvent.file_fsync (by decide) rfl rfl (Or.inr rfl) rfl rfl
      (Or.inr ⟨rfl, rfl, rfl⟩)).1 (by decide),
   ((header_written_after_fsync sample_platform (sample_world [])
      (sample_ft_at 1 100 20) { buf := List.replicate 16 0, size := 16, checksum := [] }
      512 16 0 IOEvent.file_fsync (by decide) rfl rfl (Or.inr rfl) rfl rfl
      (Or.inr ⟨rfl, rfl, rfl⟩)).2 rfl).2.2⟩

/-! ### The size declared in a slot prefix -/

theorem slot_read_bad_size (p : Platform) (wd : World) (off : Int) (e : deserialize_error_code)
    (pfx : List Byte) (v m size : Nat)
    (hp1 : wd.pread 20 off = PreadResult.read pfx) (hpl : pfx.length = 20)
    (hmagic : pfx.take 8 = tokudata)
    (hver : be_value ((pfx.drop 8).take 4) = v)
    (hv1 : FT_LAYOUT_MIN_SUPPORTED_VERSION ≤ v) (hv2 : v ≤ FT_LAYOUT_VERSION)
    (hmin : serialize_ft_min_size p v = some m)
    (hsize : be_value ((pfx.drop 16).take 4) = size)
    (hout : size > p.BLOCK_ALLOCATOR_HEADER_RESERVE ∨ size < m) :
    deserialize_ft_from_fd_into_rbuf p wd off e =
      some (slot_exit p.TOKUDB_DICTIONARY_NO_HEADER (some { buf := pfx, size := 20, ndone := 20 })
        (some v) e [(20, off)]) := by
  have e20 : 8 + 4 + 4 + 4 = 20 := rfl
  have c1 : ¬ (v < FT_LAYOUT_MIN_SUPPORTED_VERSION) := Nat.not_lt.mpr hv1
  have c2 : ¬ (v > FT_LAYOUT_VERSION) := Nat.not_lt.mpr hv2
  simp only [deserialize_ft_from_fd_into_rbuf, e20, hp1, hpl, rbuf_init, rbuf_literal_bytes,
    rbuf_network_int, Option.map_some', List.drop_zero,
    Nat.zero_add, Nat.reduceAdd, Nat.reduceLeDiff, hmagic, hver, hsize, hmin, c1, c2, hout,
    ne_eq, not_true_eq_false, not_false_eq_true, if_true, if_false]

theorem slot_read_in_bounds (p : Platform) (wd : World) (off : Int) (e : deserialize_error_code)
    (pfx : List Byte) (v m size : Nat)
    (hp1 : wd.pread 20 off = PreadResult.read pfx) (hpl : pfx.length = 20)
    (hmagic : pfx.take 8 = tokudata)
    (hver : be_value ((pfx.drop 8).take 4) = v)
    (hv1 : FT_LAYOUT_MIN_SUPPORTED_VERSION ≤ v) (hv2 : v ≤ FT_LAYOUT_VERSION)
    (hmin : serialize_ft_min_size p v = some m)
    (hsize : be_value ((pfx.drop 16).take 4) = size)
    (hin : ¬ (size > p.BLOCK_ALLOCATOR_HEADER_RESERVE ∨ size < m)) :
    (∀ sr, deserialize_ft_from_fd_into_rbuf p wd off e = some sr →
      sr.reads = [(20, off), (size, off)]) ∧
    (wd.pread size off ≠ PreadResult.failed 0 →
      ∃ sr, deserialize_ft_from_fd_into_rbuf p wd off e = some sr) := by
  have hge := serialize_ft_min_size_ge p v m hmin
  have e20 : 8 + 4 + 4 + 4 = 20 := rfl
  have c1 : ¬ (v < FT_LAYOUT_MIN_SUPPORTED_VERSION) := Nat.not_lt.mpr hv1
  have c2 : ¬ (v > FT_LAYOUT_VERSION) := Nat.not_lt.mpr hv2
  have d1 : 20 + 8 ≤ size := by omega
  have d2 : 28 + 8 ≤ size := by omega
  have d3 : 36 + 8 ≤ size := by omega
  have hred : deserialize_ft_from_fd_into_rbuf p wd off e =
      match wd.pread size off with
      | .failed errno =>
        if errno ≠ 0 then
          some (slot_exit errno (some { buf := [], size := size, ndone := 20 }) (some v) e
            [(20, off), (size, off)])
        else none
      | .read buf =>
        if buf.length ≠ size then
          some (slot_exit p.EINVAL (some { buf := buf, size := size, ndone := 20 }) (some v) e
            [(20, off), (size, off)])
        else if x1764_memory p (buf.take (size - 4)) ≠
            host_value p ((buf.drop (size - 4)).take 4) then
          some (slot_exit p.TOKUDB_DICTIONARY_NO_HEADER
            (some { buf := buf, size := size, ndone := 20 })
            (some v) deserialize_error_code.DS_XSUM_FAIL [(20, off), (size, off)])
        else if host_value p ((buf.drop 20).take 8) ≠ p.toku_byte_order_host % 2 ^ 64 then
          some (slot_exit p.TOKUDB_DICTIONARY_NO_HEADER
            (some { buf := buf, size := size, ndone := 28 })
            (some v) e [(20, off), (size, off)])
        else
          some { r := 0, rb := some { buf := buf, size := size, ndone := 0 },
                 checkpoint_count := some (host_value p ((buf.drop 28).take 8)),
                 checkpoint_lsn := some (host_value p ((buf.drop 36).take 8)),
                 version := some v, e := e, reads := [(20, off), (size, off)] } := by
    simp only [deserialize_ft_from_fd_into_rbuf, e20, hp1, hpl, rbuf_init, rbuf_literal_bytes,
      rbuf_network_int, rbuf_ulonglong, rbuf_lsn, Option.map_some', List.drop_zero,
      Nat.zero_add, Nat.reduceAdd, Nat.reduceLeDiff, hmagic, hver, hsize, hmin, c1, c2, hin,
      d1, d2, d3, ne_eq, not_true_eq_false, not_false_eq_true, if_true, if_false,
      List.singleton_append, List.cons_append, List.nil_append]
  rw [hred]
  cases hp : wd.pread size off with
  | failed errno =>
    refine ⟨fun sr h => ?_, fun hne => ?_⟩
    · simp only at h
      split at h
      · cases h; rfl
      · cases h
    · have : errno ≠ 0 := fun h0 => hne (by rw [h0])
      exact ⟨_, if_pos this⟩
  | read buf =>
    refine ⟨fun sr h => ?_, fun _ => ?_⟩
    · simp only at h
      repeat' (split at h)
      all_goals (cases h; rfl)
    · simp only
      repeat' split
      all_goals exact ⟨_, rfl⟩

/-! ### Panic, descriptors, slot sizes -/

/-- C21: if `h.panic` is non-zero, `toku_serialize_ft_to` returns `h.panic`
at once and issues no effect at all: no write of the translation table, no
fsync, no write of the header (the function has no other effect on the file,
and it does not assign to the header). -/
theorem panic_short_circuit (p : Platform) (wd : World) (h : FT) (hpanic : h.panic ≠ 0) :
    toku_serialize_ft_to p wd h = some (h.panic, []) := by
  unfold toku_serialize_ft_to
  rw [if_pos hpanic]

/-- The short-circuit of C21 on the sample header with the panic code 5. -/
theorem panic_short_circuit_witness :
    toku_serialize_ft_to sample_platform (sample_world []) { sample_ft with panic := 5 } =
      some (5, []) :=
  panic_short_circuit sample_platform (sample_world []) { sample_ft with panic := 5 }
    (by decide)

theorem toku_serialize_descriptor_contents_to_fd_wraps (p : Platform) (desc : DESCRIPTOR_S)
    (offset : Int) (h1 : desc.dbt.size = desc.dbt.data.length)
    (h2 : 2 ^ 32 ≤ desc.dbt.size + 8) (h3 : desc.dbt.size < 2 ^ 32) :
    toku_serialize_descriptor_contents_to_fd p desc offset = none := by
  have e1 : (toku_serialize_descriptor_size desc + 4) % 2 ^ 32 ≤ 7 := by
    simp only [toku_serialize_descriptor_size]
    omega
  have e2 : (List.take desc.dbt.size desc.dbt.data).length = desc.dbt.size := by
    rw [List.length_take, ← h1, Nat.min_self]
  obtain ⟨n, hn⟩ : ∃ n, (toku_serialize_descriptor_size desc + 4) % 2 ^ 32 = n := ⟨_, rfl⟩
  rw [hn] at e1
  have c2 : ¬ (0 + 4 + desc.dbt.size ≤ n) := by omega
  by_cases c1 : 0 + 4 ≤ n
  · simp only [toku_serialize_descriptor_contents_to_fd, hn,
      toku_serialize_descriptor_contents_to_wbuf, wbuf_bytes, wbuf_int, wbuf_literal_bytes,
      wbuf.ndone, wbuf_init, Option.bind_eq_bind, List.length_nil, host_bytes_length, c1,
      if_true, Option.some_bind, List.nil_append, e2, c2, if_false]
  · simp only [toku_serialize_descriptor_contents_to_fd, hn,
      toku_serialize_descriptor_contents_to_wbuf, wbuf_bytes, wbuf_int, wbuf_literal_bytes,
      wbuf.ndone, wbuf_init, Option.bind_eq_bind, List.length_nil, host_bytes_length, c1,
      if_false, Option.none_bind]

/-- C22, as stated, fails for a payload of `2 ^ 32 - 8` octets (a length the
32-bit `dbt.size` holds): `toku_serialize_descriptor_size` gives `2 ^ 32 - 4`,
adding the 4 octets of the checksum in 32-bit arithmetic wraps to 0, so the
writer sets up a cursor of 0 octets, overruns it with the length field and
stops the process; no octets are written.  For a payload of `2 ^ 32 - 1`
octets the size helper itself wraps, to 3. -/
theorem descriptor_size_wraps :
    (descriptor_of_zeros (2 ^ 32 - 8)).dbt.data.length =
      (descriptor_of_zeros (2 ^ 32 - 8)).dbt.size ∧
    (descriptor_of_zeros (2 ^ 32 - 8)).dbt.size < 2 ^ 32 ∧
    toku_serialize_descriptor_size (descriptor_of_zeros (2 ^ 32 - 8)) = 2 ^ 32 - 4 ∧
    (toku_serialize_descriptor_size (descriptor_of_zeros (2 ^ 32 - 8)) + 4) % 2 ^ 32 = 0 ∧
    toku_serialize_descriptor_contents_to_fd sample_platform
      (descriptor_of_zeros (2 ^ 32 - 8)) 528 = none ∧
    toku_serialize_descriptor_size (descriptor_of_zeros (2 ^ 32 - 1)) = 3 ∧
    toku_serialize_descriptor_contents_to_fd sample_platform
      (descriptor_of_zeros (2 ^ 32 - 1)) 528 = none :=
  ⟨List.length_replicate _ _, by decide, rfl, rfl,
    toku_serialize_descriptor_contents_to_fd_wraps sample_platform _ 528
      (List.length_replicate _ _).symm (by decide) (by decide),
    rfl,
    toku_serialize_descriptor_contents_to_fd_wraps sample_platform _ 528
      (List.length_replicate _ _).symm (by decide) (by decide)⟩

/-- C22, amended: for every descriptor `d` whose length field is the length
of its payload and is at most `2 ^ 32 - 9` (the empty payload included),
`toku_serialize_descriptor_contents_to_fd` issues one write whose octets are
the 32-bit length, the payload, and the 32-bit X digest of all the octets
before it, `toku_serialize_descriptor_size(d) + 4` octets in all; and
`deserialize_descriptor_from`, at the current layout version, on a file that
holds these octets at the offset and with the size the translation table
records, returns `DS_OK` with the descriptor `d` (so its size assertion
holds). -/
theorem descriptor_round_trip (p : Platform) (wd : World) (bt : BLOCK_TABLE)
    (d : DESCRIPTOR_S) (offset : Int)
    (h1 : d.dbt.size = d.dbt.data.length) (h2 : d.dbt.size + 8 < 2 ^ 32)
    (hoff : bt.descriptor_offset = offset)
    (hsize : bt.descriptor_size = ((d.dbt.size + 8 : Nat) : Int))
    (hread : wd.pread (d.dbt.size + 8) offset = PreadResult.read (descriptor_encoded p d)) :
    ∃ w : Pwrite,
      toku_serialize_descriptor_contents_to_fd p d offset = some (0, w) ∧
      w.offset = offset ∧ w.count = w.buf.length ∧
      w.buf = (host_bytes p 4 d.dbt.size ++ d.dbt.data) ++
        host_bytes p 4 (x1764_memory p (host_bytes p 4 d.dbt.size ++ d.dbt.data)) ∧
      w.buf.length = toku_serialize_descriptor_size d + 4 ∧
      deserialize_descriptor_from p wd bt FT_LAYOUT_VERSION =
        some (deserialize_error_code.DS_OK, d) := by
  have hw := toku_serialize_descriptor_contents_to_fd_eq p d offset h1 h2
  have hl := descriptor_encoded_length p d
  have hs : toku_serialize_descriptor_size d = d.dbt.size + 4 := by
    simp only [toku_serialize_descriptor_size]
    omega
  refine ⟨_, hw, rfl, ?_, rfl, ?_, ?_⟩
  · show d.dbt.size + 8 = (descriptor_encoded p d).length
    omega
  · show (descriptor_encoded p d).length = _
    omega
  · exact deserialize_descriptor_from_encoded p wd bt d FT_LAYOUT_VERSION (by decide) h1 h2
      hsize (by rw [hoff]; exact hread)

/-- The round trip of C22 on the payload `[1, 2, 3]` and on the empty payload. -/
theorem descriptor_round_trip_witness :
    (∃ w : Pwrite,
      toku_serialize_descriptor_contents_to_fd sample_platform
        { dbt := { data := [1, 2, 3], size := 3 } } 528 = some (0, w) ∧
      w.buf.length = 11 ∧
      deserialize_descriptor_from sample_platform
        (sample_world (sample_file_descriptor w.buf)) (sample_blocktable_descriptor 11)
        FT_LAYOUT_VERSION =
        some (deserialize_error_code.DS_OK, { dbt := { data := [1, 2, 3], size := 3 } })) ∧
    (∃ w : Pwrite,
      toku_serialize_descriptor_contents_to_fd sample_platform
        { dbt := { data := [], size := 0 } } 528 = some (0, w) ∧
      w.buf.length = 8 ∧
      deserialize_descriptor_from sample_platform
        (sample_world (sample_file_descriptor w.buf)) (sample_blocktable_descriptor 8)
        FT_LAYOUT_VERSION =
        some (deserialize_error_code.DS_OK, { dbt := { data := [], size := 0 } })) :=
  ⟨match descriptor_round_trip sample_platform
      (sample_world (sample_file_descriptor (descriptor_encoded sample_platform
        { dbt := { data := [1, 2, 3], size := 3 } })))
      (sample_blocktable_descriptor 11) { dbt := { data := [1, 2, 3], size := 3 } } 528
      rfl (by decide) rfl rfl rfl with
    | ⟨w, hw, _, _, hbuf, _, hd⟩ => ⟨w, hw, by rw [hbuf]; rfl, by rw [hbuf]; exact hd⟩,
   match descriptor_round_trip sample_platform
      (sample_world (sample_file_descriptor (descriptor_encoded sample_platform
        { dbt := { data := [], size := 0 } })))
      (sample_blocktable_descriptor 8) { dbt := { data := [], size := 0 } } 528
      rfl (by decide) rfl rfl rfl with
    | ⟨w, hw, _, _, hbuf, _, hd⟩ => ⟨w, hw, by rw [hbuf]; rfl, by rw [hbuf]; exact hd⟩⟩

/-- C27 fails on the code at layout version 12.  The 15 octets of
`sample_descriptor_13` (4-octet version, length 3, payload, valid digest) are
read back at version 13 with `DS_OK` and the payload `[1, 2, 3]`; at version 12
`deserialize_descriptor_from_rbuf` skips the version prefix just the same, but
`deserialize_descriptor_size` counts the prefix for version 13 only, so the
assertion `deserialize_descriptor_size(desc, 12) + 4 == size` compares 11 with
15 and stops the process. -/
theorem descriptor_size_assertion_at_12 :
    sample_descriptor_13.length = 15 ∧
    deserialize_descriptor_from sample_platform
      (sample_world (sample_file_descriptor sample_descriptor_13))
      (sample_blocktable_descriptor 15) 13 =
      some (deserialize_error_code.DS_OK, { dbt := { data := [1, 2, 3], size := 3 } }) ∧
    (deserialize_descriptor_from_rbuf sample_platform
      { buf := sample_descriptor_13, size := 15, ndone := 0 } 12).map (fun x => x.1) =
      some { dbt := { data := [1, 2, 3], size := 3 } } ∧
    deserialize_descriptor_size { dbt := { data := [1, 2, 3], size := 3 } } 12 + 4 = 11 ∧
    deserialize_descriptor_size { dbt := { data := [1, 2, 3], size := 3 } } 13 + 4 = 15 ∧
    deserialize_descriptor_from sample_platform
      (sample_world (sample_file_descriptor sample_descriptor_13))
      (sample_blocktable_descriptor 15) 12 = none :=
  ⟨rfl, rfl, rfl, rfl, rfl, rfl⟩

/-- C23: for a slot whose 20-octet prefix has the magic and a supported
version `v`, the slot reader rejects the slot with
`TOKUDB_DICTIONARY_NO_HEADER` after the prefix read alone (no read of the
slot itself) if and only if the declared size is greater than
`BLOCK_ALLOCATOR_HEADER_RESERVE` or less than `serialize_ft_min_size(v)`; for
a declared size within the bounds it issues the second read with exactly the
declared number of octets, and it returns unless that read fails with an
`errno` of 0. -/
theorem slot_size_bounds (p : Platform) (wd : World) (off : Int) (e : deserialize_error_code)
    (pfx : List Byte) (v m size : Nat)
    (hp1 : wd.pread 20 off = PreadResult.read pfx) (hpl : pfx.length = 20)
    (hmagic : pfx.take 8 = tokudata)
    (hver : be_value ((pfx.drop 8).take 4) = v)
    (hv1 : FT_LAYOUT_MIN_SUPPORTED_VERSION ≤ v) (hv2 : v ≤ FT_LAYOUT_VERSION)
    (hmin : serialize_ft_min_size p v = some m)
    (hsize : be_value ((pfx.drop 16).take 4) = size) :
    ((∃ sr, deserialize_ft_from_fd_into_rbuf p wd off e = some sr ∧
        sr.r = p.TOKUDB_DICTIONARY_NO_HEADER ∧ sr.reads = [(20, off)]) ↔
      (size > p.BLOCK_ALLOCATOR_HEADER_RESERVE ∨ size < m)) ∧
    (¬ (size > p.BLOCK_ALLOCATOR_HEADER_RESERVE ∨ size < m) →
      (∀ sr, deserialize_ft_from_fd_into_rbuf p wd off e = some sr →
        sr.reads = [(20, off), (size, off)]) ∧
      (wd.pread size off ≠ PreadResult.failed 0 →
        ∃ sr, deserialize_ft_from_fd_into_rbuf p wd off e = some sr)) := by
  refine ⟨⟨fun hrej => ?_, fun hout => ?_⟩, fun hin => ?_⟩
  · by_contra hin
    obtain ⟨sr, hsr, _, hreads⟩ := hrej
    have h2 := (slot_read_in_bounds p wd off e pfx v m size hp1 hpl hmagic hver hv1 hv2 hmin
      hsize hin).1 sr hsr
    rw [hreads] at h2
    cases h2
  · exact ⟨_, slot_read_bad_size p wd off e pfx v m size hp1 hpl hmagic hver hv1 hv2 hmin
      hsize hout, rfl, rfl⟩
  · exact slot_read_in_bounds p wd off e pfx v m size hp1 hpl hmagic hver hv1 hv2 hmin
      hsize hin

/-- The bounds of C23 on two sample slots of version 20: a prefix that
declares 176 octets (one less than the minimum) is rejected after the prefix
read, and the encoding of the sample header, which declares 177, is read with
177 octets. -/
theorem slot_size_bounds_witness :
    (∃ sr, deserialize_ft_from_fd_into_rbuf sample_platform
        (sample_world (sample_file ((sample_header 1 100 20).set 19 176) [])) 0
        deserialize_error_code.DS_OK = some sr ∧
      sr.r = sample_platform.TOKUDB_DICTIONARY_NO_HEADER ∧ sr.reads = [(20, 0)]) ∧
    (∀ sr, deserialize_ft_from_fd_into_rbuf sample_platform
        (sample_world (sample_file (sample_header 1 100 20) [])) 0
        deserialize_error_code.DS_OK = some sr → sr.reads = [(20, 0), (177, 0)]) :=
  ⟨(slot_size_bounds sample_platform
      (sample_world (sample_file ((sample_header 1 100 20).set 19 176) [])) 0
      deserialize_error_code.DS_OK (((sample_header 1 100 20).set 19 176).take 20) 20 177 176
      rfl rfl rfl rfl (by decide) (by decide) rfl rfl).1.2 (Or.inr (by decide)),
   ((slot_size_bounds sample_platform
      (sample_world (sample_file (sample_header 1 100 20) [])) 0
      deserialize_error_code.DS_OK ((sample_header 1 100 20).take 20) 20 177 177
      rfl rfl rfl rfl (by decide) (by decide) rfl rfl).2 (by decide)).1⟩

/-! ### Inverting the reads of the decoder -/

theorem rbuf_literal_bytes_some (r r' : rbuf) (n : Nat) (x : List Byte) :
    rbuf_literal_bytes r n = some (x, r') ↔
      (r.ndone + n ≤ r.size ∧ (r.buf.drop r.ndone).take n = x ∧
        { r with ndone := r.ndone + n } = r') := by
  unfold rbuf_literal_bytes
  split
  · simp only [Option.some.injEq, Prod.mk.injEq, true_and, *]
  · simp only [false_and, iff_false, reduceCtorEq, not_false_eq_true, *]

theorem rbuf_network_int_some (r r' : rbuf) (x : Nat) :
    rbuf_network_int r = some (x, r') ↔
      (r.ndone + 4 ≤ r.size ∧ be_value ((r.buf.drop r.ndone).take 4) = x ∧
        { r with ndone := r.ndone + 4 } = r') := by
  unfold rbuf_network_int rbuf_literal_bytes
  split
  · simp only [Option.map_some', Option.some.injEq, Prod.mk.injEq, true_and, *]
  · simp only [Option.map_none', false_and, iff_false, reduceCtorEq, not_false_eq_true, *]

theorem rbuf_int_some (p : Platform) (r r' : rbuf) (x : Nat) :
    rbuf_int p r = some (x, r') ↔
      (r.ndone + 4 ≤ r.size ∧ host_value p ((r.buf.drop r.ndone).take 4) = x ∧
        { r with ndone := r.ndone + 4 } = r') := by
  unfold rbuf_int rbuf_literal_bytes
  split
  · simp only [Option.map_some', Option.some.injEq, Prod.mk.injEq, true_and, *]
  · simp only [Option.map_none', false_and, iff_false, reduceCtorEq, not_false_eq_true, *]

theorem rbuf_ulonglong_some (p : Platform) (r r' : rbuf) (x : Nat) :
    rbuf_ulonglong p r = some (x, r') ↔
      (r.ndone + 8 ≤ r.size ∧ host_value p ((r.buf.drop r.ndone).take 8) = x ∧
        { r with ndone := r.ndone + 8 } = r') := by
  unfold rbuf_ulonglong rbuf_literal_bytes
  split
  · simp only [Option.map_some', Option.some.injEq, Prod.mk.injEq, true_and, *]
  · simp only [Option.map_none', false_and, iff_false, reduceCtorEq, not_false_eq_true, *]

theorem rbuf_diskoff_some (p : Platform) (r r' : rbuf) (x : Int) :
    rbuf_diskoff p r = some (x, r') ↔
      (r.ndone + 8 ≤ r.size ∧ to_int64 (host_value p ((r.buf.drop r.ndone).take 8)) = x ∧
        { r with ndone := r.ndone + 8 } = r') := by
  unfold rbuf_diskoff rbuf_ulonglong rbuf_literal_bytes
  split
  · simp only [Option.map_some', Option.some.injEq, Prod.mk.injEq, true_and, *]
  · simp only [Option.map_none', false_and, iff_false, reduceCtorEq, not_false_eq_true, *]

theorem rbuf_char_some (r r' : rbuf) (x : Nat) :
    rbuf_char r = some (x, r') ↔
      (r.ndone + 1 ≤ r.size ∧ be_value ((r.buf.drop r.ndone).take 1) = x ∧
        { r with ndone := r.ndone + 1 } = r') := by
  unfold rbuf_char rbuf_literal_bytes
  split
  · simp only [Option.map_some', Option.some.injEq, Prod.mk.injEq, true_and, *]
  · simp only [Option.map_none', false_and, iff_false, reduceCtorEq, not_false_eq_true, *]

theorem counters_step (p : Platform) (v : Nat) (rb rb' : rbuf)
    (h : (if v ≤ FT_LAYOUT_VERSION_18 then
            match rbuf_ulonglong p rb with
            | none => none
            | some (_, rb) =>
            if v ≥ FT_LAYOUT_VERSION_15 then (rbuf_ulonglong p rb).map (fun x => x.2)
            else some rb
          else some rb) = some rb') :
    rb'.buf = rb.buf ∧ rb'.size = rb.size ∧
      rb'.ndone = rb.ndone +
        (if v ≤ FT_LAYOUT_VERSION_18 then 8 + (if FT_LAYOUT_VERSION_15 ≤ v then 8 else 0)
         else 0) := by
  by_cases c18 : v ≤ FT_LAYOUT_VERSION_18
  · rw [if_pos c18] at h
    rw [if_pos c18]
    split at h
    · exact Option.noConfusion h
    · rename_i x1 r1 h1
      obtain ⟨_, _, rfl⟩ := (rbuf_ulonglong_some p _ _ _).mp h1
      by_cases c15 : v ≥ FT_LAYOUT_VERSION_15
      · rw [if_pos c15] at h
        rw [if_pos c15]
        obtain ⟨⟨x2, r2⟩, h2, h3⟩ := Option.map_eq_some'.mp h
        obtain ⟨_, _, rfl⟩ := (rbuf_ulonglong_some p _ _ _).mp h2
        cases h3
        exact ⟨rfl, rfl, by show rb.ndone + 8 + 8 = _; omega⟩
      · rw [if_neg c15] at h
        rw [if_neg c15]
        cases h
        exact ⟨rfl, rfl, rfl⟩
  · rw [if_neg c18] at h
    rw [if_neg c18]
    cases h
    exact ⟨rfl, rfl, rfl⟩

/-! ### The version-dependent fields, block by block -/

theorem fields_xid_step (p : Platform) (h h' : FT) (rb rb' : rbuf)
    (hx : (if h.layout_version_read_from_disk ≥ FT_LAYOUT_VERSION_14 then
             (rbuf_TXNID p rb).map (fun x => ({ h with root_xid_that_created := x.1 }, x.2))
           else some ({ h with root_xid_that_created := h.checkpoint_lsn }, rb)) =
          some (h', rb')) :
    h'.layout_version_read_from_disk = h.layout_version_read_from_disk ∧
    h'.flags = h.flags ∧ rb'.buf = rb.buf ∧ rb'.size = rb.size ∧
    rb'.ndone = rb.ndone +
      (if FT_LAYOUT_VERSION_14 ≤ h.layout_version_read_from_disk then 8 else 0) := by
  by_cases c : h.layout_version_read_from_disk ≥ FT_LAYOUT_VERSION_14
  · rw [if_pos c] at hx
    rw [if_pos c]
    obtain ⟨⟨x, r⟩, h1, h2⟩ := Option.map_eq_some'.mp hx
    obtain ⟨_, _, rfl⟩ := (rbuf_ulonglong_some p _ _ _).mp h1
    cases h2
    exact ⟨rfl, rfl, rfl, rfl, rfl⟩
  · rw [if_neg c] at hx
    rw [if_neg c]
    cases hx
    exact ⟨rfl, rfl, rfl, rfl, rfl⟩

theorem fields_basement_step (p : Platform) (h h' : FT) (rb rb' : rbuf)
    (hx : (if h.layout_version_read_from_disk ≥ FT_LAYOUT_VERSION_15 then
             match rbuf_int p rb with
             | none => none
             | some (basementnodesize, rb) =>
             match rbuf_ulonglong p rb with
             | none => none
             | some (time_of_last_verification, rb) =>
             some ({ h with basementnodesize := basementnodesize,
                            time_of_last_verification := time_of_last_verification }, rb)
           else some ({ h with basementnodesize := p.FT_DEFAULT_BASEMENT_NODE_SIZE,
                               time_of_last_verification := 0 }, rb)) =
          some (h', rb')) :
    h'.layout_version_read_from_disk = h.layout_version_read_from_disk ∧
    h'.flags = h.flags ∧ rb'.buf = rb.buf ∧ rb'.size = rb.size ∧
    rb'.ndone = rb.ndone +
      (if FT_LAYOUT_VERSION_15 ≤ h.layout_version_read_from_disk then 12 else 0) := by
  by_cases c : h.layout_version_read_from_disk ≥ FT_LAYOUT_VERSION_15
  · rw [if_pos c] at hx
    rw [if_pos c]
    repeat' (split at hx)
    all_goals first
      | exact Option.noConfusion hx
      | (simp only [rbuf_int_some, rbuf_ulonglong_some] at *
         casesm* _ ∧ _
         subst_vars
         cases hx
         exact ⟨rfl, rfl, rfl, rfl, by show rb.ndone + 4 + 8 = _; omega⟩)
  · rw [if_neg c] at hx
    rw [if_neg c]
    cases hx
    exact ⟨rfl, rfl, rfl, rfl, rfl⟩

theorem fields_stats_step (p : Platform) (wd : World) (h : FT) (rb : rbuf)
    (y : DeserializeResult ⊕ (FT × rbuf))
    (hx : (if h.layout_version_read_from_disk ≥ FT_LAYOUT_VERSION_18 then
             match rbuf_ulonglong p rb with
             | none => none
             | some (numrows, rb) =>
             match rbuf_ulonglong p rb with
             | none => none
             | some (numbytes, rb) =>
             match rbuf_ulonglong p rb with
             | none => none
             | some (time_of_last_optimize_begin, rb) =>
             match rbuf_ulonglong p rb with
             | none => none
             | some (time_of_last_optimize_end, rb) =>
             match rbuf_int p rb with
             | none => none
             | some (count_of_optimize_in_progress, rb) =>
             match rbuf_msn p rb with
             | none => none
             | some (msn_at_start_of_last_completed_optimize, rb) =>
             some (Sum.inr ({ h with
               on_disk_stats := { numrows := numrows, numbytes := numbytes },
               in_memory_stats := { numrows := numrows, numbytes := numbytes },
               time_of_last_optimize_begin := time_of_last_optimize_begin,
               time_of_last_optimize_end := time_of_last_optimize_end,
               count_of_optimize_in_progress := count_of_optimize_in_progress,
               count_of_optimize_in_progress_read_from_disk := count_of_optimize_in_progress,
               msn_at_start_of_last_completed_optimize :=
                 msn_at_start_of_last_completed_optimize }, rb))
           else
             let (e, stats) := wd.toku_upgrade_subtree_estimates_to_stat64info h
             if e ≠ deserialize_error_code.DS_OK then
               some (Sum.inl (deserialize_ft_versioned_exit e none))
             else
               some (Sum.inr ({ h with
                 on_disk_stats := stats,
                 in_memory_stats := stats,
                 time_of_last_optimize_begin := 0,
                 time_of_last_optimize_end := 0,
                 count_of_optimize_in_progress := 0,
                 count_of_optimize_in_progress_read_from_disk := 0,
                 msn_at_start_of_last_completed_optimize := p.ZERO_MSN }, rb))) =
          some y) :
    (∃ r, y = Sum.inl r ∧ r.ft = none ∧ r.e ≠ deserialize_error_code.DS_OK ∧ r.errno = none ∧
      (wd.toku_upgrade_subtree_estimates_to_stat64info h).1 ≠ deserialize_error_code.DS_OK) ∨
    (∃ h' rb', y = Sum.inr (h', rb') ∧
      h'.layout_version_read_from_disk = h.layout_version_read_from_disk ∧
      h'.flags = h.flags ∧ rb'.buf = rb.buf ∧ rb'.size = rb.size ∧
      rb'.ndone = rb.ndone +
        (if FT_LAYOUT_VERSION_18 ≤ h.layout_version_read_from_disk then 44 else 0)) := by
  by_cases c : h.layout_version_read_from_disk ≥ FT_LAYOUT_VERSION_18
  · rw [if_pos c] at hx
    rw [if_pos c]
    repeat' (split at hx)
    all_goals first
      | exact Option.noConfusion hx
      | (simp only [rbuf_msn, rbuf_int_some, rbuf_ulonglong_some] at *
         casesm* _ ∧ _
         subst_vars
         cases hx
         exact Or.inr ⟨_, _, rfl, rfl, rfl, rfl, rfl,
           by show rb.ndone + 8 + 8 + 8 + 8 + 4 + 8 = _; omega⟩)
  · rw [if_neg c] at hx
    rw [if_neg c]
    simp only at hx
    split at hx
    · rename_i he
      cases hx
      exact Or.inl ⟨_, rfl, rfl, he, rfl, he⟩
    · cases hx
      exact Or.inr ⟨_, _, rfl, rfl, rfl, rfl, rfl, rfl⟩

theorem fields_compression_step (p : Platform) (h : FT) (rb : rbuf)
    (y : DeserializeResult ⊕ (FT × rbuf))
    (hx : (if h.layout_version_read_from_disk ≥ FT_LAYOUT_VERSION_19 then
             match rbuf_char rb with
             | none => none
             | some (method, rb) =>
             match rbuf_msn p rb with
             | none => none
             | some (highest_unused_msn_for_upgrade, rb) =>
             some (Sum.inr ({ h with compression_method := method,
                                     highest_unused_msn_for_upgrade :=
                                       highest_unused_msn_for_upgrade }, rb))
           else
             let method := if h.layout_version_read_from_disk < FT_LAYOUT_VERSION_18
               then p.TOKU_ZLIB_METHOD else p.TOKU_QUICKLZ_METHOD
             some (Sum.inr ({ h with compression_method := method,
                                     highest_unused_msn_for_upgrade :=
                                       (p.MIN_MSN + (2 ^ 64 - 1)) % 2 ^ 64 },
                            rb))) =
          some y) :
    ∃ h' rb', y = Sum.inr (h', rb') ∧
      h'.layout_version_read_from_disk = h.layout_version_read_from_disk ∧
      h'.flags = h.flags ∧ rb'.buf = rb.buf ∧ rb'.size = rb.size ∧
      (FT_LAYOUT_VERSION_19 ≤ h.layout_version_read_from_disk →
        rb'.ndone = rb.ndone + 9 ∧
        h'.compression_method = be_value ((rb.buf.drop rb.ndone).take 1) ∧
        h'.highest_unused_msn_for_upgrade =
          host_value p ((rb.buf.drop (rb.ndone + 1)).take 8)) ∧
      (h.layout_version_read_from_disk < FT_LAYOUT_VERSION_19 →
        rb'.ndone = rb.ndone ∧
        h'.compression_method =
          (if h.layout_version_read_from_disk < FT_LAYOUT_VERSION_18
            then p.TOKU_ZLIB_METHOD else p.TOKU_QUICKLZ_METHOD) ∧
        h'.highest_unused_msn_for_upgrade = (p.MIN_MSN + (2 ^ 64 - 1)) % 2 ^ 64) := by
  by_cases c : h.layout_version_read_from_disk ≥ FT_LAYOUT_VERSION_19
  · rw [if_pos c] at hx
    repeat' (split at hx)
    all_goals first
      | exact Option.noConfusion hx
      | (simp only [rbuf_msn, rbuf_char_some, rbuf_ulonglong_some] at *
         casesm* _ ∧ _
         subst_vars
         cases hx
         exact ⟨_, _, rfl, rfl, rfl, rfl, rfl, fun _ => ⟨rfl, rfl, rfl⟩,
           fun c' => absurd c (Nat.not_le.mpr c')⟩)
  · rw [if_neg c] at hx
    cases hx
    exact ⟨_, _, rfl, rfl, rfl, rfl, rfl, fun c' => absurd c' c, fun _ => ⟨rfl, rfl, rfl⟩⟩

theorem deserialize_ft_versioned_fields_cases (p : Platform) (wd : World) (h : FT) (rb : rbuf)
    (y : DeserializeResult ⊕ (FT × rbuf))
    (hx : deserialize_ft_versioned_fields p wd h rb = some y) :
    (∃ r, y = Sum.inl r ∧ r.ft = none ∧ r.e ≠ deserialize_error_code.DS_OK ∧ r.errno = none ∧
      ∃ h0, (wd.toku_upgrade_subtree_estimates_to_stat64info h0).1 ≠
        deserialize_error_code.DS_OK) ∨
    (∃ h' rb', y = Sum.inr (h', rb') ∧
      h'.layout_version_read_from_disk = h.layout_version_read_from_disk ∧
      h'.flags = h.flags ∧ rb'.buf = rb.buf ∧ rb'.size = rb.size ∧
      (FT_LAYOUT_VERSION_19 ≤ h.layout_version_read_from_disk →
        rb'.ndone = rb.ndone + 73 ∧
        h'.compression_method = be_value ((rb.buf.drop (rb.ndone + 64)).take 1) ∧
        h'.highest_unused_msn_for_upgrade =
          host_value p ((rb.buf.drop (rb.ndone + 65)).take 8)) ∧
      (h.layout_version_read_from_disk < FT_LAYOUT_VERSION_19 →
        rb'.ndone = rb.ndone +
          (if FT_LAYOUT_VERSION_14 ≤ h.layout_version_read_from_disk then 8 else 0) +
          (if FT_LAYOUT_VERSION_15 ≤ h.layout_version_read_from_disk then 12 else 0) +
          (if FT_LAYOUT_VERSION_18 ≤ h.layout_version_read_from_disk then 44 else 0) ∧
        h'.compression_method =
          (if h.layout_version_read_from_disk < FT_LAYOUT_VERSION_18
            then p.TOKU_ZLIB_METHOD else p.TOKU_QUICKLZ_METHOD) ∧
        h'.highest_unused_msn_for_upgrade = (p.MIN_MSN + (2 ^ 64 - 1)) % 2 ^ 64)) := by
  unfold deserialize_ft_versioned_fields at hx
  split at hx
  · exact Option.noConfusion hx
  rename_i _ h1 rb1 e1
  obtain ⟨v1, _, b1, s1, n1⟩ := fields_xid_step p h h1 rb rb1 e1
  split at hx
  · exact Option.noConfusion hx
  rename_i _ h2 rb2 e2
  obtain ⟨v2, _, b2, s2, n2⟩ := fields_basement_step p h1 h2 rb1 rb2 e2
  split at hx
  · exact Option.noConfusion hx
  · rename_i _ r e3
    cases hx
    rcases fields_stats_step p wd h2 rb2 _ e3 with ⟨r', hr, a1, a2, a3, a4⟩ | ⟨_, _, hr, _⟩
    · cases hr
      exact Or.inl ⟨_, rfl, a1, a2, a3, _, a4⟩
    · cases hr
  · rename_i _ h3 rb3 e3
    rcases fields_stats_step p wd h2 rb2 _ e3 with ⟨_, hr, _⟩ | ⟨h3', rb3', hr, v3, f3, b3, s3, n3⟩
    · cases hr
    cases hr
    obtain ⟨h4, rb4, hy, v4, f4, b4, s4, hi, lo⟩ := fields_compression_step p h3 rb3 y hx
    refine Or.inr ⟨h4, rb4, hy, ?_, ?_, ?_, ?_, ?_, ?_⟩
    · rw [v4, v3, v2, v1]
    · rw [f4, f3]; simp only [*]
    · rw [b4, b3, b2, b1]
    · rw [s4, s3, s2, s1]
    · intro c
      have c' : FT_LAYOUT_VERSION_19 ≤ h3.layout_version_read_from_disk := by
        rw [v3, v2, v1]; exact c
      obtain ⟨k1, k2, k3⟩ := hi c'
      have c14 : FT_LAYOUT_VERSION_14 ≤ h.layout_version_read_from_disk :=
        Nat.le_trans (by decide) c
      have c15 : FT_LAYOUT_VERSION_15 ≤ h1.layout_version_read_from_disk := by
        rw [v1]; exact Nat.le_trans (by decide) c
      have c18 : FT_LAYOUT_VERSION_18 ≤ h2.layout_version_read_from_disk := by
        rw [v2, v1]; exact Nat.le_trans (by decide) c
      rw [if_pos c14] at n1
      rw [if_pos c15] at n2
      rw [if_pos c18] at n3
      have e64 : rb3.ndone = rb.ndone + 64 := by omega
      have e65 : rb3.ndone + 1 = rb.ndone + 65 := by omega
      rw [e65] at k3
      rw [e64] at k2
      rw [b3, b2, b1] at k2 k3
      exact ⟨by omega, k2, k3⟩
    · intro c
      have c' : h3.layout_version_read_from_disk < FT_LAYOUT_VERSION_19 := by
        rw [v3, v2, v1]; exact c
      obtain ⟨k1, k2, k3⟩ := lo c'
      rw [v3, v2, v1] at k2
      rw [v1] at n2
      rw [v2, v1] at n3
      exact ⟨by omega, k2, k3⟩

theorem ite_none_some {α : Type} {c : Prop} [Decidable c] {k : Option α} {r : α}
    (h : (if c then none else k) = some r) : ¬ c ∧ k = some r := by
  by_cases hc : c
  · rw [if_pos hc] at h; exact Option.noConfusion h
  · rw [if_neg hc] at h; exact ⟨hc, h⟩

theorem ite_some_cases {α : Type} {c : Prop} [Decidable c] {a : α} {k : Option α} {r : α}
    (h : (if c then some a else k) = some r) : (c ∧ a = r) ∨ (¬ c ∧ k = some r) := by
  by_cases hc : c
  · rw [if_pos hc] at h; exact Or.inl ⟨hc, Option.some.inj h⟩
  · rw [if_neg hc] at h; exact Or.inr ⟨hc, h⟩

theorem deserialize_ft_versioned_finish_cases (p : Platform) (wd : World) (h : FT) (rb : rbuf)
    (version : Nat) (res : DeserializeResult)
    (hx : deserialize_ft_versioned_finish p wd h rb version = some res) :
    rb.ndone + 4 ≤ rb.size ∧
    ((rb.ndone + 4 ≠ rb.size ∧
        res = deserialize_ft_versioned_exit deserialize_error_code.DS_ERRNO (some p.EINVAL)) ∨
     (rb.ndone + 4 = rb.size ∧ res.ft = none ∧ res.e ≠ deserialize_error_code.DS_OK) ∨
     (rb.ndone + 4 = rb.size ∧ res.e = deserialize_error_code.DS_OK ∧
        ∃ h', res.ft = some h' ∧
          h'.layout_version_read_from_disk = h.layout_version_read_from_disk ∧
          h'.flags = h.flags ∧ h'.compression_method = h.compression_method ∧
          h'.highest_unused_msn_for_upgrade = h.highest_unused_msn_for_upgrade)) := by
  unfold deserialize_ft_versioned_finish at hx
  rcases e1 : rbuf_int p rb with _ | ⟨x, rb1⟩
  · simp only [e1, reduceCtorEq] at hx
  simp only [e1] at hx
  obtain ⟨b, -, rfl⟩ := (rbuf_int_some p rb rb1 x).mp e1
  refine ⟨b, ?_⟩
  replace hx := ite_some_cases hx
  rcases hx with ⟨c, hr⟩ | ⟨c, hx⟩
  · exact Or.inl ⟨c, hr.symm⟩
  have c' : rb.ndone + 4 = rb.size := not_not.mp c
  refine Or.inr ?_
  repeat' (split at hx)
  all_goals first
    | exact Option.noConfusion hx
    | (cases hx
       first
         | exact Or.inl ⟨c', rfl, by assumption⟩
         | exact Or.inl ⟨c', rfl, (by intro hh; cases hh)⟩
         | exact Or.inr ⟨c', rfl, _, rfl, rfl, rfl, rfl, rfl⟩)

theorem deserialize_ft_versioned_finish_trailing (p : Platform) (wd : World) (h : FT)
    (rb rb' : rbuf) (version x : Nat) (hread : rbuf_int p rb = some (x, rb'))
    (hne : rb'.ndone ≠ rb'.size) :
    deserialize_ft_versioned_finish p wd h rb version =
      some { e := deserialize_error_code.DS_ERRNO, ft := none, errno := some p.EINVAL } := by
  unfold deserialize_ft_versioned_finish
  simp only [hread]
  rw [if_pos hne]
  rfl

set_option maxHeartbeats 4000000 in
theorem deserialize_ft_versioned_cases (p : Platform) (wd : World) (rb : rbuf) (version : Nat)
    (res : DeserializeResult) (hx : deserialize_ft_versioned p wd rb version = some res) :
    (res.ft = none ∧ res.e ≠ deserialize_error_code.DS_OK ∧ res.errno = none ∧
      (wd.calloc_fails = true ∨
       (∃ a s t, (wd.toku_blocktable_create_from_buffer a s t).1 ≠
          deserialize_error_code.DS_OK) ∨
       ∃ h0, (wd.toku_upgrade_subtree_estimates_to_stat64info h0).1 ≠
          deserialize_error_code.DS_OK)) ∨
    ∃ h0 rb0 h1 rb1,
      FT_LAYOUT_MIN_SUPPORTED_VERSION ≤ be_value ((rb.buf.drop (rb.ndone + 8)).take 4) ∧
      be_value ((rb.buf.drop (rb.ndone + 8)).take 4) ≤ FT_LAYOUT_VERSION ∧
      h0.layout_version_read_from_disk = be_value ((rb.buf.drop (rb.ndone + 8)).take 4) ∧
      h0.flags =
        (if be_value ((rb.buf.drop (rb.ndone + 8)).take 4) ≤ FT_LAYOUT_VERSION_13 then
          host_value p ((rb.buf.drop (rb.ndone + 72)).take 4) &&&
            (2 ^ 32 - 1 - p.TOKU_DB_VALCMP_BUILTIN_13 % 2 ^ 32)
         else host_value p ((rb.buf.drop (rb.ndone + 72)).take 4)) ∧
      rb0.buf = rb.buf ∧ rb0.size = rb.size ∧
      rb0.ndone = rb.ndone + (100 +
        (if be_value ((rb.buf.drop (rb.ndone + 8)).take 4) ≤ FT_LAYOUT_VERSION_18 then
          8 + (if FT_LAYOUT_VERSION_15 ≤ be_value ((rb.buf.drop (rb.ndone + 8)).take 4)
               then 8 else 0)
         else 0)) ∧
      deserialize_ft_versioned_fields p wd h0 rb0 = some (Sum.inr (h1, rb1)) ∧
      deserialize_ft_versioned_finish p wd h1 rb1 version = some res := by
  unfold deserialize_ft_versioned at hx
  simp only at hx
  replace hx := ite_none_some hx
  obtain ⟨_, hx⟩ := hx
  replace hx := ite_none_some hx
  obtain ⟨_, hx⟩ := hx
  rcases e1 : rbuf_literal_bytes rb 8 with _ | ⟨magic, rb1⟩
  · simp only [e1, reduceCtorEq] at hx
  simp only [e1] at hx
  replace hx := ite_none_some hx
  obtain ⟨_, hx⟩ := hx
  replace hx := ite_some_cases hx
  rcases hx with ⟨hc, hr⟩ | ⟨hc, hx⟩
  · subst hr
    exact Or.inl ⟨rfl, (by intro hh; cases hh), rfl, Or.inl hc⟩
  replace hx := ite_none_some hx
  obtain ⟨_, hx⟩ := hx
  rcases e2 : rbuf_network_int rb1 with _ | ⟨V, rb2⟩
  · simp only [e2, reduceCtorEq] at hx
  simp only [e2] at hx
  replace hx := ite_none_some hx
  obtain ⟨c8, hx⟩ := hx
  replace hx := ite_none_some hx
  obtain ⟨c9, hx⟩ := hx
  rcases e3 : rbuf_network_int rb2 with _ | ⟨build_id, rb3⟩
  · simp only [e3, reduceCtorEq] at hx
  simp only [e3] at hx
  rcases e4 : rbuf_network_int rb3 with _ | ⟨size, rb4⟩
  · simp only [e4, reduceCtorEq] at hx
  simp only [e4] at hx
  replace hx := ite_none_some hx
  obtain ⟨_, hx⟩ := hx
  rcases e5 : rbuf_literal_bytes rb4 8 with _ | ⟨probe, rb5⟩
  · simp only [e5, reduceCtorEq] at hx
  simp only [e5] at hx
  replace hx := ite_none_some hx
  obtain ⟨_, hx⟩ := hx
  rcases e6 : rbuf_ulonglong p rb5 with _ | ⟨cc, rb6⟩
  · simp only [e6, reduceCtorEq] at hx
  simp only [e6] at hx
  rcases e7 : rbuf_lsn p rb6 with _ | ⟨lsn, rb7⟩
  · simp only [e7, reduceCtorEq] at hx
  simp only [e7] at hx
  rcases e8 : rbuf_int p rb7 with _ | ⟨nodesize, rb8⟩
  · simp only [e8, reduceCtorEq] at hx
  simp only [e8] at hx
  rcases e9 : rbuf_diskoff p rb8 with _ | ⟨ta, rb9⟩
  · simp only [e9, reduceCtorEq] at hx
  simp only [e9] at hx
  rcases e10 : rbuf_diskoff p rb9 with _ | ⟨ts, rb10⟩
  · simp only [e10, reduceCtorEq] at hx
  simp only [e10] at hx
  replace hx := ite_none_some hx
  obtain ⟨_, hx⟩ := hx
  replace hx := ite_none_some hx
  obtain ⟨_, hx⟩ := hx
  rcases e11 : wd.pread ts.toNat ta with errno | tbuf
  · simp only [e11, reduceCtorEq] at hx
  simp only [e11] at hx
  replace hx := ite_none_some hx
  obtain ⟨_, hx⟩ := hx
  replace hx := ite_some_cases hx
  rcases hx with ⟨hb, hr⟩ | ⟨hb, hx⟩
  · subst hr
    exact Or.inl ⟨rfl, hb, rfl, Or.inr (Or.inl ⟨ta, ts, tbuf, hb⟩)⟩
  rcases e12 : rbuf_blocknum p rb10 with _ | ⟨root, rb11⟩
  · simp only [e12, reduceCtorEq] at hx
  simp only [e12] at hx
  rcases e13 : rbuf_int p rb11 with _ | ⟨flags, rb12⟩
  · simp only [e13, reduceCtorEq] at hx
  simp only [e13] at hx
  rcases e14 : rbuf_int p rb12 with _ | ⟨lvo, rb13⟩
  · simp only [e14, reduceCtorEq] at hx
  simp only [e14] at hx
  rcases e15 : rbuf_int p rb13 with _ | ⟨bio, rb14⟩
  · simp only [e15, reduceCtorEq] at hx
  simp only [e15] at hx
  rcases e16 : rbuf_ulonglong p rb14 with _ | ⟨toc, rb15⟩
  · simp only [e16, reduceCtorEq] at hx
  simp only [e16] at hx
  rcases e17 : rbuf_ulonglong p rb15 with _ | ⟨tolm, rb16⟩
  · simp only [e17, reduceCtorEq] at hx
  simp only [e17] at hx
  split at hx
  · exact Option.noConfusion hx
  rename_i _ rb17 e18
  obtain ⟨b17, s17, n17⟩ := counters_step p V rb16 rb17 e18
  split at hx
  · exact Option.noConfusion hx
  · rename_i _ r e19
    cases hx
    rcases deserialize_ft_versioned_fields_cases p wd _ rb17 _ e19 with
      ⟨r', hr, a1, a2, a3, a4⟩ | ⟨_, _, hr, _⟩
    · cases hr
      exact Or.inl ⟨a1, a2, a3, Or.inr (Or.inr a4)⟩
    · cases hr
  rename_i _ h1 rb18 e19
  simp only [rbuf_lsn, rbuf_blocknum, rbuf_literal_bytes_some, rbuf_network_int_some,
    rbuf_int_some, rbuf_ulonglong_some,
    rbuf_diskoff_some] at e1 e2 e3 e4 e5 e6 e7 e8 e9 e10 e12 e13 e14 e15 e16 e17
  obtain ⟨_, rfl, rfl⟩ := e1
  obtain ⟨_, rfl, rfl⟩ := e2
  obtain ⟨_, rfl, rfl⟩ := e3
  obtain ⟨_, rfl, rfl⟩ := e4
  obtain ⟨_, rfl, rfl⟩ := e5
  obtain ⟨_, rfl, rfl⟩ := e6
  obtain ⟨_, rfl, rfl⟩ := e7
  obtain ⟨_, rfl, rfl⟩ := e8
  obtain ⟨_, rfl, rfl⟩ := e9
  obtain ⟨_, rfl, rfl⟩ := e10
  obtain ⟨_, rfl, rfl⟩ := e12
  obtain ⟨_, rfl, rfl⟩ := e13
  obtain ⟨_, rfl, rfl⟩ := e14
  obtain ⟨_, rfl, rfl⟩ := e15
  obtain ⟨_, rfl, rfl⟩ := e16
  obtain ⟨_, rfl, rfl⟩ := e17
  simp only [Nat.add_assoc, Nat.reduceAdd] at n17 e19
  exact Or.inr ⟨_, rb17, h1, rb18, not_not.mp c8, not_not.mp c9, rfl, rfl, b17, s17, n17,
    e19, hx⟩

theorem ft_octets_read_lt_19 (v : Nat) (h : v < FT_LAYOUT_VERSION_19) :
    ft_octets_read v =
      100 +
        (if v ≤ FT_LAYOUT_VERSION_18 then 8 + (if FT_LAYOUT_VERSION_15 ≤ v then 8 else 0)
         else 0) +
        (if FT_LAYOUT_VERSION_14 ≤ v then 8 else 0) +
        (if FT_LAYOUT_VERSION_15 ≤ v then 12 else 0) +
        (if FT_LAYOUT_VERSION_18 ≤ v then 44 else 0) + 4 := by
  unfold ft_octets_read
  rw [if_neg (Nat.not_le.mpr h)]

theorem deserialize_ft_versioned_reads (p : Platform) (wd : World) (rb : rbuf) (version : Nat)
    (res : DeserializeResult) (hx : deserialize_ft_versioned p wd rb version = some res) :
    (res.ft = none ∧ res.e ≠ deserialize_error_code.DS_OK ∧ res.errno = none ∧
      (wd.calloc_fails = true ∨
       (∃ a s t, (wd.toku_blocktable_create_from_buffer a s t).1 ≠
          deserialize_error_code.DS_OK) ∨
       ∃ h0, (wd.toku_upgrade_subtree_estimates_to_stat64info h0).1 ≠
          deserialize_error_code.DS_OK)) ∨
    ∃ h1 rb1,
      h1.layout_version_read_from_disk = be_value ((rb.buf.drop (rb.ndone + 8)).take 4) ∧
      h1.flags =
        (if be_value ((rb.buf.drop (rb.ndone + 8)).take 4) ≤ FT_LAYOUT_VERSION_13 then
          host_value p ((rb.buf.drop (rb.ndone + 72)).take 4) &&&
            (2 ^ 32 - 1 - p.TOKU_DB_VALCMP_BUILTIN_13 % 2 ^ 32)
         else host_value p ((rb.buf.drop (rb.ndone + 72)).take 4)) ∧
      rb1.size = rb.size ∧
      rb1.ndone + 4 = rb.ndone + ft_octets_read (be_value ((rb.buf.drop (rb.ndone + 8)).take 4)) ∧
      (FT_LAYOUT_VERSION_19 ≤ be_value ((rb.buf.drop (rb.ndone + 8)).take 4) →
        h1.compression_method = be_value ((rb.buf.drop (rb.ndone + 164)).take 1) ∧
        h1.highest_unused_msn_for_upgrade =
          host_value p ((rb.buf.drop (rb.ndone + 165)).take 8)) ∧
      (be_value ((rb.buf.drop (rb.ndone + 8)).take 4) < FT_LAYOUT_VERSION_19 →
        h1.compression_method =
          (if be_value ((rb.buf.drop (rb.ndone + 8)).take 4) < FT_LAYOUT_VERSION_18
            then p.TOKU_ZLIB_METHOD else p.TOKU_QUICKLZ_METHOD) ∧
        h1.highest_unused_msn_for_upgrade = (p.MIN_MSN + (2 ^ 64 - 1)) % 2 ^ 64) ∧
      deserialize_ft_versioned_finish p wd h1 rb1 version = some res := by
  rcases deserialize_ft_versioned_cases p wd rb version res hx with
    hearly | ⟨h0, rb0, h1, rb1, _, _, v0, f0, b0, s0, n0, hf, hfin⟩
  · exact Or.inl hearly
  rcases deserialize_ft_versioned_fields_cases p wd h0 rb0 _ hf with
    ⟨_, hr, _⟩ | ⟨h1', rb1', hr, v1, f1, b1, s1, hi, lo⟩
  · cases hr
  cases hr
  rw [v0] at hi lo v1
  refine Or.inr ⟨h1, rb1, v1, f1.trans f0, s1.trans s0, ?_, ?_, ?_, hfin⟩
  · by_cases c : FT_LAYOUT_VERSION_19 ≤ be_value ((rb.buf.drop (rb.ndone + 8)).take 4)
    · have k := (hi c).1
      have c18 : ¬ (be_value ((rb.buf.drop (rb.ndone + 8)).take 4) ≤ FT_LAYOUT_VERSION_18) :=
        Nat.not_le.mpr c
      have c14 : FT_LAYOUT_VERSION_14 ≤ be_value ((rb.buf.drop (rb.ndone + 8)).take 4) :=
        Nat.le_trans (by decide) c
      have c15 : FT_LAYOUT_VERSION_15 ≤ be_value ((rb.buf.drop (rb.ndone + 8)).take 4) :=
        Nat.le_trans (by decide) c
      have c18' : FT_LAYOUT_VERSION_18 ≤ be_value ((rb.buf.drop (rb.ndone + 8)).take 4) :=
        Nat.le_trans (by decide) c
      rw [if_neg c18] at n0
      unfold ft_octets_read
      rw [if_neg c18, if_pos c14, if_pos c15, if_pos c18', if_pos c]
      omega
    · have k := (lo (Nat.not_le.mp c)).1
      rw [ft_octets_read_lt_19 _ (Nat.not_le.mp c), k, n0]
      omega
  · intro c
    obtain ⟨k1, k2, k3⟩ := hi c
    have c18 : ¬ (be_value ((rb.buf.drop (rb.ndone + 8)).take 4) ≤ FT_LAYOUT_VERSION_18) :=
      Nat.not_le.mpr c
    rw [if_neg c18] at n0
    have e164 : rb0.ndone + 64 = rb.ndone + 164 := by omega
    have e165 : rb0.ndone + 65 = rb.ndone + 165 := by omega
    rw [b0, e164] at k2
    rw [b0, e165] at k3
    exact ⟨k2, k3⟩
  · intro c
    exact (lo c).2

/-! ### Flags, compression defaults, trailing octets -/

/-- C24: when `deserialize_ft_versioned` returns a header, its
`layout_version_read_from_disk` is the version stored in the slot (octets 8
to 11) and its flags come from the 32-bit field stored at octets 72 to 75: for
a stored version of 13 or less they are the stored flags with the bits of
`TOKU_DB_VALCMP_BUILTIN_13` cleared and every other bit of the 32 unchanged;
for a stored version of 14 or more they are the stored flags exactly, that
bit included. -/
theorem deprecated_flag_masked (p : Platform) (wd : World) (rb : rbuf) (version : Nat)
    (res : DeserializeResult) (h' : FT)
    (hres : deserialize_ft_versioned p wd rb version = some res)
    (hft : res.ft = some h') :
    h'.layout_version_read_from_disk = be_value ((rb.buf.drop (rb.ndone + 8)).take 4) ∧
    (be_value ((rb.buf.drop (rb.ndone + 8)).take 4) ≤ FT_LAYOUT_VERSION_13 →
      h'.flags = host_value p ((rb.buf.drop (rb.ndone + 72)).take 4) &&&
        (2 ^ 32 - 1 - p.TOKU_DB_VALCMP_BUILTIN_13 % 2 ^ 32) ∧
      ∀ i, h'.flags.testBit i =
        (decide (i < 32) && ((host_value p ((rb.buf.drop (rb.ndone + 72)).take 4)).testBit i &&
          !p.TOKU_DB_VALCMP_BUILTIN_13.testBit i))) ∧
    (FT_LAYOUT_VERSION_14 ≤ be_value ((rb.buf.drop (rb.ndone + 8)).take 4) →
      h'.flags = host_value p ((rb.buf.drop (rb.ndone + 72)).take 4)) := by
  rcases deserialize_ft_versioned_reads p wd rb version res hres with
    ⟨hnone, _⟩ | ⟨h1, rb1, v1, f1, _, _, _, _, hfin⟩
  · rw [hnone] at hft
    cases hft
  obtain ⟨_, hcases⟩ := deserialize_ft_versioned_finish_cases p wd h1 rb1 version res hfin
  rcases hcases with ⟨_, hr⟩ | ⟨_, hnone, _⟩ | ⟨_, _, h2, hft2, v2, f2, _, _⟩
  · rw [hr] at hft
    cases hft
  · rw [hnone] at hft
    cases hft
  rw [hft] at hft2
  cases hft2
  refine ⟨v2.trans v1, fun c => ?_, fun c => ?_⟩
  · have hf : h'.flags = host_value p ((rb.buf.drop (rb.ndone + 72)).take 4) &&&
        (2 ^ 32 - 1 - p.TOKU_DB_VALCMP_BUILTIN_13 % 2 ^ 32) := by
      rw [f2, f1, if_pos c]
    refine ⟨hf, fun i => ?_⟩
    have ht : p.TOKU_DB_VALCMP_BUILTIN_13 % 2 ^ 32 < 2 ^ 32 := Nat.mod_lt _ (by decide)
    have hm : 2 ^ 32 - 1 - p.TOKU_DB_VALCMP_BUILTIN_13 % 2 ^ 32 =
        2 ^ 32 - (p.TOKU_DB_VALCMP_BUILTIN_13 % 2 ^ 32 + 1) := by omega
    rw [hf, hm, Nat.testBit_and, Nat.testBit_two_pow_sub_succ ht, Nat.testBit_mod_two_pow]
    cases decide (i < 32) <;> simp
  · rw [f2, f1, if_neg (Nat.not_le.mpr (Nat.lt_of_lt_of_le (by decide) c))]

/-- The masking of C24 on two sample slots whose stored flags are 5, with
`TOKU_DB_VALCMP_BUILTIN_13 = 4`: the header tagged 13 is decoded with the
flags 1, the header tagged 20 with the flags 5. -/
theorem deprecated_flag_masked_witness :
    (∃ res h', deserialize_ft_versioned sample_platform sample_world_13
        (rbuf_init sample_header_13 112) 13 = some res ∧ res.ft = some h' ∧
      h'.layout_version_read_from_disk = 13 ∧ h'.flags = 1) ∧
    (∃ res h', deserialize_ft_versioned sample_platform
        (sample_world (sample_file (sample_header 1 100 20) []))
        (rbuf_init (sample_header 1 100 20) 177) 20 = some res ∧ res.ft = some h' ∧
      h'.layout_version_read_from_disk = 20 ∧ h'.flags = 5) :=
  ⟨⟨_, _, rfl, rfl,
      (deprecated_flag_masked sample_platform sample_world_13
        (rbuf_init sample_header_13 112) 13 _ _ rfl rfl).1,
      ((deprecated_flag_masked sample_platform sample_world_13
        (rbuf_init sample_header_13 112) 13 _ _ rfl rfl).2.1 (by decide)).1⟩,
   ⟨_, _, rfl, rfl,
      (deprecated_flag_masked sample_platform
        (sample_world (sample_file (sample_header 1 100 20) []))
        (rbuf_init (sample_header 1 100 20) 177) 20 _ _ rfl rfl).1,
      (deprecated_flag_masked sample_platform
        (sample_world (sample_file (sample_header 1 100 20) []))
        (rbuf_init (sample_header 1 100 20) 177) 20 _ _ rfl rfl).2.2 (by decide)⟩⟩

/-- C25: when `deserialize_ft_versioned` returns a header from a slot whose
stored version is 19 or more, `compression_method` is the octet stored at
offset 164 and `highest_unused_msn_for_upgrade` the 64-bit field stored at
offsets 165 to 172.  For a stored version below 19,
`highest_unused_msn_for_upgrade` is `MIN_MSN - 1` in 64-bit arithmetic,
`compression_method` is `TOKU_ZLIB_METHOD` when the version is below 18 and
`TOKU_QUICKLZ_METHOD` at 18, and the slot holds no octets for the two fields:
its size is the sum of the other fields alone (100 octets up to
`time_of_last_modification`, the discarded counters, the fields added by
versions 14, 15 and 18, and the 4 octets of the checksum). -/
theorem compression_defaults (p : Platform) (wd : World) (rb : rbuf) (version : Nat)
    (res : DeserializeResult) (h' : FT)
    (hres : deserialize_ft_versioned p wd rb version = some res)
    (hft : res.ft = some h') :
    (FT_LAYOUT_VERSION_19 ≤ be_value ((rb.buf.drop (rb.ndone + 8)).take 4) →
      h'.compression_method = be_value ((rb.buf.drop (rb.ndone + 164)).take 1) ∧
      h'.highest_unused_msn_for_upgrade =
        host_value p ((rb.buf.drop (rb.ndone + 165)).take 8)) ∧
    (be_value ((rb.buf.drop (rb.ndone + 8)).take 4) < FT_LAYOUT_VERSION_19 →
      h'.highest_unused_msn_for_upgrade = (p.MIN_MSN + (2 ^ 64 - 1)) % 2 ^ 64 ∧
      (0 < p.MIN_MSN → p.MIN_MSN < 2 ^ 64 →
        h'.highest_unused_msn_for_upgrade = p.MIN_MSN - 1) ∧
      h'.compression_method =
        (if be_value ((rb.buf.drop (rb.ndone + 8)).take 4) < FT_LAYOUT_VERSION_18
          then p.TOKU_ZLIB_METHOD else p.TOKU_QUICKLZ_METHOD) ∧
      rb.size = rb.ndone +
        (100 +
          (if be_value ((rb.buf.drop (rb.ndone + 8)).take 4) ≤ FT_LAYOUT_VERSION_18 then
            8 + (if FT_LAYOUT_VERSION_15 ≤ be_value ((rb.buf.drop (rb.ndone + 8)).take 4)
                 then 8 else 0)
           else 0) +
          (if FT_LAYOUT_VERSION_14 ≤ be_value ((rb.buf.drop (rb.ndone + 8)).take 4)
            then 8 else 0) +
          (if FT_LAYOUT_VERSION_15 ≤ be_value ((rb.buf.drop (rb.ndone + 8)).take 4)
            then 12 else 0) +
          (if FT_LAYOUT_VERSION_18 ≤ be_value ((rb.buf.drop (rb.ndone + 8)).take 4)
            then 44 else 0) + 4)) := by
  rcases deserialize_ft_versioned_reads p wd rb version res hres with
    ⟨hnone, _⟩ | ⟨h1, rb1, _, _, s1, n1, hi, lo, hfin⟩
  · rw [hnone] at hft
    cases hft
  obtain ⟨_, hcases⟩ := deserialize_ft_versioned_finish_cases p wd h1 rb1 version res hfin
  rcases hcases with ⟨_, hr⟩ | ⟨_, hnone, _⟩ | ⟨hend, _, h2, hft2, _, _, c2, m2⟩
  · rw [hr] at hft
    cases hft
  · rw [hnone] at hft
    cases hft
  rw [hft] at hft2
  cases hft2
  refine ⟨fun c => ?_, fun c => ?_⟩
  · rw [c2, m2]
    exact hi c
  · obtain ⟨k1, k2⟩ := lo c
    refine ⟨m2.trans k2, fun hpos hlt => ?_, c2.trans k1, ?_⟩
    · rw [m2, k2]
      have e : p.MIN_MSN + (2 ^ 64 - 1) = (p.MIN_MSN - 1) + 2 ^ 64 := by omega
      rw [e, Nat.add_mod_right, Nat.mod_eq_of_lt (by omega)]
    · rw [← ft_octets_read_lt_19 _ c, ← n1, hend, s1]

/-- The defaults of C25 on three sample slots, with `TOKU_ZLIB_METHOD = 8`,
`TOKU_QUICKLZ_METHOD = 9` and `MIN_MSN = 1`: the header tagged 20 stores the
method 9 and the MSN 77; the header tagged 13 is decoded with the method 8
and the MSN 0, the header tagged 18 with the method 9 and the MSN 0. -/
theorem compression_defaults_witness :
    (∃ res h', deserialize_ft_versioned sample_platform
        (sample_world (sample_file (sample_header 1 100 20) []))
        (rbuf_init (sample_header 1 100 20) 177) 20 = some res ∧ res.ft = some h' ∧
      h'.compression_method = 9 ∧ h'.highest_unused_msn_for_upgrade = 77) ∧
    (∃ res h', deserialize_ft_versioned sample_platform sample_world_13
        (rbuf_init sample_header_13 112) 13 = some res ∧ res.ft = some h' ∧
      h'.compression_method = 8 ∧ h'.highest_unused_msn_for_upgrade = 0) ∧
    (∃ res h', deserialize_ft_versioned sample_platform
        (sample_world (sample_file sample_header_18_with_counters []))
        (rbuf_init sample_header_18_with_counters 184) 18 = some res ∧ res.ft = some h' ∧
      h'.compression_method = 9 ∧ h'.highest_unused_msn_for_upgrade = 0) :=
  ⟨⟨_, _, rfl, rfl,
      (compression_defaults sample_platform
        (sample_world (sample_file (sample_header 1 100 20) []))
        (rbuf_init (sample_header 1 100 20) 177) 20 _ _ rfl rfl).1 (by decide)⟩,
   ⟨_, _, rfl, rfl,
      ((compression_defaults sample_platform sample_world_13
        (rbuf_init sample_header_13 112) 13 _ _ rfl rfl).2 (by decide)).2.2.1,
      ((compression_defaults sample_platform sample_world_13
        (rbuf_init sample_header_13 112) 13 _ _ rfl rfl).2 (by decide)).1⟩,
   ⟨_, _, rfl, rfl,
      ((compression_defaults sample_platform
        (sample_world (sample_file sample_header_18_with_counters []))
        (rbuf_init sample_header_18_with_counters 184) 18 _ _ rfl rfl).2 (by decide)).2.2.1,
      ((compression_defaults sample_platform
        (sample_world (sample_file sample_header_18_with_counters []))
        (rbuf_init sample_header_18_with_counters 184) 18 _ _ rfl rfl).2 (by decide)).1⟩⟩

/-- C26: `deserialize_ft_versioned` stores a header if and only if it returns
`DS_OK`, on every path that returns.  Once the trailing checksum has been
read with the cursor short of the end of the buffer, the tail of the function
returns `DS_ERRNO` with `errno = EINVAL` and a NULL header; and a call on a
buffer whose size is not the number of octets the stored version reads
either stops at a collaborator's failure before the checksum (allocation,
translation table, statistics upgrade: no header, an error code, `errno`
untouched) or returns exactly that `EINVAL` result. -/
theorem trailing_octets_rejected (p : Platform) (wd : World) (rb : rbuf) (version : Nat)
    (res : DeserializeResult)
    (hres : deserialize_ft_versioned p wd rb version = some res) :
    (res.ft.isSome = true ↔ res.e = deserialize_error_code.DS_OK) ∧
    (∀ (h : FT) (rb0 rb1 : rbuf) (x : Nat), rbuf_int p rb0 = some (x, rb1) →
      rb1.ndone ≠ rb1.size →
      deserialize_ft_versioned_finish p wd h rb0 version =
        some { e := deserialize_error_code.DS_ERRNO, ft := none, errno := some p.EINVAL }) ∧
    (rb.size ≠ rb.ndone + ft_octets_read (be_value ((rb.buf.drop (rb.ndone + 8)).take 4)) →
      res = { e := deserialize_error_code.DS_ERRNO, ft := none, errno := some p.EINVAL } ∨
      (res.ft = none ∧ res.e ≠ deserialize_error_code.DS_OK ∧ res.errno = none ∧
        (wd.calloc_fails = true ∨
         (∃ a s t, (wd.toku_blocktable_create_from_buffer a s t).1 ≠
            deserialize_error_code.DS_OK) ∨
         ∃ h0, (wd.toku_upgrade_subtree_estimates_to_stat64info h0).1 ≠
            deserialize_error_code.DS_OK))) := by
  refine ⟨?_, fun h rb0 rb1 x hread hne =>
    deserialize_ft_versioned_finish_trailing p wd h rb0 rb1 version x hread hne, ?_⟩
  · rcases deserialize_ft_versioned_reads p wd rb version res hres with
      ⟨hnone, hne, _⟩ | ⟨h1, rb1, _, _, _, _, _, _, hfin⟩
    · rw [hnone]
      exact ⟨fun hh => (by cases hh), fun hh => absurd hh hne⟩
    obtain ⟨_, hcases⟩ := deserialize_ft_versioned_finish_cases p wd h1 rb1 version res hfin
    rcases hcases with ⟨_, hr⟩ | ⟨_, hnone, hne⟩ | ⟨_, hok, h2, hft2, _⟩
    · rw [hr]
      exact ⟨fun hh => (by cases hh), fun hh => (by cases hh)⟩
    · rw [hnone]
      exact ⟨fun hh => (by cases hh), fun hh => absurd hh hne⟩
    · rw [hft2]
      exact ⟨fun _ => hok, fun _ => rfl⟩
  · intro hsize
    rcases deserialize_ft_versioned_reads p wd rb version res hres with
      hearly | ⟨h1, rb1, _, _, s1, n1, _, _, hfin⟩
    · exact Or.inr hearly
    obtain ⟨_, hcases⟩ := deserialize_ft_versioned_finish_cases p wd h1 rb1 version res hfin
    rcases hcases with ⟨_, hr⟩ | ⟨hend, _⟩ | ⟨hend, _⟩
    · exact Or.inl hr
    · exact absurd (by rw [← n1, hend, s1]) hsize
    · exact absurd (by rw [← n1, hend, s1]) hsize

/-- The rejection of C26 on the sample header of version 17 laid out by the
size table: 156 octets declared, 140 read. -/
theorem trailing_octets_rejected_witness :
    deserialize_ft_versioned sample_platform (sample_world (sample_file sample_header_17 []))
      (rbuf_init sample_header_17 156) 17 =
      some { e := deserialize_error_code.DS_ERRNO, ft := none, errno := some 22 } ∧
    ft_octets_read 17 = 140 ∧
    ((none : Option FT).isSome = true ↔
      deserialize_error_code.DS_ERRNO = deserialize_error_code.DS_OK) :=
  ⟨rfl, rfl,
    (trailing_octets_rejected sample_platform (sample_world (sample_file sample_header_17 []))
      (rbuf_init sample_header_17 156) 17
      { e := deserialize_error_code.DS_ERRNO, ft := none, errno := some 22 } rfl).1⟩

end FtSerialize
